import Mathlib

/-!
# Level-Zero benchmark measurement engine

A shallow embedding of the measurement core of the Level-Zero performance tests:

* `ZePeak.set_workgroups` and `ZePeak.total_current_work_items`
  (`perf_tests/ze_peak/src/ze_peak.cpp`), the workgroup solver;
* `ZePeak.context_time_in_us` and `ZePeak.run_kernel`, the timing engine;
* `XePeer.bandwidth` and `XePeer.latency` (`perf_tests/xe_peer/src/xe_peer.cpp`),
  the peer transfer harness.

Machine integers are natural numbers reduced modulo `2 ^ 64` or `2 ^ 32` where the
C++ type wraps.  `long double` and `double` values are rationals: every statement
about a duration or a bandwidth is a statement in exact arithmetic.
-/

namespace ZePeak

/-! ## Machine arithmetic -/

/-- Product of two `uint64_t` values: unsigned multiplication wraps modulo `2 ^ 64`. -/
def u64_mul (a b : Nat) : Nat := (a * b) % 2 ^ 64

/-- Sum of two `uint64_t` values: unsigned addition wraps modulo `2 ^ 64`. -/
def u64_add (a b : Nat) : Nat := (a + b) % 2 ^ 64

/-- Difference of two `uint64_t` values (both below `2 ^ 64`): unsigned subtraction
wraps modulo `2 ^ 64`. -/
def u64_sub (a b : Nat) : Nat := (a + 2 ^ 64 - b) % 2 ^ 64

/-- Quotient of two `uint64_t` values; division by zero has no result. -/
def u64_div (a b : Nat) : Option Nat := if b = 0 then none else some (a / b)

/-- Conversion `static_cast<uint32_t>` of a `uint64_t` value. -/
def u32_cast (a : Nat) : Nat := a % 2 ^ 32

/-! ## Workgroup solver: data -/

/-- The fields of `ze_device_compute_properties_t` read by `set_workgroups`
(`context.device_compute_property`).  Each field is a `uint32_t`. -/
structure DeviceComputeProperties where
  maxGroupSizeX : Nat
  maxGroupCountX : Nat
  maxGroupCountY : Nat
  maxGroupCountZ : Nat
  deriving Repr, DecidableEq

/-- Every field of the device limits fits its `uint32_t` type. -/
def DeviceComputeProperties.InRange (p : DeviceComputeProperties) : Prop :=
  p.maxGroupSizeX < 2 ^ 32 ∧ p.maxGroupCountX < 2 ^ 32 ∧
  p.maxGroupCountY < 2 ^ 32 ∧ p.maxGroupCountZ < 2 ^ 32

/-- Every device limit is at least one (the precondition of the solver). -/
def DeviceComputeProperties.Positive (p : DeviceComputeProperties) : Prop :=
  1 ≤ p.maxGroupSizeX ∧ 1 ≤ p.maxGroupCountX ∧
  1 ≤ p.maxGroupCountY ∧ 1 ≤ p.maxGroupCountZ

instance (p : DeviceComputeProperties) : Decidable p.InRange := by
  unfold DeviceComputeProperties.InRange
  infer_instance

instance (p : DeviceComputeProperties) : Decidable p.Positive := by
  unfold DeviceComputeProperties.Positive
  infer_instance

/-- The plan `struct ZeWorkGroups`: three `uint32_t` group sizes and the three
`uint32_t` fields of `thread_group_dimensions`. -/
structure ZeWorkGroups where
  group_size_x : Nat
  group_size_y : Nat
  group_size_z : Nat
  groupCountX : Nat
  groupCountY : Nat
  groupCountZ : Nat
  deriving Repr, DecidableEq

/-! ## Workgroup solver: code -/

/-- The function `total_current_work_items`: the product of its six `uint64_t`
arguments, multiplied left to right in 64 bits. -/
def total_current_work_items (group_size_x group_count_x group_size_y group_count_y
    group_size_z group_count_z : Nat) : Nat :=
  u64_mul (u64_mul (u64_mul (u64_mul (u64_mul group_size_x group_count_x) group_size_y)
    group_count_y) group_size_z) group_count_z

/-- The function `ZePeak::set_workgroups`.  The result is the plan stored through
`workgroup_info` together with the returned `final_work_items`; it is `none` when a
divisor is zero.  The `verbose` printing does not touch either value. -/
def set_workgroups (prop : DeviceComputeProperties) (total_work_items_requested : Nat) :
    Option (ZeWorkGroups × Nat) :=
  let group_size_x := min total_work_items_requested prop.maxGroupSizeX
  let group_size_y := 1
  let group_size_z := 1
  let group_size := u64_mul (u64_mul group_size_x group_size_y) group_size_z
  (u64_div total_work_items_requested group_size).bind fun group_count_x =>
  let group_count_x := min group_count_x prop.maxGroupCountX
  let remaining_items :=
    u64_sub total_work_items_requested (u64_mul group_count_x group_size)
  (u64_div remaining_items (u64_mul group_count_x group_size)).bind fun group_count_y =>
  let group_count_y := min group_count_y prop.maxGroupCountY
  let group_count_y := max group_count_y 1
  let remaining_items :=
    u64_sub total_work_items_requested
      (u64_mul (u64_mul group_count_x group_count_y) group_size)
  (u64_div remaining_items
    (u64_mul (u64_mul group_count_x group_count_y) group_size)).bind fun group_count_z =>
  let group_count_z := min group_count_z prop.maxGroupCountZ
  let group_count_z := max group_count_z 1
  let final_work_items :=
    u64_mul (u64_mul (u64_mul group_count_x group_count_y) group_count_z) group_size
  some
    ({ group_size_x := u32_cast group_size_x
       group_size_y := u32_cast group_size_y
       group_size_z := u32_cast group_size_z
       groupCountX := u32_cast group_count_x
       groupCountY := u32_cast group_count_y
       groupCountZ := u32_cast group_count_z },
     final_work_items)

/-- The arithmetic faults a run of `set_workgroups` could meet. -/
inductive ArithFault where
  | divide_by_zero
  | subtraction_wraps
  | product_overflows
  deriving Repr, DecidableEq

/-- A 64-bit product that reports an overflow instead of wrapping. -/
def chk_mul (a b : Nat) : Except ArithFault Nat :=
  if a * b < 2 ^ 64 then .ok (a * b) else .error .product_overflows

/-- A 64-bit subtraction that reports a wrap below zero instead of wrapping. -/
def chk_sub (a b : Nat) : Except ArithFault Nat :=
  if b ≤ a then .ok (a - b) else .error .subtraction_wraps

/-- A 64-bit division that reports a zero divisor. -/
def chk_div (a b : Nat) : Except ArithFault Nat :=
  if b = 0 then .error .divide_by_zero else .ok (a / b)

/-- The arithmetic of `ZePeak::set_workgroups`, line by line, with every product,
subtraction and division of lines 415-443 checked: the result is the returned
`final_work_items` with the six computed 64-bit values, or the first fault met. -/
def set_workgroups_checked (prop : DeviceComputeProperties)
    (total_work_items_requested : Nat) : Except ArithFault (ZeWorkGroups × Nat) := do
  let group_size_x := min total_work_items_requested prop.maxGroupSizeX
  let group_size_y := 1
  let group_size_z := 1
  let group_size ← chk_mul (← chk_mul group_size_x group_size_y) group_size_z
  let group_count_x ← chk_div total_work_items_requested group_size
  let group_count_x := min group_count_x prop.maxGroupCountX
  let remaining_items ←
    chk_sub total_work_items_requested (← chk_mul group_count_x group_size)
  let group_count_y ← chk_div remaining_items (← chk_mul group_count_x group_size)
  let group_count_y := min group_count_y prop.maxGroupCountY
  let group_count_y := max group_count_y 1
  let remaining_items ←
    chk_sub total_work_items_requested
      (← chk_mul (← chk_mul group_count_x group_count_y) group_size)
  let group_count_z ←
    chk_div remaining_items (← chk_mul (← chk_mul group_count_x group_count_y) group_size)
  let group_count_z := min group_count_z prop.maxGroupCountZ
  let group_count_z := max group_count_z 1
  let final_work_items ←
    chk_mul (← chk_mul (← chk_mul group_count_x group_count_y) group_count_z) group_size
  let _remaining_items ← chk_sub total_work_items_requested final_work_items
  let workgroup_info : ZeWorkGroups :=
    { group_size_x := group_size_x
      group_size_y := group_size_y
      group_size_z := group_size_z
      groupCountX := group_count_x
      groupCountY := group_count_y
      groupCountZ := group_count_z }
  return (workgroup_info, final_work_items)

/-! ## Workgroup solver: the greedy plan in exact arithmetic -/

/-- Group size of the greedy plan: `min(R, maxGroupSizeX)`. -/
def greedy_group_size (prop : DeviceComputeProperties) (R : Nat) : Nat :=
  min R prop.maxGroupSizeX

/-- Group count in X of the greedy plan. -/
def greedy_count_x (prop : DeviceComputeProperties) (R : Nat) : Nat :=
  min (R / greedy_group_size prop R) prop.maxGroupCountX

/-- Group count in Y of the greedy plan. -/
def greedy_count_y (prop : DeviceComputeProperties) (R : Nat) : Nat :=
  max (min ((R - greedy_count_x prop R * greedy_group_size prop R) /
    (greedy_count_x prop R * greedy_group_size prop R)) prop.maxGroupCountY) 1

/-- Group count in Z of the greedy plan. -/
def greedy_count_z (prop : DeviceComputeProperties) (R : Nat) : Nat :=
  max (min ((R - greedy_count_x prop R * greedy_count_y prop R * greedy_group_size prop R) /
    (greedy_count_x prop R * greedy_count_y prop R * greedy_group_size prop R))
    prop.maxGroupCountZ) 1

/-- The greedy plan as a `ZeWorkGroups` value. -/
def greedy_plan (prop : DeviceComputeProperties) (R : Nat) : ZeWorkGroups :=
  { group_size_x := greedy_group_size prop R
    group_size_y := 1
    group_size_z := 1
    groupCountX := greedy_count_x prop R
    groupCountY := greedy_count_y prop R
    groupCountZ := greedy_count_z prop R }

/-- Executed work items of the greedy plan, as an exact product. -/
def greedy_work_items (prop : DeviceComputeProperties) (R : Nat) : Nat :=
  greedy_count_x prop R * greedy_count_y prop R * greedy_count_z prop R *
    greedy_group_size prop R


/-! ## Timing engine: the driver and the host timer -/

/-- A driver handle (`ze_kernel_handle_t`, `ze_event_handle_t`, ...). -/
abbrev Handle := Nat

/-- The flags given to `zeEventPoolCreate`. -/
structure EventPoolFlags where
  host_visible : Bool
  kernel_timestamp : Bool
  deriving Repr, DecidableEq

/-- The Level-Zero entry points called by `run_kernel` and its helpers, with the
arguments that distinguish one call from another. -/
inductive DriverCall where
  | zeKernelSetGroupSize (function : Handle) (x y z : Nat)
  | zeCommandListAppendLaunchKernel (command_list function : Handle)
      (groupCountX groupCountY groupCountZ : Nat) (signal_event : Option Handle)
  | zeCommandListAppendSignalEvent (command_list event : Handle)
  | zeCommandListClose (command_list : Handle)
  | zeCommandQueueExecuteCommandLists (command_queue command_list : Handle)
  | zeCommandQueueSynchronize (command_queue : Handle)
  | zeCommandListReset (command_list : Handle)
  | zeEventPoolCreate (flags : EventPoolFlags)
  | zeEventCreate (event_pool : Handle)
  | zeEventHostSynchronize (event : Handle)
  | zeEventHostReset (event : Handle)
  | zeEventQueryKernelTimestamp (event : Handle)
  | zeEventDestroy (event : Handle)
  | zeEventPoolDestroy (event_pool : Handle)
  deriving Repr, DecidableEq

/-- One observable step of the host thread: a driver call or a use of the host
`Timer`. -/
inductive Step where
  | call (c : DriverCall)
  | timer_start
  | timer_stopAndTime
  deriving Repr, DecidableEq

/-- The `context` part of `ze_kernel_timestamp_result_t`: two `uint64_t` tick counts. -/
structure KernelTimestamp where
  kernelStart : Nat
  kernelEnd : Nat
  deriving Repr, DecidableEq

/-- The answers of the world outside the program.  `result k` is the `ze_result_t`
of the `k`-th driver call (`0` is `ZE_RESULT_SUCCESS`), `handle k` the handle that
call writes when it creates an object, `timestamp q` the value written by the `q`-th
`zeEventQueryKernelTimestamp`, and `stopAndTime t` the microseconds returned by the
`t`-th `Timer::stopAndTime()` (the class `Timer` is declared outside the sources
at hand, so its reading is taken as given). -/
structure Driver where
  result : Nat → Nat
  handle : Nat → Handle
  timestamp : Nat → KernelTimestamp
  stopAndTime : Nat → Rat

/-- The state of a run: how many driver calls, timestamp queries and timer readings
have been made, and the steps taken so far, oldest first. -/
structure World where
  calls : Nat
  queries : Nat
  stops : Nat
  trace : List Step
  deriving Repr, DecidableEq

/-- Why a run stops early: a thrown `std::runtime_error` carrying its message, or a
shift whose count is not below the width of `int`. -/
inductive Failure where
  | runtime_error (what : String)
  | undefined_shift
  deriving Repr, DecidableEq

/-- A computation of the host thread: from a world to a failure or to a value and
the world after it. -/
def M (α : Type) : Type := World → Except Failure (α × World)

instance : Monad M where
  pure a := fun w => .ok (a, w)
  bind m f := fun w =>
    match m w with
    | .ok (a, w') => f a w'
    | .error e => .error e

/-- Leave the computation with a failure. -/
def fail {α : Type} (e : Failure) : M α := fun _ => .error e

/-- A driver call that returns only its `ze_result_t`. -/
def issue (d : Driver) (c : DriverCall) : M Nat := fun w =>
  .ok (d.result w.calls,
    { w with calls := w.calls + 1, trace := w.trace ++ [Step.call c] })

/-- A driver call that also writes a handle through its last argument. -/
def issue_create (d : Driver) (c : DriverCall) : M (Nat × Handle) := fun w =>
  .ok ((d.result w.calls, d.handle w.calls),
    { w with calls := w.calls + 1, trace := w.trace ++ [Step.call c] })

/-- The driver call `zeEventQueryKernelTimestamp`, which also writes `ts_result`. -/
def issue_query (d : Driver) (event : Handle) : M (Nat × KernelTimestamp) := fun w =>
  .ok ((d.result w.calls, d.timestamp w.queries),
    { w with calls := w.calls + 1, queries := w.queries + 1,
             trace := w.trace ++ [Step.call (.zeEventQueryKernelTimestamp event)] })

/-- The call `timer.start()`. -/
def timer_start : M Unit := fun w =>
  .ok ((), { w with trace := w.trace ++ [Step.timer_start] })

/-- The call `timer.stopAndTime()`. -/
def timer_stopAndTime (d : Driver) : M Rat := fun w =>
  .ok (d.stopAndTime w.stops,
    { w with stops := w.stops + 1, trace := w.trace ++ [Step.timer_stopAndTime] })

/-- The statement `if (result) throw std::runtime_error(name + " failed: " +
std::to_string(result));`. -/
def check (name : String) (result : Nat) : M Unit :=
  if result ≠ 0 then
    fail (.runtime_error (name ++ " failed: " ++ toString result))
  else pure ()

/-- The loop `for (uint32_t i = 0; i < n; i++) body`, threading the value the body
updates. -/
def for_loop {σ : Type} (n : Nat) (body : σ → M σ) (init : σ) : M σ :=
  match n with
  | 0 => pure init
  | n + 1 => do
    let next ← body init
    for_loop n body next

/-! ## Timing engine: code -/

/-- The fields of `ze_device_properties_t` read by `context_time_in_us`:
`timerResolution` (a `uint64_t`) and `kernelTimestampValidBits` (a `uint32_t`). -/
structure DeviceProperties where
  timerResolution : Nat
  kernelTimestampValidBits : Nat
  deriving Repr, DecidableEq

/-- The fields of `L0Context` used by the timing engine. -/
structure L0Context where
  command_list : Handle
  command_queue : Handle
  device_property : DeviceProperties
  deriving Repr, DecidableEq

/-- The four values of `enum class TimingMeasurement`. -/
inductive TimingMeasurement where
  | BANDWIDTH
  | BANDWIDTH_EVENT_TIMING
  | KERNEL_LAUNCH_LATENCY
  | KERNEL_COMPLETE_RUNTIME
  deriving Repr, DecidableEq

/-- The expression `-1 << b` on a 32-bit two's complement `int`: it has a value only
when the count `b` is below the width of the type. -/
def shl_minus_one (b : Nat) : Option Int :=
  if b < 32 then some (-(2 ^ b : Int)) else none

/-- The operator `~` on an `int`. -/
def bit_not (x : Int) : Int := -x - 1

/-- Conversion of an `int` to `uint64_t`. -/
def int_to_u64 (x : Int) : Nat := (x % 2 ^ 64).toNat

/-- The local `timestamp_max_value = ~(-1 << kernelTimestampValidBits)`. -/
def timestamp_max_value (kernelTimestampValidBits : Nat) : Option Nat :=
  (shl_minus_one kernelTimestampValidBits).map fun x => int_to_u64 (bit_not x)

/-- The conditional expression assigned to `context_time_ns`: the tick count of the
event, in 64-bit unsigned arithmetic, times `(double)timestamp_freq`. -/
def context_time_ns (ts_result : KernelTimestamp) (timestamp_freq timestamp_max_value : Nat) :
    Rat :=
  if ts_result.kernelEnd ≥ ts_result.kernelStart then
    ((u64_sub ts_result.kernelEnd ts_result.kernelStart : Nat) : Rat) * (timestamp_freq : Rat)
  else
    ((u64_add (u64_add (u64_sub timestamp_max_value ts_result.kernelStart)
      ts_result.kernelEnd) 1 : Nat) : Rat) * (timestamp_freq : Rat)

/-- The elapsed tick count of an event as the specification words it:
`kernelEnd - kernelStart` when `kernelEnd ≥ kernelStart`, and
`(timestamp_max_value - kernelStart) + kernelEnd + 1` otherwise, each operation
being the `uint64_t` one. -/
def elapsed_ticks (kernelStart kernelEnd timestamp_max_value : Nat) : Nat :=
  if kernelEnd ≥ kernelStart then u64_sub kernelEnd kernelStart
  else u64_add (u64_add (u64_sub timestamp_max_value kernelStart) kernelEnd) 1

/-- The function `ZePeak::context_time_in_us`. -/
def context_time_in_us (d : Driver) (context : L0Context) (event : Handle) : M Rat := do
  let (result, ts_result) ← issue_query d event
  check "zeEventQueryKernelTimeStamp" result
  let timestamp_freq := context.device_property.timerResolution
  let timestamp_max_value ←
    match timestamp_max_value context.device_property.kernelTimestampValidBits with
    | some v => pure v
    | none => fail .undefined_shift
  let context_time_ns := context_time_ns ts_result timestamp_freq timestamp_max_value
  return context_time_ns / 1000

/-- The function `L0Context::reset_commandlist`. -/
def reset_commandlist (d : Driver) (cmd_list : Handle) : M Unit := do
  let result ← issue d (.zeCommandListReset cmd_list)
  check "zeCommandListReset" result

/-- The function `ZePeak::run_command_queue`. -/
def run_command_queue (d : Driver) (context : L0Context) : M Unit := do
  let result ← issue d
    (.zeCommandQueueExecuteCommandLists context.command_queue context.command_list)
  check "zeCommandQueueExecuteCommandLists" result

/-- The function `ZePeak::synchronize_command_queue`. -/
def synchronize_command_queue (d : Driver) (context : L0Context) : M Unit := do
  let result ← issue d (.zeCommandQueueSynchronize context.command_queue)
  check "zeCommandQueueSynchronize" result

/-- The function `single_event_pool_create`; the value is the pool handle. -/
def single_event_pool_create (d : Driver) (flags : EventPoolFlags) : M Handle := do
  let (result, kernel_launch_event_pool) ← issue_create d (.zeEventPoolCreate flags)
  check "zeEventPoolCreate" result
  return kernel_launch_event_pool

/-- The function `single_event_create`; the value is the event handle. -/
def single_event_create (d : Driver) (event_pool : Handle) : M Handle := do
  let (result, event) ← issue_create d (.zeEventCreate event_pool)
  check "zeEventCreate" result
  return event

/-- The flags `ZE_EVENT_POOL_FLAG_HOST_VISIBLE | ZE_EVENT_POOL_FLAG_KERNEL_TIMESTAMP`. -/
def host_visible_kernel_timestamp : EventPoolFlags :=
  { host_visible := true, kernel_timestamp := true }

/-- The flag `ZE_EVENT_POOL_FLAG_HOST_VISIBLE`. -/
def host_visible_only : EventPoolFlags :=
  { host_visible := true, kernel_timestamp := false }

/-- The call `zeCommandListAppendLaunchKernel` of `run_kernel` with its check. -/
def append_launch_kernel (d : Driver) (context : L0Context) (function : Handle)
    (workgroup_info : ZeWorkGroups) (signal_event : Option Handle) : M Unit := do
  let result ← issue d (.zeCommandListAppendLaunchKernel context.command_list function
    workgroup_info.groupCountX workgroup_info.groupCountY workgroup_info.groupCountZ
    signal_event)
  check "zeCommandListAppendLaunchKernel" result

/-- The call `zeCommandListClose` of `run_kernel` with its check. -/
def close_command_list (d : Driver) (context : L0Context) : M Unit := do
  let result ← issue d (.zeCommandListClose context.command_list)
  check "zeCommandListClose" result

/-- The call `zeCommandQueueExecuteCommandLists` written out in `run_kernel`, with its
check. -/
def execute_command_lists (d : Driver) (context : L0Context) : M Unit := do
  let result ← issue d
    (.zeCommandQueueExecuteCommandLists context.command_queue context.command_list)
  check "zeCommandQueueExecuteCommandLists" result

/-- The call `zeEventHostSynchronize(event, UINT64_MAX)` with its check. -/
def event_host_synchronize (d : Driver) (event : Handle) : M Unit := do
  let result ← issue d (.zeEventHostSynchronize event)
  check "zeEventHostSynchronize" result

/-- The call `zeCommandQueueSynchronize(context.command_queue, UINT64_MAX)` written
out in `run_kernel`, with its check. -/
def queue_synchronize (d : Driver) (context : L0Context) : M Unit := do
  let result ← issue d (.zeCommandQueueSynchronize context.command_queue)
  check "zeCommandQueueSynchronize" result

/-- The call `zeEventHostReset` with its check. -/
def event_host_reset (d : Driver) (event : Handle) : M Unit := do
  let result ← issue d (.zeEventHostReset event)
  check "zeEventHostReset" result

/-- The branch `type == TimingMeasurement::BANDWIDTH` of `run_kernel` (lines 569-599);
the value is `timed`. -/
def run_kernel_bandwidth (d : Driver) (warmup_iterations iters : Nat) (context : L0Context)
    (function : Handle) (workgroup_info : ZeWorkGroups) : M Rat := do
  append_launch_kernel d context function workgroup_info none
  close_command_list d context
  for_loop warmup_iterations (fun _ => run_command_queue d context) ()
  synchronize_command_queue d context
  timer_start
  for_loop iters (fun _ => run_command_queue d context) ()
  synchronize_command_queue d context
  let timed ← timer_stopAndTime d
  return timed

/-- Body of the warm-up loop of the `BANDWIDTH_EVENT_TIMING` branch (lines 632-659). -/
def event_timing_warmup_body (d : Driver) (context : L0Context) (function_event : Handle) :
    M Unit := do
  execute_command_lists d context
  event_host_synchronize d function_event
  queue_synchronize d context
  event_host_reset d function_event

/-- Body of the measured loop of the `BANDWIDTH_EVENT_TIMING` branch (lines 661-692);
the value is the updated `timed`. -/
def event_timing_measured_body (d : Driver) (context : L0Context) (function_event : Handle)
    (timed : Rat) : M Rat := do
  execute_command_lists d context
  event_host_synchronize d function_event
  let timed := timed + (← context_time_in_us d context function_event)
  queue_synchronize d context
  event_host_reset d function_event
  return timed

/-- The branch `type == TimingMeasurement::BANDWIDTH_EVENT_TIMING` of `run_kernel`
(lines 600-694); `timed` enters as zero and its final value is returned. -/
def run_kernel_event_timing (d : Driver) (warmup_iterations iters : Nat)
    (context : L0Context) (function : Handle) (workgroup_info : ZeWorkGroups)
    (timed : Rat) : M Rat := do
  let event_pool ← single_event_pool_create d host_visible_kernel_timestamp
  let function_event ← single_event_create d event_pool
  append_launch_kernel d context function workgroup_info (some function_event)
  close_command_list d context
  for_loop warmup_iterations (fun _ => event_timing_warmup_body d context function_event) ()
  let timed ← for_loop iters (event_timing_measured_body d context function_event) timed
  let _ ← issue d (.zeEventDestroy function_event)
  let _ ← issue d (.zeEventPoolDestroy event_pool)
  return timed

/-- Body of the warm-up loop of the `KERNEL_LAUNCH_LATENCY` branch (lines 734-749). -/
def launch_latency_warmup_body (d : Driver) (context : L0Context)
    (kernel_launch_event : Handle) : M Unit := do
  run_command_queue d context
  synchronize_command_queue d context
  event_host_synchronize d kernel_launch_event
  event_host_reset d kernel_launch_event

/-- Body of the measured loop of the `KERNEL_LAUNCH_LATENCY` branch (lines 751-782). -/
def launch_latency_measured_body (d : Driver) (context : L0Context)
    (kernel_launch_event : Handle) (timed : Rat) : M Rat := do
  timer_start
  execute_command_lists d context
  event_host_synchronize d kernel_launch_event
  let timed := timed + (← timer_stopAndTime d)
  queue_synchronize d context
  event_host_reset d kernel_launch_event
  return timed

/-- The branch `type == TimingMeasurement::KERNEL_LAUNCH_LATENCY` of `run_kernel`
(lines 695-785). -/
def run_kernel_launch_latency (d : Driver) (warmup_iterations iters : Nat)
    (context : L0Context) (function : Handle) (workgroup_info : ZeWorkGroups)
    (timed : Rat) : M Rat := do
  let kernel_launch_event_pool ← single_event_pool_create d host_visible_only
  let kernel_launch_event ← single_event_create d kernel_launch_event_pool
  let result ← issue d
    (.zeCommandListAppendSignalEvent context.command_list kernel_launch_event)
  check "zeCommandListAppendSignalEvent" result
  append_launch_kernel d context function workgroup_info none
  close_command_list d context
  for_loop warmup_iterations
    (fun _ => launch_latency_warmup_body d context kernel_launch_event) ()
  let timed ← for_loop iters (launch_latency_measured_body d context kernel_launch_event) timed
  let _ ← issue d (.zeEventDestroy kernel_launch_event)
  let _ ← issue d (.zeEventPoolDestroy kernel_launch_event_pool)
  return timed

/-- Body of the warm-up loop of the `KERNEL_COMPLETE_RUNTIME` branch (lines 819-831). -/
def complete_runtime_warmup_body (d : Driver) (context : L0Context)
    (kernel_duration_event : Handle) : M Unit := do
  run_command_queue d context
  event_host_synchronize d kernel_duration_event
  event_host_reset d kernel_duration_event

/-- Body of the measured loop of the `KERNEL_COMPLETE_RUNTIME` branch (lines 835-852). -/
def complete_runtime_measured_body (d : Driver) (context : L0Context)
    (kernel_duration_event : Handle) (timed : Rat) : M Rat := do
  run_command_queue d context
  synchronize_command_queue d context
  event_host_synchronize d kernel_duration_event
  let timed := timed + (← context_time_in_us d context kernel_duration_event)
  event_host_reset d kernel_duration_event
  return timed

/-- The branch `type == TimingMeasurement::KERNEL_COMPLETE_RUNTIME` of `run_kernel`
(lines 786-856). -/
def run_kernel_complete_runtime (d : Driver) (warmup_iterations iters : Nat)
    (context : L0Context) (function : Handle) (workgroup_info : ZeWorkGroups)
    (timed : Rat) : M Rat := do
  let event_pool ← single_event_pool_create d host_visible_kernel_timestamp
  let kernel_duration_event ← single_event_create d event_pool
  append_launch_kernel d context function workgroup_info (some kernel_duration_event)
  close_command_list d context
  for_loop warmup_iterations
    (fun _ => complete_runtime_warmup_body d context kernel_duration_event) ()
  synchronize_command_queue d context
  let timed ←
    for_loop iters (complete_runtime_measured_body d context kernel_duration_event) timed
  let _ ← issue d (.zeEventDestroy kernel_duration_event)
  let _ ← issue d (.zeEventPoolDestroy event_pool)
  return timed

/-- The function `ZePeak::run_kernel`.  `warmup_iterations` and `iters` are the
`uint32_t` members of `ZePeak`; the quotient `timed / iters` is exact.  The
`verbose` printing is left out. -/
def run_kernel (d : Driver) (warmup_iterations iters : Nat) (context : L0Context)
    (function : Handle) (workgroup_info : ZeWorkGroups) (type : TimingMeasurement)
    (reset_command_list : Bool) : M Rat := do
  let timed : Rat := 0
  let result ← issue d (.zeKernelSetGroupSize function workgroup_info.group_size_x
    workgroup_info.group_size_y workgroup_info.group_size_z)
  check "zeKernelSetGroupSize" result
  let timed ←
    match type with
    | .BANDWIDTH =>
      run_kernel_bandwidth d warmup_iterations iters context function workgroup_info
    | .BANDWIDTH_EVENT_TIMING =>
      run_kernel_event_timing d warmup_iterations iters context function workgroup_info timed
    | .KERNEL_LAUNCH_LATENCY =>
      run_kernel_launch_latency d warmup_iterations iters context function workgroup_info timed
    | .KERNEL_COMPLETE_RUNTIME =>
      run_kernel_complete_runtime d warmup_iterations iters context function workgroup_info
        timed
  if reset_command_list then
    reset_commandlist d context.command_list
  return timed / (iters : Rat)

/-! ## Timing engine: vocabulary for runs -/

/-- The world after `calls` more driver calls, `queries` more timestamp queries and
`stops` more timer readings, whose steps were `steps`. -/
def World.extend (w : World) (calls queries stops : Nat) (steps : List Step) : World :=
  { calls := w.calls + calls, queries := w.queries + queries, stops := w.stops + stops,
    trace := w.trace ++ steps }

/-- The steps of `n` consecutive iterations that each take the steps `steps`. -/
def repeated (n : Nat) (steps : List Step) : List Step :=
  match n with
  | 0 => []
  | n + 1 => steps ++ repeated n steps

/-- The sum `f 0 + f 1 + ... + f (n - 1)`. -/
def sum_first (n : Nat) (f : Nat → Rat) : Rat := ((List.range n).map f).sum

/-- The step of executing the context's command list on its queue. -/
def exec_step (context : L0Context) : Step :=
  .call (.zeCommandQueueExecuteCommandLists context.command_queue context.command_list)

/-- The step of synchronizing the context's command queue. -/
def sync_step (context : L0Context) : Step :=
  .call (.zeCommandQueueSynchronize context.command_queue)

/-- The step of waiting on an event from the host. -/
def wait_step (event : Handle) : Step := .call (.zeEventHostSynchronize event)

/-- The step of resetting an event from the host. -/
def reset_step (event : Handle) : Step := .call (.zeEventHostReset event)

/-- The step of querying the kernel timestamp of an event. -/
def query_step (event : Handle) : Step := .call (.zeEventQueryKernelTimestamp event)

/-- The step of appending the kernel launch to the context's command list. -/
def launch_step (context : L0Context) (function : Handle) (workgroup_info : ZeWorkGroups)
    (signal_event : Option Handle) : Step :=
  .call (.zeCommandListAppendLaunchKernel context.command_list function
    workgroup_info.groupCountX workgroup_info.groupCountY workgroup_info.groupCountZ
    signal_event)

/-- The step of closing the context's command list. -/
def close_step (context : L0Context) : Step :=
  .call (.zeCommandListClose context.command_list)

/-- The sample a measured iteration reads from the `q`-th timestamp query: the tick
count times the timer resolution, over one thousand. -/
def event_sample (d : Driver) (context : L0Context) (tmv : Nat) (q : Nat) : Rat :=
  ((elapsed_ticks (d.timestamp q).kernelStart (d.timestamp q).kernelEnd tmv : Nat) : Rat) *
    (context.device_property.timerResolution : Rat) / 1000

/-- The steps of the `BANDWIDTH` branch of a run in which no call fails. -/
def bandwidth_steps (warmup_iterations iters : Nat) (context : L0Context) (function : Handle)
    (workgroup_info : ZeWorkGroups) : List Step :=
  [launch_step context function workgroup_info none, close_step context] ++
    repeated warmup_iterations [exec_step context] ++
    [sync_step context, Step.timer_start] ++
    repeated iters [exec_step context] ++
    [sync_step context, Step.timer_stopAndTime]

/-- The steps of the `BANDWIDTH_EVENT_TIMING` branch of a run in which no call fails. -/
def event_timing_steps (warmup_iterations iters : Nat) (context : L0Context)
    (function : Handle) (workgroup_info : ZeWorkGroups) (event_pool event : Handle) :
    List Step :=
  [Step.call (.zeEventPoolCreate host_visible_kernel_timestamp),
    Step.call (.zeEventCreate event_pool),
    launch_step context function workgroup_info (some event), close_step context] ++
    repeated warmup_iterations
      [exec_step context, wait_step event, sync_step context, reset_step event] ++
    repeated iters
      [exec_step context, wait_step event, query_step event, sync_step context,
        reset_step event] ++
    [Step.call (.zeEventDestroy event), Step.call (.zeEventPoolDestroy event_pool)]

/-- The steps of the `KERNEL_LAUNCH_LATENCY` branch of a run in which no call fails. -/
def launch_latency_steps (warmup_iterations iters : Nat) (context : L0Context)
    (function : Handle) (workgroup_info : ZeWorkGroups) (event_pool event : Handle) :
    List Step :=
  [Step.call (.zeEventPoolCreate host_visible_only),
    Step.call (.zeEventCreate event_pool),
    Step.call (.zeCommandListAppendSignalEvent context.command_list event),
    launch_step context function workgroup_info none, close_step context] ++
    repeated warmup_iterations
      [exec_step context, sync_step context, wait_step event, reset_step event] ++
    repeated iters
      [Step.timer_start, exec_step context, wait_step event, Step.timer_stopAndTime,
        sync_step context, reset_step event] ++
    [Step.call (.zeEventDestroy event), Step.call (.zeEventPoolDestroy event_pool)]

/-- The steps of the `KERNEL_COMPLETE_RUNTIME` branch of a run in which no call fails. -/
def complete_runtime_steps (warmup_iterations iters : Nat) (context : L0Context)
    (function : Handle) (workgroup_info : ZeWorkGroups) (event_pool event : Handle) :
    List Step :=
  [Step.call (.zeEventPoolCreate host_visible_kernel_timestamp),
    Step.call (.zeEventCreate event_pool),
    launch_step context function workgroup_info (some event), close_step context] ++
    repeated warmup_iterations [exec_step context, wait_step event, reset_step event] ++
    [sync_step context] ++
    repeated iters
      [exec_step context, sync_step context, wait_step event, query_step event,
        reset_step event] ++
    [Step.call (.zeEventDestroy event), Step.call (.zeEventPoolDestroy event_pool)]

/-- The steps of the branch of `run_kernel` chosen by `type`, in a run in which no call
fails and whose branch starts after `calls` driver calls: the pool handle is written
by the call numbered `calls` and the event handle by the next one. -/
def branch_steps (d : Driver) (calls : Nat) (type : TimingMeasurement)
    (warmup_iterations iters : Nat) (context : L0Context) (function : Handle)
    (workgroup_info : ZeWorkGroups) : List Step :=
  match type with
  | .BANDWIDTH => bandwidth_steps warmup_iterations iters context function workgroup_info
  | .BANDWIDTH_EVENT_TIMING =>
    event_timing_steps warmup_iterations iters context function workgroup_info
      (d.handle calls) (d.handle (calls + 1))
  | .KERNEL_LAUNCH_LATENCY =>
    launch_latency_steps warmup_iterations iters context function workgroup_info
      (d.handle calls) (d.handle (calls + 1))
  | .KERNEL_COMPLETE_RUNTIME =>
    complete_runtime_steps warmup_iterations iters context function workgroup_info
      (d.handle calls) (d.handle (calls + 1))

/-- The number of driver calls of the branch chosen by `type`, when no call fails. -/
def branch_calls (type : TimingMeasurement) (warmup_iterations iters : Nat) : Nat :=
  match type with
  | .BANDWIDTH => warmup_iterations + iters + 4
  | .BANDWIDTH_EVENT_TIMING => 4 * warmup_iterations + 5 * iters + 6
  | .KERNEL_LAUNCH_LATENCY => 4 * warmup_iterations + 4 * iters + 7
  | .KERNEL_COMPLETE_RUNTIME => 3 * warmup_iterations + 5 * iters + 7

/-- The number of timestamp samples a call of `run_kernel` reads. -/
def query_count (type : TimingMeasurement) (iters : Nat) : Nat :=
  match type with
  | .BANDWIDTH => 0
  | .BANDWIDTH_EVENT_TIMING => iters
  | .KERNEL_LAUNCH_LATENCY => 0
  | .KERNEL_COMPLETE_RUNTIME => iters

/-- The number of host-timer samples a call of `run_kernel` reads. -/
def stop_count (type : TimingMeasurement) (iters : Nat) : Nat :=
  match type with
  | .BANDWIDTH => 1
  | .BANDWIDTH_EVENT_TIMING => 0
  | .KERNEL_LAUNCH_LATENCY => iters
  | .KERNEL_COMPLETE_RUNTIME => 0

/-- The total `timed` of the measured loop: in `BANDWIDTH` the one host-timer span, in
the other modes the sum of the `iters` samples read from the world `w` on, one per
measured iteration. -/
def measured_total (d : Driver) (context : L0Context) (tmv : Nat) (type : TimingMeasurement)
    (iters : Nat) (w : World) : Rat :=
  match type with
  | .BANDWIDTH => d.stopAndTime w.stops
  | .BANDWIDTH_EVENT_TIMING =>
    sum_first iters fun k => event_sample d context tmv (w.queries + k)
  | .KERNEL_LAUNCH_LATENCY => sum_first iters fun k => d.stopAndTime (w.stops + k)
  | .KERNEL_COMPLETE_RUNTIME =>
    sum_first iters fun k => event_sample d context tmv (w.queries + k)

/-- The steps of a whole call of `run_kernel` in which no driver call fails. -/
def run_kernel_steps (d : Driver) (w : World) (warmup_iterations iters : Nat)
    (context : L0Context) (function : Handle) (workgroup_info : ZeWorkGroups)
    (type : TimingMeasurement) (reset_command_list : Bool) : List Step :=
  [Step.call (.zeKernelSetGroupSize function workgroup_info.group_size_x
    workgroup_info.group_size_y workgroup_info.group_size_z)] ++
    branch_steps d (w.calls + 1) type warmup_iterations iters context function
      workgroup_info ++
    (if reset_command_list then [Step.call (.zeCommandListReset context.command_list)]
      else [])

/-- Whether the mode reads device timestamps. -/
def uses_timestamps (type : TimingMeasurement) : Bool :=
  match type with
  | .BANDWIDTH => false
  | .BANDWIDTH_EVENT_TIMING => true
  | .KERNEL_LAUNCH_LATENCY => false
  | .KERNEL_COMPLETE_RUNTIME => true

/-- A driver whose every call succeeds, whose `k`-th call writes the handle `k`, whose
events report `kernelStart = 10` and `kernelEnd = 5`, and whose timer reads 7. -/
def sample_driver : Driver :=
  { result := fun _ => 0
    handle := fun k => k
    timestamp := fun _ => ⟨10, 5⟩
    stopAndTime := fun _ => 7 }

/-- A context whose device has a timer resolution of 1000 and 4 valid timestamp bits. -/
def sample_context : L0Context :=
  { command_list := 1, command_queue := 2,
    device_property := { timerResolution := 1000, kernelTimestampValidBits := 4 } }

/-- The world before any step. -/
def World.initial : World := { calls := 0, queries := 0, stops := 0, trace := [] }

end ZePeak

namespace XePeer

/-! ## Peer transfer harness: the driver session and the trace -/

/-- A driver handle or a device pointer. -/
abbrev Handle := Nat

/-- The values of `peer_transfer_t` named in the sources. -/
inductive peer_transfer_t where
  | PEER_NONE
  | PEER_WRITE
  | PEER_READ
  deriving Repr, DecidableEq

/-- The struct `device_context_t`. -/
structure device_context_t where
  device : Handle
  module : Handle
  command_queue : Handle
  command_list : Handle
  deriving Repr, DecidableEq

/-- The arrow printed between the two devices of a result line: `<->`, `->` or `<-`. -/
inductive Arrow where
  | both
  | write
  | read
  deriving Repr, DecidableEq

/-- A value of the C++ type `double` as the benchmarks compute it, in exact arithmetic:
a finite number, or the result of a division by zero, which IEEE 754 arithmetic gives
as an infinity of the sign of the numerator for a numerator other than zero over
`+0.0` and as NaN for `0.0 / 0.0` (printed as `inf`, `-inf` and `nan`). -/
inductive double where
  | finite (value : Rat)
  | inf
  | neg_inf
  | nan
  deriving Repr, DecidableEq

/-- One observable step of the host thread. -/
inductive Step where
  | memoryAlloc (device_group device : Handle) (size : Nat)
  | memoryFree (device_group buffer : Handle)
  | functionCreate (module : Handle) (function_name : String)
  | functionDestroy (function : Handle)
  | xeFunctionSuggestGroupSize (function : Handle) (globalSizeX globalSizeY globalSizeZ : Nat)
  | xeFunctionSetGroupSize (function : Handle) (x y z : Nat)
  | xeFunctionSetArgumentValue (function : Handle) (index : Nat) (value : Handle)
  | xeCommandListAppendLaunchFunction (command_list function : Handle)
      (groupCountX groupCountY groupCountZ : Nat)
  | commandListClose (command_list : Handle)
  | commandQueueExecuteCommandList (command_queue command_list : Handle)
  | commandQueueSynchronize (command_queue : Handle)
  | timer_start
  | timer_end
  | period_minus_overhead (value : Int)
  | cout_gbps (i j : Nat) (arrow : Arrow) (total_bandwidth : double)
  | cout_usec (i j : Nat) (arrow : Arrow) (total_time_usec : double)
  | cerr (text : String)
  | terminate
  deriving Repr, DecidableEq

/-- The answers of the world outside the program, by the number of the step that asks:
`result k` is the `xe_result_t` of step `k` when it is a driver operation (`0` is
success), `handle k` the handle or pointer it writes, `group_size k` the sizes written
by `xeFunctionSuggestGroupSize`, and `period_minus_overhead k` the microseconds read
from the `Timer` (a class declared outside the sources at hand). -/
structure Env where
  result : Nat → Nat
  handle : Nat → Handle
  group_size : Nat → Nat × Nat × Nat
  period_minus_overhead : Nat → Int

/-- The state of a run: the number of steps taken and the steps, oldest first. -/
structure World where
  steps : Nat
  trace : List Step
  deriving Repr, DecidableEq

/-- The world after one more step. -/
def World.push (w : World) (s : Step) : World :=
  { steps := w.steps + 1, trace := w.trace ++ [s] }

/-- Why a call does not return: the process was ended by `std::terminate`, or an
integer division had a zero divisor. -/
inductive Stop where
  | terminated
  | division_by_zero
  deriving Repr, DecidableEq

/-- A computation of the host thread: the world after it, and its value unless the
process stopped. -/
def M (α : Type) : Type := World → Except Stop α × World

instance : Monad M where
  pure a := fun w => (.ok a, w)
  bind m f := fun w =>
    match m w with
    | (.ok a, w') => f a w'
    | (.error e, w') => (.error e, w')

/-- A step that needs no answer. -/
def emit (s : Step) : M Unit := fun w => (.ok (), w.push s)

/-- The call `std::terminate()`. -/
def terminate {α : Type} : M α := fun w => (.error .terminated, w.push .terminate)

/-- An integer division; a zero divisor stops the run. -/
def divide (a b : Nat) : M Nat := fun w =>
  if b = 0 then (.error .division_by_zero, w) else (.ok (a / b), w)

/-- A Level-Zero call made directly by the harness; the value is its `xe_result_t`. -/
def driver_call (env : Env) (s : Step) : M Nat := fun w => (.ok (env.result w.steps), w.push s)

/-- Modelled from the spec: the macro `SUCCESS_OR_TERMINATE` of `common.hpp`, which is
not among the sources at hand.  A non-success result of a driver call is fatal: the
process is terminated at once. -/
def success_or_terminate (result : Nat) : M Unit :=
  if result = 0 then pure () else terminate

/-- Modelled from the spec: a method of the driver session `XeApp` (`xe_app.hpp`, not
among the sources at hand) that returns nothing.  It is one driver operation; a
non-success result is fatal to the process. -/
def app_call (env : Env) (s : Step) : M Unit := do
  let result ← driver_call env s
  success_or_terminate result

/-- Modelled from the spec: a method of the driver session `XeApp` that writes a handle
or a pointer through its output argument; a non-success result is fatal to the
process. -/
def app_create (env : Env) (s : Step) : M Handle := fun w =>
  (do
    let result ← driver_call env s
    success_or_terminate result
    return env.handle w.steps : M Handle) w

/-- The call `xeFunctionSuggestGroupSize`, which writes the three group sizes; the
value is its `xe_result_t` with the sizes written. -/
def suggest_group_size (env : Env) (function : Handle)
    (globalSizeX globalSizeY globalSizeZ : Nat) : M (Nat × Nat × Nat × Nat) := fun w =>
  (.ok (env.result w.steps, env.group_size w.steps),
    w.push (.xeFunctionSuggestGroupSize function globalSizeX globalSizeY globalSizeZ))

/-- The call `timer.period_minus_overhead()`. -/
def period_minus_overhead (env : Env) : M Int := fun w =>
  (.ok (env.period_minus_overhead w.steps),
    w.push (.period_minus_overhead (env.period_minus_overhead w.steps)))

/-- The loop `for (i = start; i < start + count; i++) body`, threading the value the
body updates. -/
def for_from {σ : Type} (count start : Nat) (body : Nat → σ → M σ) (init : σ) : M σ :=
  match count with
  | 0 => pure init
  | count + 1 => do
    let next ← body start init
    for_from count (start + 1) body next

/-- The loop `for (i = 0; i < n; i++) body`. -/
def for_range {σ : Type} (n : Nat) (body : Nat → σ → M σ) (init : σ) : M σ :=
  for_from n 0 body init

/-- Product of two `size_t` values (64 bits). -/
def size_mul (a b : Nat) : Nat := (a * b) % 2 ^ 64

/-! ## Peer transfer harness: code -/

/-- The members of `class XePeer` read by the benchmarks.  `device_contexts` is the
vector of `device_count` contexts, given by index. -/
structure Peer where
  device_group : Handle
  device_count : Nat
  device_contexts : Nat → device_context_t

/-- The two benchmarks of the harness. -/
inductive Metric where
  | bandwidth
  | latency
  deriving Repr, DecidableEq

/-- The local `number_iterations`: 5 in `bandwidth`, 100 in `latency`. -/
def Metric.number_iterations : Metric → Nat
  | .bandwidth => 5
  | .latency => 100

/-- The local `warm_up_iterations`: 5 in both benchmarks. -/
def Metric.warm_up_iterations : Metric → Nat
  | .bandwidth => 5
  | .latency => 5

/-- The local `number_buffer_elements`: 10000000 in `bandwidth`, 1 in `latency`. -/
def Metric.number_buffer_elements : Metric → Nat
  | .bandwidth => 10000000
  | .latency => 1

/-- The text written to `std::cerr` for an invalid transfer type. -/
def Metric.invalid_message : Metric → String
  | .bandwidth => "ERROR: Bandwidth test - transfer type parameter is invalid"
  | .latency => "ERROR: Latency test - transfer type parameter is invalid"

/-- The function `XePeer::_copy_function_setup`; the value is the function handle with
the three group sizes written through the reference arguments. -/
def _copy_function_setup (env : Env) (module : Handle) (function_name : String)
    (globalSizeX globalSizeY globalSizeZ : Nat) : M (Handle × Nat × Nat × Nat) := do
  let function ← app_create env (.functionCreate module function_name)
  let (result, group_size_x, group_size_y, group_size_z) ←
    suggest_group_size env function globalSizeX globalSizeY globalSizeZ
  success_or_terminate result
  let result ← driver_call env
    (.xeFunctionSetGroupSize function group_size_x group_size_y group_size_z)
  success_or_terminate result
  return (function, group_size_x, group_size_y, group_size_z)

/-- The function `XePeer::_copy_function_cleanup`. -/
def _copy_function_cleanup (env : Env) (function : Handle) : M Unit :=
  app_call env (.functionDestroy function)

/-- The statement `SUCCESS_OR_TERMINATE(xeFunctionSetArgumentValue(function, index,
sizeof(buffer), &buffer))`. -/
def set_argument (env : Env) (function : Handle) (index : Nat) (buffer : Handle) : M Unit := do
  let result ← driver_call env (.xeFunctionSetArgumentValue function index buffer)
  success_or_terminate result

/-- The statement `xeCommandListAppendLaunchFunction(command_list_a, function,
&thread_group_dimensions, nullptr, 0, nullptr)`, whose result is not looked at. -/
def append_launch (env : Env) (command_list_a function : Handle) (groupCountX : Nat) :
    M Unit := do
  let _ ← driver_call env
    (.xeCommandListAppendLaunchFunction command_list_a function groupCountX 1 1)
  return ()

/-- The unidirectional choice of lines 200-219 and 348-367: bind the two arguments of
`function_a` for a write or for a read; any other transfer type is reported on
`std::cerr` and ends the process by `std::terminate()`. -/
def bind_unidirectional (metric : Metric) (env : Env) (transfer_type : peer_transfer_t)
    (function_a buffer_i buffer_j : Handle) : M Unit :=
  match transfer_type with
  | .PEER_WRITE => do
    set_argument env function_a 0 buffer_j
    set_argument env function_a 1 buffer_i
  | .PEER_READ => do
    set_argument env function_a 0 buffer_i
    set_argument env function_a 1 buffer_j
  | .PEER_NONE => do
    emit (.cerr metric.invalid_message)
    terminate

/-- The first statement of the body of the loop over `j` (lines 177-224 and 325-372):
bind the kernel arguments to the two buffers and append the launches. -/
def bind_and_append (metric : Metric) (env : Env) (bidirectional : Bool)
    (transfer_type : peer_transfer_t) (function_a function_b buffer_i buffer_j : Handle)
    (command_list_a : Handle) (groupCountX : Nat) : M Unit :=
  if bidirectional then do
    set_argument env function_a 0 buffer_j
    set_argument env function_a 1 buffer_i
    set_argument env function_b 0 buffer_i
    set_argument env function_b 1 buffer_j
    append_launch env command_list_a function_a groupCountX
    append_launch env command_list_a function_b groupCountX
  else do
    bind_unidirectional metric env transfer_type function_a buffer_i buffer_j
    append_launch env command_list_a function_a groupCountX

/-- One execution of the closed list followed at once by a queue synchronize. -/
def execute_and_synchronize (env : Env) (command_queue_a command_list_a : Handle) : M Unit := do
  app_call env (.commandQueueExecuteCommandList command_queue_a command_list_a)
  app_call env (.commandQueueSynchronize command_queue_a)

/-- The quotient of two finite `double` values where a zero denominator is `+0.0`, as
in line 250 of `XePeer::bandwidth` and line 390 of `XePeer::latency` (there the
denominator comes from a conversion of an integer): the exact quotient when the
denominator is not zero, `nan` for zero over zero, and the infinity of the sign of
the numerator otherwise. -/
def double_div (numerator denominator : Rat) : double :=
  if denominator = 0 then
    if numerator = 0 then .nan
    else if 0 < numerator then .inf
    else .neg_inf
  else .finite (numerator / denominator)

/-- Lines 242-250 of `XePeer::bandwidth`: the bandwidth computed from the elapsed
microseconds, in exact arithmetic.  The product `buffer_size * number_iterations` is
a `size_t` product; `total_time_usec` is an `int64_t`, so a reading of zero makes
`total_time_s` the `double` `+0.0` and the last division a division by zero. -/
def total_bandwidth (buffer_size number_iterations : Nat) (bidirectional : Bool)
    (total_time_usec : Int) : double :=
  let total_time_s : Rat := (total_time_usec : Rat) / 1000000
  let total_data_transfer : Rat :=
    ((size_mul buffer_size number_iterations : Nat) : Rat) / 1000000000
  let total_data_transfer : Rat :=
    if bidirectional then 2 * total_data_transfer else total_data_transfer
  double_div total_data_transfer total_time_s

/-- Lines 390-391 of `XePeer::latency`: the elapsed microseconds over the number of
iterations, in exact arithmetic.  The divisor is the `double` of `number_iterations`,
which is 100 in `latency`, so the quotient is finite there. -/
def total_time_usec (number_iterations : Nat) (period_minus_overhead : Int) : double :=
  double_div (period_minus_overhead : Rat) (number_iterations : Rat)

/-- The arrow of a result line: `<->` when bidirectional, `->` for `PEER_WRITE`, `<-`
otherwise. -/
def arrow (bidirectional : Bool) (transfer_type : peer_transfer_t) : Arrow :=
  if bidirectional then .both
  else if transfer_type = .PEER_WRITE then .write
  else .read

/-- The result line printed for a pair: `GBPS` and the bandwidth in `bandwidth`, the
mean time and `uS` in `latency`. -/
def result_line (metric : Metric) (buffer_size : Nat) (bidirectional : Bool)
    (transfer_type : peer_transfer_t) (i j : Nat) (period : Int) : Step :=
  match metric with
  | .bandwidth =>
    .cout_gbps i j (arrow bidirectional transfer_type)
      (total_bandwidth buffer_size metric.number_iterations bidirectional period)
  | .latency =>
    .cout_usec i j (arrow bidirectional transfer_type)
      (total_time_usec metric.number_iterations period)

/-- The statement that prints the result line of a pair. -/
def report (metric : Metric) (buffer_size : Nat) (bidirectional : Bool)
    (transfer_type : peer_transfer_t) (i j : Nat) (period : Int) : M Unit :=
  emit (result_line metric buffer_size bidirectional transfer_type i j period)

/-- The body of the loop over `j` in `XePeer::bandwidth` (lines 169-267) and in
`XePeer::latency` (lines 320-408): measure the pair `(i, j)`. -/
def measure_pair (metric : Metric) (env : Env) (buffer_size : Nat) (bidirectional : Bool)
    (transfer_type : peer_transfer_t) (function_a function_b buffer_i : Handle)
    (command_list_a command_queue_a : Handle) (groupCountX : Nat) (buffers : Nat → Handle)
    (i j : Nat) : M Unit := do
  let buffer_j := buffers j
  bind_and_append metric env bidirectional transfer_type function_a function_b buffer_i
    buffer_j command_list_a groupCountX
  app_call env (.commandListClose command_list_a)
  for_range metric.warm_up_iterations
    (fun _ _ => execute_and_synchronize env command_queue_a command_list_a) ()
  emit .timer_start
  for_range metric.number_iterations
    (fun _ _ => execute_and_synchronize env command_queue_a command_list_a) ()
  emit .timer_end
  let period ← period_minus_overhead env
  report metric buffer_size bidirectional transfer_type i j period

/-- The body of the second loop over `i` in `XePeer::bandwidth` (lines 143-272) and in
`XePeer::latency` (lines 294-413): set up the copy kernels of device `i`, measure every
pair `(i, j)`, destroy the kernels. -/
def measure_device (metric : Metric) (env : Env) (self : Peer) (buffer_size : Nat)
    (bidirectional : Bool) (transfer_type : peer_transfer_t) (buffers : Nat → Handle)
    (i : Nat) : M Unit := do
  let device_context_i := self.device_contexts i
  let buffer_i := buffers i
  let command_list_a := device_context_i.command_list
  let command_queue_a := device_context_i.command_queue
  let (function_a, group_size_x, _, _) ←
    _copy_function_setup env device_context_i.module "single_copy_peer_to_peer"
      metric.number_buffer_elements 1 1
  let (function_b, group_size_x, _, _) ←
    (if bidirectional then
      _copy_function_setup env device_context_i.module "single_copy_peer_to_peer"
        metric.number_buffer_elements 1 1
    else pure (0, group_size_x, 0, 0))
  let group_count_x ← divide metric.number_buffer_elements group_size_x
  for_range self.device_count
    (fun j _ => measure_pair metric env buffer_size bidirectional transfer_type function_a
      function_b buffer_i command_list_a command_queue_a group_count_x buffers i j) ()
  _copy_function_cleanup env function_a
  if bidirectional then
    _copy_function_cleanup env function_b

/-- The body of the first loop over `i` (lines 136-141 and 287-292): allocate the buffer
of device `i` and store it in `buffers[i]`. -/
def allocate_buffer (env : Env) (self : Peer) (buffer_size : Nat) (i : Nat)
    (buffers : Nat → Handle) : M (Nat → Handle) := do
  let device_context := self.device_contexts i
  let buffer ← app_create env
    (.memoryAlloc self.device_group device_context.device buffer_size)
  return Function.update buffers i buffer

/-- The body of the last loop (lines 274-276 and 415-417): free one buffer. -/
def free_buffer (env : Env) (self : Peer) (buffers : Nat → Handle) (i : Nat) : M Unit :=
  app_call env (.memoryFree self.device_group (buffers i))

/-- The common shape of `XePeer::bandwidth` and `XePeer::latency`: allocate one buffer
per device, measure every device, free every buffer.  `element_size` is
`sizeof(unsigned long int)`; the vector `buffers` starts as `device_count` null
pointers. -/
def benchmark (metric : Metric) (env : Env) (self : Peer) (element_size : Nat)
    (bidirectional : Bool) (transfer_type : peer_transfer_t) : M Unit := do
  let buffer_size := size_mul element_size metric.number_buffer_elements
  let buffers ← for_range self.device_count (allocate_buffer env self buffer_size)
    (fun _ => 0)
  for_range self.device_count
    (fun i _ => measure_device metric env self buffer_size bidirectional transfer_type
      buffers i) ()
  for_range self.device_count (fun i _ => free_buffer env self buffers i) ()

/-- The function `XePeer::bandwidth`. -/
def bandwidth (env : Env) (self : Peer) (element_size : Nat) (bidirectional : Bool)
    (transfer_type : peer_transfer_t) : M Unit :=
  benchmark .bandwidth env self element_size bidirectional transfer_type

/-- The function `XePeer::latency`. -/
def latency (env : Env) (self : Peer) (element_size : Nat) (bidirectional : Bool)
    (transfer_type : peer_transfer_t) : M Unit :=
  benchmark .latency env self element_size bidirectional transfer_type

/-- The world before any step. -/
def World.initial : World := { steps := 0, trace := [] }

/-! ## Peer transfer harness: vocabulary for runs -/

/-- Whether a step allocates or frees a buffer. -/
def Step.is_memory : Step → Bool
  | .memoryAlloc _ _ _ => true
  | .memoryFree _ _ => true
  | _ => false

/-- Whether a step appends a kernel launch, executes a command list or prints a
result line. -/
def Step.is_work : Step → Bool
  | .xeCommandListAppendLaunchFunction _ _ _ _ _ => true
  | .commandQueueExecuteCommandList _ _ => true
  | .cout_gbps _ _ _ _ => true
  | .cout_usec _ _ _ _ => true
  | _ => false

/-- Whether a step prints a result line. -/
def Step.is_report : Step → Bool
  | .cout_gbps _ _ _ _ => true
  | .cout_usec _ _ _ _ => true
  | _ => false

/-- Every result line among the steps comes right after a reading of the timer and
carries the value computed from that reading by `value`; `previous` is the step taken
just before the first of the steps, if any. -/
def reported_after (value : Int → double) (previous : Option Step) : List Step → Prop
  | [] => True
  | s :: rest =>
    (match s with
      | .cout_gbps _ _ _ v =>
        ∃ elapsed, previous = some (.period_minus_overhead elapsed) ∧ v = value elapsed
      | .cout_usec _ _ _ v =>
        ∃ elapsed, previous = some (.period_minus_overhead elapsed) ∧ v = value elapsed
      | _ => True) ∧
    reported_after value (some s) rest

/-- The value a benchmark prints for a pair, from the reading of the timer. -/
def reported_value (metric : Metric) (buffer_size : Nat) (bidirectional : Bool) :
    Int → double :=
  match metric with
  | .bandwidth => total_bandwidth buffer_size metric.number_iterations bidirectional
  | .latency => total_time_usec metric.number_iterations

/-- The steps of `n` consecutive iterations that each take the steps `steps`. -/
def iterations (n : Nat) (steps : List Step) : List Step :=
  match n with
  | 0 => []
  | n + 1 => steps ++ iterations n steps

/-- The two steps of one execution of the closed list followed by a queue
synchronize. -/
def execute_steps (command_queue_a command_list_a : Handle) : List Step :=
  [.commandQueueExecuteCommandList command_queue_a command_list_a,
    .commandQueueSynchronize command_queue_a]

/-- Whether a step binds a kernel argument or appends a kernel launch. -/
def Step.is_binding : Step → Bool
  | .xeFunctionSetArgumentValue _ _ _ => true
  | .xeCommandListAppendLaunchFunction _ _ _ _ _ => true
  | _ => false

/-- The steps by which a pair binds its kernel arguments and appends its launches, when
none of them fails: a write binds argument 0 of `function_a` to `buffer_j` and argument
1 to `buffer_i`, a read the other way round, and a bidirectional call binds
`function_a` as the write and `function_b` as the read. -/
def binding_steps (bidirectional : Bool) (transfer_type : peer_transfer_t)
    (function_a function_b buffer_i buffer_j command_list_a : Handle) (groupCountX : Nat) :
    List Step :=
  if bidirectional then
    [.xeFunctionSetArgumentValue function_a 0 buffer_j,
      .xeFunctionSetArgumentValue function_a 1 buffer_i,
      .xeFunctionSetArgumentValue function_b 0 buffer_i,
      .xeFunctionSetArgumentValue function_b 1 buffer_j,
      .xeCommandListAppendLaunchFunction command_list_a function_a groupCountX 1 1,
      .xeCommandListAppendLaunchFunction command_list_a function_b groupCountX 1 1]
  else
    match transfer_type with
    | .PEER_WRITE =>
      [.xeFunctionSetArgumentValue function_a 0 buffer_j,
        .xeFunctionSetArgumentValue function_a 1 buffer_i,
        .xeCommandListAppendLaunchFunction command_list_a function_a groupCountX 1 1]
    | .PEER_READ =>
      [.xeFunctionSetArgumentValue function_a 0 buffer_i,
        .xeFunctionSetArgumentValue function_a 1 buffer_j,
        .xeCommandListAppendLaunchFunction command_list_a function_a groupCountX 1 1]
    | .PEER_NONE => []

/-- The steps of the measurement of a pair that returns, for the reading `elapsed` of
the timer: bind and append, close the list, warm up, then the timed region. -/
def pair_steps (metric : Metric) (buffer_size : Nat) (bidirectional : Bool)
    (transfer_type : peer_transfer_t)
    (function_a function_b buffer_i buffer_j command_list_a command_queue_a : Handle)
    (groupCountX : Nat) (i j : Nat) (elapsed : Int) : List Step :=
  binding_steps bidirectional transfer_type function_a function_b buffer_i buffer_j
      command_list_a groupCountX ++
    [.commandListClose command_list_a] ++
    iterations metric.warm_up_iterations (execute_steps command_queue_a command_list_a) ++
    [.timer_start] ++
    iterations metric.number_iterations (execute_steps command_queue_a command_list_a) ++
    [.timer_end, .period_minus_overhead elapsed,
      result_line metric buffer_size bidirectional transfer_type i j elapsed]

/-- The steps the computation takes, from any world, satisfy `Q` as a list. -/
def EmitsList {α : Type} (Q : List Step → Prop) (m : M α) : Prop :=
  ∀ w, ∃ t, (m w).2.trace = w.trace ++ t ∧ Q t

/-- Every step the computation takes, from any world, satisfies `P`. -/
def Emits {α : Type} (P : Step → Prop) (m : M α) : Prop :=
  ∀ w, ∃ t, (m w).2.trace = w.trace ++ t ∧ ∀ s ∈ t, P s

/-- The computation never returns, from any world. -/
def Stops {α : Type} (m : M α) : Prop :=
  ∀ w, ∃ e, (m w).1 = .error e

/-- The computation returns from every world, with a value that satisfies `P`. -/
def Returns {α : Type} (P : α → Prop) (m : M α) : Prop :=
  ∀ w, ∃ a w', m w = (.ok a, w') ∧ P a

/-- The allocation step of device `i`. -/
def alloc_step (self : Peer) (buffer_size : Nat) (i : Nat) : Step :=
  .memoryAlloc self.device_group (self.device_contexts i).device buffer_size

/-- A driver session in which every operation succeeds, the step numbered `k` writes
the handle `100 + k`, every suggested group size is `(8, 1, 1)` and the timer reads
10000 microseconds. -/
def sample_env : Env :=
  { result := fun _ => 0
    handle := fun k => 100 + k
    group_size := fun _ => (8, 1, 1)
    period_minus_overhead := fun _ => 10000 }

/-- A harness over two devices. -/
def sample_peer : Peer :=
  { device_group := 7, device_count := 2,
    device_contexts := fun i => ⟨10 + i, 20 + i, 30 + i, 40 + i⟩ }

/-- The unidirectional write of `bandwidth` over the two devices of the sample
session, with 8-byte elements. -/
def sample_bandwidth_run : Except Stop Unit × World :=
  benchmark .bandwidth sample_env sample_peer 8 false .PEER_WRITE World.initial

/-- The session of `sample_env` with a timer that reads 0 microseconds. -/
def zero_reading_env : Env :=
  { result := fun _ => 0
    handle := fun k => 100 + k
    group_size := fun _ => (8, 1, 1)
    period_minus_overhead := fun _ => 0 }

/-- The unidirectional write of `bandwidth` over the two devices, with 8-byte elements,
in the session whose timer reads 0 microseconds. -/
def zero_reading_run : Except Stop Unit × World :=
  benchmark .bandwidth zero_reading_env sample_peer 8 false .PEER_WRITE World.initial

/-- The session of `sample_env` with a timer that reads 500 microseconds. -/
def sample_latency_env : Env :=
  { result := fun _ => 0
    handle := fun k => 100 + k
    group_size := fun _ => (8, 1, 1)
    period_minus_overhead := fun _ => 500 }

/-- The bidirectional call of `latency` over the two devices, with 8-byte elements, in
the session whose timer reads 500 microseconds. -/
def sample_latency_run : Except Stop Unit × World :=
  benchmark .latency sample_latency_env sample_peer 8 true .PEER_NONE World.initial

/-! ## Peer transfer harness: the steps of a whole benchmark -/

/-- The lists `f start`, `f (start + 1)`, ..., `f (start + count - 1)` one after the
other: the steps of a loop `for (i = start; i < start + count; i++)`. -/
def concat_from {α : Type} (count start : Nat) (f : Nat → List α) : List α :=
  match count with
  | 0 => []
  | count + 1 => f start ++ concat_from count (start + 1) f

/-- The lists `f 0`, ..., `f (n - 1)` one after the other. -/
def concat_range {α : Type} (n : Nat) (f : Nat → List α) : List α :=
  concat_from n 0 f

/-- The ordered pairs `(i, j)` with `i, j < n` in row-major order: `i` outer, `j`
inner. -/
def row_major (n : Nat) : List (Nat × Nat) :=
  concat_range n fun i => concat_range n fun j => [(i, j)]

/-- Whether a step belongs to the measurement proper of a pair: closing the list,
executing it, synchronizing the queue, using the timer, printing the result line. -/
def Step.is_measurement : Step → Bool
  | .commandListClose _ => true
  | .commandQueueExecuteCommandList _ _ => true
  | .commandQueueSynchronize _ => true
  | .timer_start => true
  | .timer_end => true
  | .period_minus_overhead _ => true
  | .cout_gbps _ _ _ _ => true
  | .cout_usec _ _ _ _ => true
  | _ => false

/-- The pair of devices a result line is printed for. -/
def reported_pair : Step → Option (Nat × Nat)
  | .cout_gbps i j _ _ => some (i, j)
  | .cout_usec i j _ _ => some (i, j)
  | _ => none

/-- The steps of the measurement proper of the pair `(i, j)`, for the reading `elapsed`
of the timer: one close of the list, the warm-up executions, the timed executions
between the start and the end of the timer, each execution followed at once by a queue
synchronize, then the reading of the timer and the result line. -/
def measurement_steps (metric : Metric) (buffer_size : Nat) (bidirectional : Bool)
    (transfer_type : peer_transfer_t) (command_list_a command_queue_a : Handle)
    (i j : Nat) (elapsed : Int) : List Step :=
  [.commandListClose command_list_a] ++
    iterations metric.warm_up_iterations (execute_steps command_queue_a command_list_a) ++
    [.timer_start] ++
    iterations metric.number_iterations (execute_steps command_queue_a command_list_a) ++
    [.timer_end, .period_minus_overhead elapsed,
      result_line metric buffer_size bidirectional transfer_type i j elapsed]

/-- What a returning measurement of one device `i` depends on besides its inputs: the
steps of the kernel setup, the handles of the one or two kernels, the group count, the
reading of the timer for each `j`, and the steps of the kernel cleanup. -/
structure DeviceRun where
  setup : List Step
  function_a : Handle
  function_b : Handle
  group_count_x : Nat
  elapsed : Nat → Int
  cleanup : List Step

instance : Inhabited DeviceRun := ⟨⟨[], 0, 0, 0, fun _ => 0, []⟩⟩

/-- Neither the setup nor the cleanup of the kernels contains a step of a
measurement, a binding of a kernel argument or an append of a launch. -/
def DeviceRun.quiet (run : DeviceRun) : Prop :=
  (∀ s ∈ run.setup, s.is_measurement = false ∧ s.is_binding = false) ∧
  (∀ s ∈ run.cleanup, s.is_measurement = false ∧ s.is_binding = false)

/-- The steps of the measurement of device `i` that returns: the setup of the kernels,
the pairs `(i, 0)`, ..., `(i, device_count - 1)` in this order, the cleanup. -/
def device_steps (metric : Metric) (self : Peer) (buffer_size : Nat) (bidirectional : Bool)
    (transfer_type : peer_transfer_t) (buffers : Nat → Handle) (i : Nat) (run : DeviceRun) :
    List Step :=
  run.setup ++
    concat_range self.device_count (fun j =>
      pair_steps metric buffer_size bidirectional transfer_type run.function_a run.function_b
        (buffers i) (buffers j) (self.device_contexts i).command_list
        (self.device_contexts i).command_queue run.group_count_x i j (run.elapsed j)) ++
    run.cleanup

/-- Whether a step appends a kernel launch to a command list. -/
def Step.is_launch : Step → Bool
  | .xeCommandListAppendLaunchFunction _ _ _ _ _ => true
  | _ => false

/-- Whether a step executes a command list. -/
def Step.is_execute : Step → Bool
  | .commandQueueExecuteCommandList _ _ => true
  | _ => false

end XePeer

namespace ComputeSamples

/-! ## Unified shared memory types: reading and printing -/

/-- The values of `enum class usm_type`.  The header that declares the enumeration is
not among the sources at hand: `host`, `device` and `shared` are the enumerators that
`unified_shared_memory.cpp` names, and `other` stands for every further value a variable
of the type can hold. -/
inductive usm_type where
  | host
  | device
  | shared
  | other (value : Nat)
  deriving Repr, DecidableEq

/-- The function `compute_samples::to_string`. -/
def to_string (x : usm_type) : String :=
  if x = usm_type.host then "host"
  else if x = usm_type.device then "device"
  else if x = usm_type.shared then "shared"
  else "unknown"

/-- The part of a `std::istream` that the extraction of a word depends on: the
characters not yet read, and the state bits `failbit` and `eofbit`. -/
structure istream where
  buffer : List Char
  failbit : Bool
  eofbit : Bool
  deriving Repr, DecidableEq

/-- The classification `std::isspace` of the "C" locale: the space and the characters
9 to 13. -/
def isspace (c : Char) : Bool :=
  c.toNat == 32 || (decide (9 ≤ c.toNat) && decide (c.toNat ≤ 13))

/-- The extraction `is >> s` of a `std::string`.  When the stream is not good nothing is
read, `failbit` is set and `s` is left as it is; otherwise leading white space is
skipped; when nothing is left `eofbit` and `failbit` are set and `s` is left as it is;
otherwise `s` becomes the characters up to the next white space or the end of the
input, and `eofbit` is set when the end was reached. -/
def extract_string (is : istream) (s : String) : istream × String :=
  if is.failbit || is.eofbit then ({ is with failbit := true }, s)
  else
    let rest := is.buffer.dropWhile isspace
    if rest = [] then ({ buffer := [], failbit := true, eofbit := true }, s)
    else
      let word := rest.takeWhile fun c => !isspace c
      let rest := rest.dropWhile fun c => !isspace c
      ({ buffer := rest, failbit := false, eofbit := decide (rest = []) }, String.mk word)

/-- The conditional statement of `operator>>` (lines 47-55): assign to `x` the value
that the word `s` names, or set `failbit` when it names none. -/
def assign_or_fail (is : istream) (s : String) (x : usm_type) : istream × usm_type :=
  if s = "host" then (is, usm_type.host)
  else if s = "device" then (is, usm_type.device)
  else if s = "shared" then (is, usm_type.shared)
  else ({ is with failbit := true }, x)

/-- The function `compute_samples::operator>>` for `usm_type`; the value is the stream
after the call and the variable `x` after the call. -/
def operator_extract (is : istream) (x : usm_type) : istream × usm_type :=
  let s := ""
  let (is, s) := extract_string is s
  assign_or_fail is s x

/-- The word that `is >> s` reads from the stream, empty when it reads none. -/
def next_word (is : istream) : String := (extract_string is "").2

/-- A good stream holding the characters of `text`. -/
def istream.of (text : String) : istream :=
  { buffer := text.data, failbit := false, eofbit := false }

end ComputeSamples

namespace ZePeak

/-! ## Workgroup solver: the call with its context and its output -/

/-- The context as `set_workgroups` sees it: `device_compute_property` holds the four
limits the function reads, and `others` stands for every other field of `L0Context`
and of `ze_device_compute_properties_t`, none of which the function reads. -/
structure SolverContext where
  device_compute_property : DeviceComputeProperties
  others : List Nat
  deriving Repr, DecidableEq

/-- The function `ZePeak::set_workgroups` with what it writes to `std::cout`: the value
is the stored plan, the returned `final_work_items` and the lines printed, or `none`
when a divisor is zero.  `verbose` is the member of `ZePeak`. -/
def set_workgroups_printing (verbose : Bool) (context : SolverContext)
    (total_work_items_requested : Nat) : Option (ZeWorkGroups × Nat × List String) :=
  let group_size_x :=
    min total_work_items_requested context.device_compute_property.maxGroupSizeX
  let group_size_y := 1
  let group_size_z := 1
  let group_size := u64_mul (u64_mul group_size_x group_size_y) group_size_z
  (u64_div total_work_items_requested group_size).bind fun group_count_x =>
  let group_count_x := min group_count_x context.device_compute_property.maxGroupCountX
  let remaining_items :=
    u64_sub total_work_items_requested (u64_mul group_count_x group_size)
  (u64_div remaining_items (u64_mul group_count_x group_size)).bind fun group_count_y =>
  let group_count_y := min group_count_y context.device_compute_property.maxGroupCountY
  let group_count_y := max group_count_y 1
  let remaining_items :=
    u64_sub total_work_items_requested
      (u64_mul (u64_mul group_count_x group_count_y) group_size)
  (u64_div remaining_items
    (u64_mul (u64_mul group_count_x group_count_y) group_size)).bind fun group_count_z =>
  let group_count_z := min group_count_z context.device_compute_property.maxGroupCountZ
  let group_count_z := max group_count_z 1
  let final_work_items :=
    u64_mul (u64_mul (u64_mul group_count_x group_count_y) group_count_z) group_size
  let printed : List String :=
    if verbose then
      ["Group size x: " ++ toString group_size_x,
        "Group size y: " ++ toString group_size_y,
        "Group size z: " ++ toString group_size_z,
        "Group count x: " ++ toString group_count_x,
        "Group count y: " ++ toString group_count_y,
        "Group count z: " ++ toString group_count_z,
        "total work items that will be executed: " ++ toString final_work_items ++
          " requested: " ++ toString total_work_items_requested]
    else []
  some
    ({ group_size_x := u32_cast group_size_x
       group_size_y := u32_cast group_size_y
       group_size_z := u32_cast group_size_z
       groupCountX := u32_cast group_count_x
       groupCountY := u32_cast group_count_y
       groupCountZ := u32_cast group_count_z },
     final_work_items, printed)

/-- The stored plan and the returned count of a call, without the printed lines. -/
def plan_and_count (r : Option (ZeWorkGroups × Nat × List String)) :
    Option (ZeWorkGroups × Nat) :=
  r.map fun x => (x.1, x.2.1)

/-! ## Workgroup solver: the reference definition of the plan -/

/-- The function `clamp(v, lo, hi) = max(min(v, hi), lo)`. -/
def clamp (v lo hi : Nat) : Nat := max (min v hi) lo

/-- The greedy reference definition of the plan, as the specification words it, in
exact arithmetic with integer division. -/
def reference_plan (prop : DeviceComputeProperties) (R : Nat) : ZeWorkGroups :=
  let group_size_x := min R prop.maxGroupSizeX
  let gs := group_size_x
  let group_count_x := min (R / gs) prop.maxGroupCountX
  let group_count_y :=
    clamp ((R - group_count_x * gs) / (group_count_x * gs)) 1 prop.maxGroupCountY
  let group_count_z :=
    clamp ((R - group_count_x * group_count_y * gs) / (group_count_x * group_count_y * gs)) 1
      prop.maxGroupCountZ
  { group_size_x := group_size_x
    group_size_y := 1
    group_size_z := 1
    groupCountX := group_count_x
    groupCountY := group_count_y
    groupCountZ := group_count_z }

/-- The result code `ZE_RESULT_ERROR_DEVICE_LOST` (`0x70000001`). -/
def ZE_RESULT_ERROR_DEVICE_LOST : Nat := 0x70000001

/-- A driver that answers as `sample_driver` does, except that its `k`-th driver call
returns `ZE_RESULT_ERROR_DEVICE_LOST`. -/
def failing_driver (k : Nat) : Driver :=
  { sample_driver with
    result := fun i => if i = k then ZE_RESULT_ERROR_DEVICE_LOST else 0 }

/-- The value of a run, or the failure it stops with, without the world. -/
def outcome {α : Type} (r : Except Failure (α × World)) : Except Failure α :=
  r.map Prod.fst

/-- The steps of a run that returns; a run that stops with a failure has none to show. -/
def steps_of {α : Type} (r : Except Failure (α × World)) : List Step :=
  match r with
  | .ok (_, w) => w.trace
  | .error _ => []

/-! ## Timing engine: the steps of a run that returns -/

/-- Every run of `m` that returns has added exactly the steps `steps` to the trace. -/
def Adds {α : Type} (m : M α) (steps : List Step) : Prop :=
  ∀ w a w', m w = .ok (a, w') → w'.trace = w.trace ++ steps

/-- Whether a step creates or destroys an event or an event pool. -/
def Step.is_event_lifetime (s : Step) : Bool :=
  match s with
  | .call (.zeEventPoolCreate _) => true
  | .call (.zeEventCreate _) => true
  | .call (.zeEventDestroy _) => true
  | .call (.zeEventPoolDestroy _) => true
  | _ => false

/-- Whether a step is a reset of a command list. -/
def Step.is_list_reset (s : Step) : Bool :=
  match s with
  | .call (.zeCommandListReset _) => true
  | _ => false

/-- Whether a step is a call to the driver, and not a use of the host timer. -/
def Step.is_driver_call (s : Step) : Bool :=
  match s with
  | .call _ => true
  | _ => false

/-- The flags of the event pool that the mode `type` creates. -/
def pool_flags (type : TimingMeasurement) : EventPoolFlags :=
  match type with
  | .KERNEL_LAUNCH_LATENCY => host_visible_only
  | _ => host_visible_kernel_timestamp

/-- The command-list reset that ends a call of `run_kernel`, when there is one. -/
def final_reset (context : L0Context) (reset_command_list : Bool) : List Step :=
  if reset_command_list then [Step.call (.zeCommandListReset context.command_list)] else []

/-! ## Timing engine: vocabulary for the order of the steps -/

/-- Whether a step builds the command list: appends a command to it or closes it. -/
def Step.is_list_build (s : Step) : Bool :=
  match s with
  | .call (.zeCommandListAppendLaunchKernel _ _ _ _ _ _) => true
  | .call (.zeCommandListAppendSignalEvent _ _) => true
  | .call (.zeCommandListClose _) => true
  | _ => false

/-- The driver calls among the steps of an iteration that both a warm-up and a measured
iteration make: every driver call but the timestamp query; the uses of the host timer
are no driver calls. -/
def common_calls (steps : List Step) : List Step :=
  steps.filter fun s =>
    match s with
    | .call (.zeEventQueryKernelTimestamp _) => false
    | .call _ => true
    | _ => false

/-- The steps of one warm-up iteration of the mode `type`, for the event `event`. -/
def warmup_iteration (type : TimingMeasurement) (context : L0Context) (event : Handle) :
    List Step :=
  match type with
  | .BANDWIDTH => [exec_step context]
  | .BANDWIDTH_EVENT_TIMING =>
    [exec_step context, wait_step event, sync_step context, reset_step event]
  | .KERNEL_LAUNCH_LATENCY =>
    [exec_step context, sync_step context, wait_step event, reset_step event]
  | .KERNEL_COMPLETE_RUNTIME => [exec_step context, wait_step event, reset_step event]

/-- The steps of one measured iteration of the mode `type`, for the event `event`. -/
def measured_iteration (type : TimingMeasurement) (context : L0Context) (event : Handle) :
    List Step :=
  match type with
  | .BANDWIDTH => [exec_step context]
  | .BANDWIDTH_EVENT_TIMING =>
    [exec_step context, wait_step event, query_step event, sync_step context,
      reset_step event]
  | .KERNEL_LAUNCH_LATENCY =>
    [Step.timer_start, exec_step context, wait_step event, Step.timer_stopAndTime,
      sync_step context, reset_step event]
  | .KERNEL_COMPLETE_RUNTIME =>
    [exec_step context, sync_step context, wait_step event, query_step event,
      reset_step event]

/-- The steps of a returning call before its first warm-up iteration. -/
def prologue_steps (d : Driver) (w : World) (type : TimingMeasurement) (context : L0Context)
    (function : Handle) (workgroup_info : ZeWorkGroups) : List Step :=
  [Step.call (.zeKernelSetGroupSize function workgroup_info.group_size_x
    workgroup_info.group_size_y workgroup_info.group_size_z)] ++
  match type with
  | .BANDWIDTH => [launch_step context function workgroup_info none, close_step context]
  | .BANDWIDTH_EVENT_TIMING =>
    [Step.call (.zeEventPoolCreate host_visible_kernel_timestamp),
      Step.call (.zeEventCreate (d.handle (w.calls + 1))),
      launch_step context function workgroup_info (some (d.handle (w.calls + 2))),
      close_step context]
  | .KERNEL_LAUNCH_LATENCY =>
    [Step.call (.zeEventPoolCreate host_visible_only),
      Step.call (.zeEventCreate (d.handle (w.calls + 1))),
      Step.call (.zeCommandListAppendSignalEvent context.command_list
        (d.handle (w.calls + 2))),
      launch_step context function workgroup_info none, close_step context]
  | .KERNEL_COMPLETE_RUNTIME =>
    [Step.call (.zeEventPoolCreate host_visible_kernel_timestamp),
      Step.call (.zeEventCreate (d.handle (w.calls + 1))),
      launch_step context function workgroup_info (some (d.handle (w.calls + 2))),
      close_step context]

/-- The steps of a returning call between its last warm-up iteration and its first
measured iteration. -/
def interlude_steps (type : TimingMeasurement) (context : L0Context) : List Step :=
  match type with
  | .BANDWIDTH => [sync_step context, Step.timer_start]
  | .BANDWIDTH_EVENT_TIMING => []
  | .KERNEL_LAUNCH_LATENCY => []
  | .KERNEL_COMPLETE_RUNTIME => [sync_step context]

/-- The steps of a returning call after its last measured iteration. -/
def epilogue_steps (d : Driver) (w : World) (type : TimingMeasurement) (context : L0Context)
    (reset_command_list : Bool) : List Step :=
  (match type with
    | .BANDWIDTH => [sync_step context, Step.timer_stopAndTime]
    | _ => [Step.call (.zeEventDestroy (d.handle (w.calls + 2))),
        Step.call (.zeEventPoolDestroy (d.handle (w.calls + 1)))]) ++
  final_reset context reset_command_list

theorem u64_mul_eq {a b : Nat} (h : a * b < 2 ^ 64) : u64_mul a b = a * b :=
  Nat.mod_eq_of_lt h

theorem u64_sub_eq {a b : Nat} (hb : b ≤ a) (ha : a < 2 ^ 64) : u64_sub a b = a - b := by
  unfold u64_sub
  have h : a + 2 ^ 64 - b = (a - b) + 2 ^ 64 := by omega
  rw [h, Nat.add_mod_right]
  exact Nat.mod_eq_of_lt (by omega)

theorem u64_div_eq {a b : Nat} (h : b ≠ 0) : u64_div a b = some (a / b) := by
  unfold u64_div
  rw [if_neg h]

theorem u32_cast_eq {a : Nat} (h : a < 2 ^ 32) : u32_cast a = a :=
  Nat.mod_eq_of_lt h

theorem chk_mul_eq {a b : Nat} (h : a * b < 2 ^ 64) : chk_mul a b = .ok (a * b) := by
  unfold chk_mul
  rw [if_pos h]

theorem chk_sub_eq {a b : Nat} (h : b ≤ a) : chk_sub a b = .ok (a - b) := by
  unfold chk_sub
  rw [if_pos h]

theorem chk_div_eq {a b : Nat} (h : b ≠ 0) : chk_div a b = .ok (a / b) := by
  unfold chk_div
  rw [if_neg h]

/-- A clamped quotient of the remainder, times the divisor, stays within the request. -/
theorem clamp_mul_le {R d : Nat} (M : Nat) (hd : d ≤ R) :
    max (min ((R - d) / d) M) 1 * d ≤ R := by
  rcases Nat.le_total (min ((R - d) / d) M) 1 with h | h
  · rw [max_eq_right h, Nat.one_mul]
    exact hd
  · rw [max_eq_left h]
    calc min ((R - d) / d) M * d ≤ (R - d) / d * d :=
          Nat.mul_le_mul_right _ (min_le_left _ _)
      _ ≤ R - d := Nat.div_mul_le_self _ _
      _ ≤ R := Nat.sub_le _ _

section Greedy

variable {prop : DeviceComputeProperties} {R : Nat}

theorem greedy_group_size_pos (hR : 1 ≤ R) (hp : prop.Positive) :
    1 ≤ greedy_group_size prop R :=
  le_min hR hp.1

theorem greedy_group_size_le_request : greedy_group_size prop R ≤ R :=
  min_le_left _ _

theorem greedy_group_size_le_max : greedy_group_size prop R ≤ prop.maxGroupSizeX :=
  min_le_right _ _

theorem greedy_count_x_pos (hR : 1 ≤ R) (hp : prop.Positive) :
    1 ≤ greedy_count_x prop R := by
  refine le_min ?_ hp.2.1
  exact (Nat.one_le_div_iff (greedy_group_size_pos hR hp)).2 greedy_group_size_le_request

theorem greedy_count_x_le_max : greedy_count_x prop R ≤ prop.maxGroupCountX :=
  min_le_right _ _

theorem greedy_count_y_pos : 1 ≤ greedy_count_y prop R :=
  le_max_right _ _

theorem greedy_count_y_le_max (hp : prop.Positive) :
    greedy_count_y prop R ≤ prop.maxGroupCountY :=
  max_le (min_le_right _ _) hp.2.2.1

theorem greedy_count_z_pos : 1 ≤ greedy_count_z prop R :=
  le_max_right _ _

theorem greedy_count_z_le_max (hp : prop.Positive) :
    greedy_count_z prop R ≤ prop.maxGroupCountZ :=
  max_le (min_le_right _ _) hp.2.2.2

/-- After the X axis the plan covers at most the request. -/
theorem greedy_x_le_request :
    greedy_count_x prop R * greedy_group_size prop R ≤ R :=
  le_trans (Nat.mul_le_mul_right _ (min_le_left _ _)) (Nat.div_mul_le_self _ _)

/-- After the Y axis the plan covers at most the request. -/
theorem greedy_xy_le_request :
    greedy_count_x prop R * greedy_count_y prop R * greedy_group_size prop R ≤ R := by
  have h := clamp_mul_le prop.maxGroupCountY (@greedy_x_le_request prop R)
  have e : greedy_count_x prop R * greedy_count_y prop R * greedy_group_size prop R =
      greedy_count_y prop R * (greedy_count_x prop R * greedy_group_size prop R) := by ring
  rw [e]
  exact h

/-- The executed work items of the greedy plan never exceed the request. -/
theorem greedy_work_items_le_request : greedy_work_items prop R ≤ R := by
  have h := clamp_mul_le prop.maxGroupCountZ (@greedy_xy_le_request prop R)
  have e : greedy_work_items prop R = greedy_count_z prop R *
      (greedy_count_x prop R * greedy_count_y prop R * greedy_group_size prop R) := by
    unfold greedy_work_items
    ring
  rw [e]
  exact h

theorem greedy_x_pos (hR : 1 ≤ R) (hp : prop.Positive) :
    0 < greedy_count_x prop R * greedy_group_size prop R :=
  Nat.mul_pos (greedy_count_x_pos hR hp) (greedy_group_size_pos hR hp)

theorem greedy_xy_pos (hR : 1 ≤ R) (hp : prop.Positive) :
    0 < greedy_count_x prop R * greedy_count_y prop R * greedy_group_size prop R :=
  Nat.mul_pos (Nat.mul_pos (greedy_count_x_pos hR hp) greedy_count_y_pos)
    (greedy_group_size_pos hR hp)

theorem greedy_work_items_pos (hR : 1 ≤ R) (hp : prop.Positive) :
    0 < greedy_work_items prop R :=
  Nat.mul_pos (Nat.mul_pos (Nat.mul_pos (greedy_count_x_pos hR hp) greedy_count_y_pos)
    greedy_count_z_pos) (greedy_group_size_pos hR hp)

end Greedy

/-- Under the precondition the code computes the greedy plan: no division fails,
no 64-bit operation wraps and no `uint32_t` store truncates. -/
theorem set_workgroups_eq_greedy (prop : DeviceComputeProperties) (R : Nat)
    (hR : 1 ≤ R) (hR64 : R < 2 ^ 64) (hp : prop.Positive) (hr : prop.InRange) :
    set_workgroups prop R = some (greedy_plan prop R, greedy_work_items prop R) := by
  have hgs := greedy_group_size_pos hR hp
  have hx := @greedy_x_le_request prop R
  have hxy := @greedy_xy_le_request prop R
  have hw := @greedy_work_items_le_request prop R
  have hxp := greedy_x_pos hR hp
  have hxyp := greedy_xy_pos hR hp
  have hcx := greedy_count_x_pos hR hp
  have hcy := @greedy_count_y_pos prop R
  have e1 : u64_mul (u64_mul (min R prop.maxGroupSizeX) 1) 1 = greedy_group_size prop R := by
    have hlt : min R prop.maxGroupSizeX < 2 ^ 64 := lt_of_le_of_lt (min_le_left _ _) hR64
    have hin : u64_mul (min R prop.maxGroupSizeX) 1 = min R prop.maxGroupSizeX := by
      rw [u64_mul_eq (by rw [Nat.mul_one]; exact hlt), Nat.mul_one]
    rw [hin, hin]
    rfl
  have e2 : u64_mul (greedy_count_x prop R) (greedy_group_size prop R) =
      greedy_count_x prop R * greedy_group_size prop R :=
    u64_mul_eq (lt_of_le_of_lt hx hR64)
  have hcxcy : greedy_count_x prop R * greedy_count_y prop R ≤ R :=
    le_trans (Nat.le_mul_of_pos_right _ hgs) hxy
  have e3 : u64_mul (greedy_count_x prop R) (greedy_count_y prop R) =
      greedy_count_x prop R * greedy_count_y prop R :=
    u64_mul_eq (lt_of_le_of_lt hcxcy hR64)
  have e4 : u64_mul (greedy_count_x prop R * greedy_count_y prop R) (greedy_group_size prop R) =
      greedy_count_x prop R * greedy_count_y prop R * greedy_group_size prop R :=
    u64_mul_eq (lt_of_le_of_lt hxy hR64)
  have hxyz : greedy_count_x prop R * greedy_count_y prop R * greedy_count_z prop R ≤ R :=
    le_trans (Nat.le_mul_of_pos_right _ hgs) hw
  have e5 : u64_mul (greedy_count_x prop R * greedy_count_y prop R) (greedy_count_z prop R) =
      greedy_count_x prop R * greedy_count_y prop R * greedy_count_z prop R :=
    u64_mul_eq (lt_of_le_of_lt hxyz hR64)
  have e6 : u64_mul (greedy_count_x prop R * greedy_count_y prop R * greedy_count_z prop R)
      (greedy_group_size prop R) = greedy_work_items prop R :=
    u64_mul_eq (lt_of_le_of_lt hw hR64)
  have c1 : u32_cast (greedy_group_size prop R) = greedy_group_size prop R :=
    u32_cast_eq (lt_of_le_of_lt greedy_group_size_le_max hr.1)
  have c2 : u32_cast (greedy_count_x prop R) = greedy_count_x prop R :=
    u32_cast_eq (lt_of_le_of_lt greedy_count_x_le_max hr.2.1)
  have c3 : u32_cast (greedy_count_y prop R) = greedy_count_y prop R :=
    u32_cast_eq (lt_of_le_of_lt (greedy_count_y_le_max hp) hr.2.2.1)
  have c4 : u32_cast (greedy_count_z prop R) = greedy_count_z prop R :=
    u32_cast_eq (lt_of_le_of_lt (greedy_count_z_le_max hp) hr.2.2.2)
  have c5 : u32_cast 1 = 1 := rfl
  unfold set_workgroups
  simp only []
  rw [e1, u64_div_eq (Nat.pos_iff_ne_zero.1 hgs), Option.some_bind]
  change (u64_div (u64_sub R (u64_mul (greedy_count_x prop R) (greedy_group_size prop R)))
    (u64_mul (greedy_count_x prop R) (greedy_group_size prop R))).bind _ = _
  rw [e2, u64_sub_eq hx hR64, u64_div_eq (Nat.pos_iff_ne_zero.1 hxp), Option.some_bind]
  change (u64_div (u64_sub R (u64_mul (u64_mul (greedy_count_x prop R) (greedy_count_y prop R))
      (greedy_group_size prop R)))
    (u64_mul (u64_mul (greedy_count_x prop R) (greedy_count_y prop R))
      (greedy_group_size prop R))).bind _ = _
  rw [e3, e4, u64_sub_eq hxy hR64, u64_div_eq (Nat.pos_iff_ne_zero.1 hxyp), Option.some_bind]
  change some (ZeWorkGroups.mk (u32_cast (greedy_group_size prop R)) (u32_cast 1) (u32_cast 1)
      (u32_cast (greedy_count_x prop R)) (u32_cast (greedy_count_y prop R))
      (u32_cast (greedy_count_z prop R)),
    u64_mul (u64_mul (u64_mul (greedy_count_x prop R) (greedy_count_y prop R))
      (greedy_count_z prop R)) (greedy_group_size prop R)) = _
  rw [e3, e5, e6, c1, c2, c3, c4, c5]
  rfl

/-- Under the precondition the checked arithmetic meets no fault and computes the
greedy plan. -/
theorem set_workgroups_checked_eq_greedy (prop : DeviceComputeProperties) (R : Nat)
    (hR : 1 ≤ R) (hR64 : R < 2 ^ 64) (hp : prop.Positive) :
    set_workgroups_checked prop R = .ok (greedy_plan prop R, greedy_work_items prop R) := by
  have hgs := greedy_group_size_pos hR hp
  have hx := @greedy_x_le_request prop R
  have hxy := @greedy_xy_le_request prop R
  have hw := @greedy_work_items_le_request prop R
  have hxp := greedy_x_pos hR hp
  have hxyp := greedy_xy_pos hR hp
  have hlt : min R prop.maxGroupSizeX < 2 ^ 64 := lt_of_le_of_lt (min_le_left _ _) hR64
  have e1 : chk_mul (min R prop.maxGroupSizeX) 1 = pure (greedy_group_size prop R) := by
    rw [chk_mul_eq (by rw [Nat.mul_one]; exact hlt), Nat.mul_one]
    rfl
  have e1b : chk_mul (greedy_group_size prop R) 1 = pure (greedy_group_size prop R) := by
    rw [chk_mul_eq (by rw [Nat.mul_one]; exact hlt), Nat.mul_one]
    rfl
  have d1 : chk_div R (greedy_group_size prop R) = pure (R / greedy_group_size prop R) :=
    chk_div_eq (Nat.pos_iff_ne_zero.1 hgs)
  have e2 : chk_mul (greedy_count_x prop R) (greedy_group_size prop R) =
      pure (greedy_count_x prop R * greedy_group_size prop R) :=
    chk_mul_eq (lt_of_le_of_lt hx hR64)
  have s1 : chk_sub R (greedy_count_x prop R * greedy_group_size prop R) =
      pure (R - greedy_count_x prop R * greedy_group_size prop R) := chk_sub_eq hx
  have d2 : chk_div (R - greedy_count_x prop R * greedy_group_size prop R)
      (greedy_count_x prop R * greedy_group_size prop R) =
      pure ((R - greedy_count_x prop R * greedy_group_size prop R) /
        (greedy_count_x prop R * greedy_group_size prop R)) :=
    chk_div_eq (Nat.pos_iff_ne_zero.1 hxp)
  have hcxcy : greedy_count_x prop R * greedy_count_y prop R ≤ R :=
    le_trans (Nat.le_mul_of_pos_right _ hgs) hxy
  have e3 : chk_mul (greedy_count_x prop R) (greedy_count_y prop R) =
      pure (greedy_count_x prop R * greedy_count_y prop R) :=
    chk_mul_eq (lt_of_le_of_lt hcxcy hR64)
  have e4 : chk_mul (greedy_count_x prop R * greedy_count_y prop R) (greedy_group_size prop R) =
      pure (greedy_count_x prop R * greedy_count_y prop R * greedy_group_size prop R) :=
    chk_mul_eq (lt_of_le_of_lt hxy hR64)
  have s2 : chk_sub R (greedy_count_x prop R * greedy_count_y prop R *
      greedy_group_size prop R) =
      pure (R - greedy_count_x prop R * greedy_count_y prop R * greedy_group_size prop R) :=
    chk_sub_eq hxy
  have d3 : chk_div (R - greedy_count_x prop R * greedy_count_y prop R *
      greedy_group_size prop R)
      (greedy_count_x prop R * greedy_count_y prop R * greedy_group_size prop R) =
      pure ((R - greedy_count_x prop R * greedy_count_y prop R * greedy_group_size prop R) /
        (greedy_count_x prop R * greedy_count_y prop R * greedy_group_size prop R)) :=
    chk_div_eq (Nat.pos_iff_ne_zero.1 hxyp)
  have hxyz : greedy_count_x prop R * greedy_count_y prop R * greedy_count_z prop R ≤ R :=
    le_trans (Nat.le_mul_of_pos_right _ hgs) hw
  have e5 : chk_mul (greedy_count_x prop R * greedy_count_y prop R) (greedy_count_z prop R) =
      pure (greedy_count_x prop R * greedy_count_y prop R * greedy_count_z prop R) :=
    chk_mul_eq (lt_of_le_of_lt hxyz hR64)
  have e6 : chk_mul (greedy_count_x prop R * greedy_count_y prop R * greedy_count_z prop R)
      (greedy_group_size prop R) = pure (greedy_work_items prop R) :=
    chk_mul_eq (lt_of_le_of_lt hw hR64)
  have s3 : chk_sub R (greedy_work_items prop R) = pure (R - greedy_work_items prop R) :=
    chk_sub_eq hw
  unfold set_workgroups_checked
  simp only [e1, e1b, pure_bind, d1]
  change (do
    let a ← chk_mul (greedy_count_x prop R) (greedy_group_size prop R)
    let remaining_items ← chk_sub R a
    let b ← chk_mul (greedy_count_x prop R) (greedy_group_size prop R)
    let group_count_y ← chk_div remaining_items b
    _) = _
  simp only [e2, pure_bind, s1, d2]
  change (do
    let a ← chk_mul (greedy_count_x prop R) (greedy_count_y prop R)
    let a ← chk_mul a (greedy_group_size prop R)
    let remaining_items ← chk_sub R a
    let b ← chk_mul (greedy_count_x prop R) (greedy_count_y prop R)
    let b ← chk_mul b (greedy_group_size prop R)
    let group_count_z ← chk_div remaining_items b
    _) = _
  simp only [e3, e4, pure_bind, s2, d3]
  change (do
    let a ← chk_mul (greedy_count_x prop R) (greedy_count_y prop R)
    let a ← chk_mul a (greedy_count_z prop R)
    let final_work_items ← chk_mul a (greedy_group_size prop R)
    let _remaining_items ← chk_sub R final_work_items
    _) = _
  simp only [e3, e5, e6, pure_bind, s3]
  rfl

/-- The 64-bit total of the greedy plan, recomputed by `total_current_work_items`
from the six fields, is the executed count. -/
theorem total_current_work_items_greedy (prop : DeviceComputeProperties) (R : Nat)
    (hR64 : R < 2 ^ 64) :
    total_current_work_items (greedy_group_size prop R) (greedy_count_x prop R) 1
      (greedy_count_y prop R) 1 (greedy_count_z prop R) = greedy_work_items prop R := by
  have hx := @greedy_x_le_request prop R
  have hxy := @greedy_xy_le_request prop R
  have hw := @greedy_work_items_le_request prop R
  have a1 : greedy_group_size prop R * greedy_count_x prop R =
      greedy_count_x prop R * greedy_group_size prop R := Nat.mul_comm _ _
  have a2 : greedy_count_x prop R * greedy_group_size prop R * greedy_count_y prop R =
      greedy_count_x prop R * greedy_count_y prop R * greedy_group_size prop R := by ring
  have a3 : greedy_count_x prop R * greedy_count_y prop R * greedy_group_size prop R *
      greedy_count_z prop R = greedy_work_items prop R := by
    unfold greedy_work_items
    ring
  have one (a : Nat) (h : a < 2 ^ 64) : u64_mul a 1 = a := by
    rw [u64_mul_eq (by rw [Nat.mul_one]; exact h), Nat.mul_one]
  unfold total_current_work_items
  rw [u64_mul_eq (a := greedy_group_size prop R) (by rw [a1]; exact lt_of_le_of_lt hx hR64), a1,
    one _ (lt_of_le_of_lt hx hR64),
    u64_mul_eq (a := greedy_count_x prop R * greedy_group_size prop R)
      (by rw [a2]; exact lt_of_le_of_lt hxy hR64), a2,
    one _ (lt_of_le_of_lt hxy hR64),
    u64_mul_eq (by rw [a3]; exact lt_of_le_of_lt hw hR64), a3]

/-! ## Workgroup solver: theorems -/

/-- C1: for every request `R ≥ 1` and device limits all `≥ 1`, `set_workgroups` returns
and the plan it stores is legal on every axis: `1 ≤ group_size_x ≤ maxGroupSizeX`,
`group_size_y = group_size_z = 1`, and each group count lies between one and the
device maximum of its axis. -/
theorem set_workgroups_plan_legal (prop : DeviceComputeProperties) (R : Nat)
    (hR : 1 ≤ R) (hR64 : R < 2 ^ 64) (hp : prop.Positive) (hr : prop.InRange) :
    ∃ plan n, set_workgroups prop R = some (plan, n) ∧
      1 ≤ plan.group_size_x ∧ plan.group_size_x ≤ prop.maxGroupSizeX ∧
      plan.group_size_y = 1 ∧ plan.group_size_z = 1 ∧
      1 ≤ plan.groupCountX ∧ plan.groupCountX ≤ prop.maxGroupCountX ∧
      1 ≤ plan.groupCountY ∧ plan.groupCountY ≤ prop.maxGroupCountY ∧
      1 ≤ plan.groupCountZ ∧ plan.groupCountZ ≤ prop.maxGroupCountZ :=
  ⟨greedy_plan prop R, greedy_work_items prop R,
    set_workgroups_eq_greedy prop R hR hR64 hp hr,
    greedy_group_size_pos hR hp, greedy_group_size_le_max, rfl, rfl,
    greedy_count_x_pos hR hp, greedy_count_x_le_max,
    greedy_count_y_pos, greedy_count_y_le_max hp,
    greedy_count_z_pos, greedy_count_z_le_max hp⟩

/-- Witness of C1 at the request 16 with limits 4, 2, 2, 1. -/
theorem set_workgroups_plan_legal_witness :
    (1 ≤ 16 ∧ 16 < 2 ^ 64 ∧ DeviceComputeProperties.Positive ⟨4, 2, 2, 1⟩ ∧
      DeviceComputeProperties.InRange ⟨4, 2, 2, 1⟩) ∧
    ∃ plan n, set_workgroups ⟨4, 2, 2, 1⟩ 16 = some (plan, n) ∧
      1 ≤ plan.group_size_x ∧ plan.group_size_x ≤ 4 ∧
      plan.group_size_y = 1 ∧ plan.group_size_z = 1 ∧
      1 ≤ plan.groupCountX ∧ plan.groupCountX ≤ 2 ∧
      1 ≤ plan.groupCountY ∧ plan.groupCountY ≤ 2 ∧
      1 ≤ plan.groupCountZ ∧ plan.groupCountZ ≤ 1 :=
  ⟨by decide,
    set_workgroups_plan_legal ⟨4, 2, 2, 1⟩ 16 (by decide) (by decide) (by decide) (by decide)⟩

/-- C2: for every `R ≥ 1` and limits `≥ 1`, the count returned by `set_workgroups`
equals `total_current_work_items` applied to the six 32-bit fields it stored; the
stored fields are the 64-bit values themselves (the `uint32_t` stores truncate
nothing), and the count is the exact product
`groupCountX * groupCountY * groupCountZ * group_size`. -/
theorem set_workgroups_count_eq_total (prop : DeviceComputeProperties) (R : Nat)
    (hR : 1 ≤ R) (hR64 : R < 2 ^ 64) (hp : prop.Positive) (hr : prop.InRange) :
    ∃ plan n, set_workgroups prop R = some (plan, n) ∧
      set_workgroups_checked prop R = .ok (plan, n) ∧
      n = total_current_work_items plan.group_size_x plan.groupCountX plan.group_size_y
        plan.groupCountY plan.group_size_z plan.groupCountZ ∧
      n = plan.groupCountX * plan.groupCountY * plan.groupCountZ *
        (plan.group_size_x * plan.group_size_y * plan.group_size_z) :=
  ⟨greedy_plan prop R, greedy_work_items prop R,
    set_workgroups_eq_greedy prop R hR hR64 hp hr,
    set_workgroups_checked_eq_greedy prop R hR hR64 hp,
    (total_current_work_items_greedy prop R hR64).symm,
    by simp [greedy_plan, greedy_work_items]⟩

/-- Witness of C2 at the request 1000 with limits 256, 3, 5, 7. -/
theorem set_workgroups_count_eq_total_witness :
    (1 ≤ 1000 ∧ 1000 < 2 ^ 64 ∧ DeviceComputeProperties.Positive ⟨256, 3, 5, 7⟩ ∧
      DeviceComputeProperties.InRange ⟨256, 3, 5, 7⟩) ∧
    ∃ plan n, set_workgroups ⟨256, 3, 5, 7⟩ 1000 = some (plan, n) ∧
      set_workgroups_checked ⟨256, 3, 5, 7⟩ 1000 = .ok (plan, n) ∧
      n = total_current_work_items plan.group_size_x plan.groupCountX plan.group_size_y
        plan.groupCountY plan.group_size_z plan.groupCountZ ∧
      n = plan.groupCountX * plan.groupCountY * plan.groupCountZ *
        (plan.group_size_x * plan.group_size_y * plan.group_size_z) :=
  ⟨by decide,
    set_workgroups_count_eq_total ⟨256, 3, 5, 7⟩ 1000 (by decide) (by decide) (by decide)
      (by decide)⟩

/-- C3: for every `R ≥ 1` and limits `≥ 1`, the executed work-item count returned by
`set_workgroups` never exceeds the exact product
`maxGroupSizeX * maxGroupCountX * maxGroupCountY * maxGroupCountZ`. -/
theorem set_workgroups_count_le_ceiling (prop : DeviceComputeProperties) (R : Nat)
    (hR : 1 ≤ R) (hR64 : R < 2 ^ 64) (hp : prop.Positive) (hr : prop.InRange) :
    ∃ plan n, set_workgroups prop R = some (plan, n) ∧
      n ≤ prop.maxGroupSizeX * prop.maxGroupCountX * prop.maxGroupCountY *
        prop.maxGroupCountZ := by
  refine ⟨greedy_plan prop R, greedy_work_items prop R,
    set_workgroups_eq_greedy prop R hR hR64 hp hr, ?_⟩
  have e : greedy_work_items prop R = greedy_group_size prop R * greedy_count_x prop R *
      greedy_count_y prop R * greedy_count_z prop R := by
    unfold greedy_work_items
    ring
  rw [e]
  exact Nat.mul_le_mul (Nat.mul_le_mul (Nat.mul_le_mul greedy_group_size_le_max
    greedy_count_x_le_max) (greedy_count_y_le_max hp)) (greedy_count_z_le_max hp)

/-- Witness of C3 at the request 100 with limits 4, 2, 2, 3. -/
theorem set_workgroups_count_le_ceiling_witness :
    (1 ≤ 100 ∧ 100 < 2 ^ 64 ∧ DeviceComputeProperties.Positive ⟨4, 2, 2, 3⟩ ∧
      DeviceComputeProperties.InRange ⟨4, 2, 2, 3⟩) ∧
    ∃ plan n, set_workgroups ⟨4, 2, 2, 3⟩ 100 = some (plan, n) ∧ n ≤ 4 * 2 * 2 * 3 :=
  ⟨by decide,
    set_workgroups_count_le_ceiling ⟨4, 2, 2, 3⟩ 100 (by decide) (by decide) (by decide)
      (by decide)⟩

/-- C4: `set_workgroups` has no error path under its precondition: for every `R ≥ 1`
and limits `≥ 1` the run in which every division checks its divisor, every
subtraction from the request checks for a wrap below zero and every product checks
for a 64-bit overflow meets no fault, and it returns what the wrapping code returns. -/
theorem set_workgroups_no_fault (prop : DeviceComputeProperties) (R : Nat)
    (hR : 1 ≤ R) (hR64 : R < 2 ^ 64) (hp : prop.Positive) (hr : prop.InRange) :
    ∃ v, set_workgroups_checked prop R = .ok v ∧ set_workgroups prop R = some v :=
  ⟨(greedy_plan prop R, greedy_work_items prop R),
    set_workgroups_checked_eq_greedy prop R hR hR64 hp,
    set_workgroups_eq_greedy prop R hR hR64 hp hr⟩

/-- Witness of C4 at the request `2 ^ 40` with limits 1024, 65535, 65535, 65535. -/
theorem set_workgroups_no_fault_witness :
    (1 ≤ 2 ^ 40 ∧ 2 ^ 40 < 2 ^ 64 ∧ DeviceComputeProperties.Positive ⟨1024, 65535, 65535, 65535⟩ ∧
      DeviceComputeProperties.InRange ⟨1024, 65535, 65535, 65535⟩) ∧
    ∃ v, set_workgroups_checked ⟨1024, 65535, 65535, 65535⟩ (2 ^ 40) = .ok v ∧
      set_workgroups ⟨1024, 65535, 65535, 65535⟩ (2 ^ 40) = some v :=
  ⟨by decide,
    set_workgroups_no_fault ⟨1024, 65535, 65535, 65535⟩ (2 ^ 40) (by decide) (by decide)
      (by decide) (by decide)⟩

/-! ## Timing engine: running a computation -/

theorem pure_run {α : Type} (a : α) (w : World) : (pure a : M α) w = .ok (a, w) := rfl

theorem bind_run {α β : Type} (m : M α) (f : α → M β) (w : World) :
    (m >>= f) w = match m w with
      | .ok (a, w') => f a w'
      | .error e => .error e := rfl

theorem bind_run_ok {α β : Type} {m : M α} {f : α → M β} {w w' : World} {a : α}
    (h : m w = .ok (a, w')) : (m >>= f) w = f a w' := by
  rw [bind_run, h]

theorem check_zero (name : String) : check name 0 = pure () := rfl

/-! ## Timing engine: the elapsed time of an event -/

theorem context_time_ns_eq (ts : KernelTimestamp) (freq tmv : Nat) :
    context_time_ns ts freq tmv =
      ((elapsed_ticks ts.kernelStart ts.kernelEnd tmv : Nat) : Rat) * (freq : Rat) := by
  unfold context_time_ns elapsed_ticks
  split <;> rfl

/-- A successful timestamp query makes `context_time_in_us` return the tick count
times the timer resolution over one thousand, after one driver call. -/
theorem context_time_in_us_run (d : Driver) (context : L0Context) (event : Handle)
    (w : World) (tmv : Nat) (hres : d.result w.calls = 0)
    (hmax : timestamp_max_value context.device_property.kernelTimestampValidBits = some tmv) :
    context_time_in_us d context event w =
      .ok (((elapsed_ticks (d.timestamp w.queries).kernelStart
          (d.timestamp w.queries).kernelEnd tmv : Nat) : Rat) *
          (context.device_property.timerResolution : Rat) / 1000,
        { w with calls := w.calls + 1, queries := w.queries + 1,
                 trace := w.trace ++ [Step.call (.zeEventQueryKernelTimestamp event)] }) := by
  unfold context_time_in_us
  simp only [bind_run, issue_query, hres, check_zero, pure_run, hmax, context_time_ns_eq]

theorem elapsed_ticks_forward {s e : Nat} (M : Nat) (h : s ≤ e) (he : e < 2 ^ 64) :
    elapsed_ticks s e M = e - s := by
  unfold elapsed_ticks
  rw [if_pos h, u64_sub_eq h he]

theorem elapsed_ticks_wrapped {s e M : Nat} (h : e < s) (hs : s ≤ M) (hM : M < 2 ^ 64) :
    elapsed_ticks s e M = (M - s) + e + 1 := by
  unfold elapsed_ticks
  rw [if_neg (by omega), u64_sub_eq hs hM]
  unfold u64_add
  rw [Nat.mod_eq_of_lt (a := M - s + e) (by omega), Nat.mod_eq_of_lt (by omega)]

/-- C5: `context_time_in_us` takes the elapsed tick count of the event to be
`kernelEnd - kernelStart` when `kernelEnd ≥ kernelStart` and
`(timestamp_max_value - kernelStart) + kernelEnd + 1` otherwise, multiplies it by
`timerResolution` and divides by 1000; both tick counts are exact natural numbers for
timestamps within `timestamp_max_value`, and for `kernelStart = 10`, `kernelEnd = 5`,
`timestamp_max_value = 15` the tick count is 11. -/
theorem context_time_in_us_elapsed (d : Driver) (context : L0Context) (event : Handle)
    (w : World) (tmv : Nat) (hres : d.result w.calls = 0)
    (hmax : timestamp_max_value context.device_property.kernelTimestampValidBits = some tmv) :
    (∃ w', context_time_in_us d context event w =
      .ok (((elapsed_ticks (d.timestamp w.queries).kernelStart
          (d.timestamp w.queries).kernelEnd tmv : Nat) : Rat) *
          (context.device_property.timerResolution : Rat) / 1000, w')) ∧
    (∀ s e M : Nat, s ≤ e → e < 2 ^ 64 → elapsed_ticks s e M = e - s) ∧
    (∀ s e M : Nat, e < s → s ≤ M → M < 2 ^ 64 → elapsed_ticks s e M = (M - s) + e + 1) ∧
    elapsed_ticks 10 5 15 = 11 :=
  ⟨⟨_, context_time_in_us_run d context event w tmv hres hmax⟩,
    fun _ _ M h he => elapsed_ticks_forward M h he,
    fun _ _ _ h hs hM => elapsed_ticks_wrapped h hs hM,
    by decide⟩

/-- Witness of C5: a device with 4 valid timestamp bits and a timer resolution of
1000, whose event reports `kernelStart = 10` and `kernelEnd = 5`. -/
theorem context_time_in_us_elapsed_witness :
    ((⟨fun _ => 0, fun k => k, fun _ => ⟨10, 5⟩, fun _ => 0⟩ : Driver).result
        (⟨0, 0, 0, []⟩ : World).calls = 0 ∧
      timestamp_max_value
        (⟨0, 0, ⟨1000, 4⟩⟩ : L0Context).device_property.kernelTimestampValidBits = some 15) ∧
    (∃ w', context_time_in_us ⟨fun _ => 0, fun k => k, fun _ => ⟨10, 5⟩, fun _ => 0⟩
        ⟨0, 0, ⟨1000, 4⟩⟩ 0 ⟨0, 0, 0, []⟩ =
      .ok (((elapsed_ticks 10 5 15 : Nat) : Rat) * ((1000 : Nat) : Rat) / 1000, w')) ∧
    (∀ s e M : Nat, s ≤ e → e < 2 ^ 64 → elapsed_ticks s e M = e - s) ∧
    (∀ s e M : Nat, e < s → s ≤ M → M < 2 ^ 64 → elapsed_ticks s e M = (M - s) + e + 1) ∧
    elapsed_ticks 10 5 15 = 11 :=
  ⟨⟨rfl, by decide⟩,
    context_time_in_us_elapsed ⟨fun _ => 0, fun k => k, fun _ => ⟨10, 5⟩, fun _ => 0⟩
      ⟨0, 0, ⟨1000, 4⟩⟩ 0 ⟨0, 0, 0, []⟩ 15 rfl (by decide)⟩

/-! ## Timing engine: loops -/

theorem World.extend_extend (w : World) (c q t c' q' t' : Nat) (s s' : List Step) :
    (w.extend c q t s).extend c' q' t' s' = w.extend (c + c') (q + q') (t + t') (s ++ s') := by
  simp only [World.extend, Nat.add_assoc, List.append_assoc]

theorem World.extend_zero (w : World) : w.extend 0 0 0 [] = w := by
  simp only [World.extend, Nat.add_zero, List.append_nil]

theorem sum_first_zero (f : Nat → Rat) : sum_first 0 f = 0 := rfl

theorem sum_first_succ_front (n : Nat) (f : Nat → Rat) :
    sum_first (n + 1) f = f 0 + sum_first n fun k => f (k + 1) := by
  unfold sum_first
  rw [List.range_succ_eq_map, List.map_cons, List.sum_cons, List.map_map]
  rfl

theorem sum_first_nonneg (n : Nat) (f : Nat → Rat) (h : ∀ k, 0 ≤ f k) : 0 ≤ sum_first n f := by
  induction n generalizing f with
  | zero => exact le_of_eq (sum_first_zero f).symm
  | succ n ih =>
    rw [sum_first_succ_front]
    exact add_nonneg (h 0) (ih _ fun k => h (k + 1))

/-- A loop whose body always succeeds, taking the same steps each time. -/
theorem for_loop_unit {body : M Unit} {c q t : Nat} {steps : List Step}
    (hbody : ∀ w, body w = .ok ((), w.extend c q t steps)) (n : Nat) (w : World) :
    for_loop n (fun _ => body) () w =
      .ok ((), w.extend (n * c) (n * q) (n * t) (repeated n steps)) := by
  induction n generalizing w with
  | zero =>
    simp only [for_loop, pure_run, Nat.zero_mul, repeated, World.extend_zero]
  | succ n ih =>
    unfold for_loop
    rw [bind_run_ok (hbody w), ih, World.extend_extend]
    simp only [repeated, Nat.succ_mul, Nat.add_comm]

/-- A loop whose body always succeeds and adds one sample, read at the current query
and timer counters, to the running total. -/
theorem for_loop_acc {body : Rat → M Rat} (sample : Nat → Nat → Rat) {c q t : Nat}
    {steps : List Step}
    (hbody : ∀ timed w, body timed w =
      .ok (timed + sample w.queries w.stops, w.extend c q t steps))
    (n : Nat) (timed : Rat) (w : World) :
    for_loop n body timed w =
      .ok (timed + sum_first n (fun k => sample (w.queries + k * q) (w.stops + k * t)),
        w.extend (n * c) (n * q) (n * t) (repeated n steps)) := by
  induction n generalizing w timed with
  | zero =>
    simp only [for_loop, pure_run, Nat.zero_mul, repeated, World.extend_zero, sum_first_zero,
      add_zero]
  | succ n ih =>
    unfold for_loop
    rw [bind_run_ok (hbody timed w), ih, World.extend_extend, sum_first_succ_front]
    have e : (fun k => sample ((w.extend c q t steps).queries + k * q)
        ((w.extend c q t steps).stops + k * t)) =
        fun k => sample (w.queries + (k + 1) * q) (w.stops + (k + 1) * t) := by
      funext k
      simp only [World.extend, Nat.succ_mul, Nat.add_assoc, Nat.add_comm q, Nat.add_comm t]
    rw [e]
    simp only [repeated, Nat.succ_mul, Nat.add_comm, Nat.zero_mul, Nat.add_zero, add_assoc,
      Nat.zero_add]

/-! ## Timing engine: steps of a run in which every driver call succeeds -/

section Success

variable {d : Driver} (hd : ∀ k, d.result k = 0)
include hd

theorem issue_ok (c : DriverCall) (w : World) :
    issue d c w = .ok (0, w.extend 1 0 0 [Step.call c]) := by
  simp only [issue, hd, World.extend, Nat.add_zero]

theorem issue_create_ok (c : DriverCall) (w : World) :
    issue_create d c w = .ok ((0, d.handle w.calls), w.extend 1 0 0 [Step.call c]) := by
  simp only [issue_create, hd, World.extend, Nat.add_zero]

theorem run_command_queue_ok (context : L0Context) (w : World) :
    run_command_queue d context w = .ok ((), w.extend 1 0 0 [exec_step context]) := by
  simp only [run_command_queue, bind_run, issue_ok hd, check_zero, pure_run, exec_step]

theorem execute_command_lists_ok (context : L0Context) (w : World) :
    execute_command_lists d context w = .ok ((), w.extend 1 0 0 [exec_step context]) := by
  simp only [execute_command_lists, bind_run, issue_ok hd, check_zero, pure_run, exec_step]

theorem synchronize_command_queue_ok (context : L0Context) (w : World) :
    synchronize_command_queue d context w = .ok ((), w.extend 1 0 0 [sync_step context]) := by
  simp only [synchronize_command_queue, bind_run, issue_ok hd, check_zero, pure_run, sync_step]

theorem queue_synchronize_ok (context : L0Context) (w : World) :
    queue_synchronize d context w = .ok ((), w.extend 1 0 0 [sync_step context]) := by
  simp only [queue_synchronize, bind_run, issue_ok hd, check_zero, pure_run, sync_step]

theorem event_host_synchronize_ok (event : Handle) (w : World) :
    event_host_synchronize d event w = .ok ((), w.extend 1 0 0 [wait_step event]) := by
  simp only [event_host_synchronize, bind_run, issue_ok hd, check_zero, pure_run, wait_step]

theorem event_host_reset_ok (event : Handle) (w : World) :
    event_host_reset d event w = .ok ((), w.extend 1 0 0 [reset_step event]) := by
  simp only [event_host_reset, bind_run, issue_ok hd, check_zero, pure_run, reset_step]

theorem append_launch_kernel_ok (context : L0Context) (function : Handle)
    (workgroup_info : ZeWorkGroups) (signal_event : Option Handle) (w : World) :
    append_launch_kernel d context function workgroup_info signal_event w =
      .ok ((), w.extend 1 0 0 [launch_step context function workgroup_info signal_event]) := by
  simp only [append_launch_kernel, bind_run, issue_ok hd, check_zero, pure_run, launch_step]

theorem close_command_list_ok (context : L0Context) (w : World) :
    close_command_list d context w = .ok ((), w.extend 1 0 0 [close_step context]) := by
  simp only [close_command_list, bind_run, issue_ok hd, check_zero, pure_run, close_step]

theorem reset_commandlist_ok (cmd_list : Handle) (w : World) :
    reset_commandlist d cmd_list w =
      .ok ((), w.extend 1 0 0 [Step.call (.zeCommandListReset cmd_list)]) := by
  simp only [reset_commandlist, bind_run, issue_ok hd, check_zero, pure_run]

theorem single_event_pool_create_ok (flags : EventPoolFlags) (w : World) :
    single_event_pool_create d flags w =
      .ok (d.handle w.calls, w.extend 1 0 0 [Step.call (.zeEventPoolCreate flags)]) := by
  simp only [single_event_pool_create, bind_run, issue_create_ok hd, check_zero, pure_run]

theorem single_event_create_ok (event_pool : Handle) (w : World) :
    single_event_create d event_pool w =
      .ok (d.handle w.calls, w.extend 1 0 0 [Step.call (.zeEventCreate event_pool)]) := by
  simp only [single_event_create, bind_run, issue_create_ok hd, check_zero, pure_run]

theorem context_time_in_us_ok (context : L0Context) (event : Handle) (tmv : Nat)
    (hmax : timestamp_max_value context.device_property.kernelTimestampValidBits = some tmv)
    (w : World) :
    context_time_in_us d context event w =
      .ok (event_sample d context tmv w.queries, w.extend 1 1 0 [query_step event]) := by
  rw [context_time_in_us_run d context event w tmv (hd _) hmax]
  simp only [event_sample, World.extend, query_step, Nat.add_zero]

end Success

theorem timer_start_run (w : World) :
    timer_start w = .ok ((), w.extend 0 0 0 [Step.timer_start]) := by
  simp only [timer_start, World.extend, Nat.add_zero]

theorem timer_stopAndTime_run (d : Driver) (w : World) :
    timer_stopAndTime d w =
      .ok (d.stopAndTime w.stops, w.extend 0 0 1 [Step.timer_stopAndTime]) := by
  simp only [timer_stopAndTime, World.extend, Nat.add_zero]

/-! ## Timing engine: iterations of a run in which every driver call succeeds -/

section SuccessIterations

variable {d : Driver} (hd : ∀ k, d.result k = 0)
include hd

theorem event_timing_warmup_body_ok (context : L0Context) (event : Handle) (w : World) :
    event_timing_warmup_body d context event w =
      .ok ((), w.extend 4 0 0
        [exec_step context, wait_step event, sync_step context, reset_step event]) := by
  simp only [event_timing_warmup_body, bind_run, execute_command_lists_ok hd,
    event_host_synchronize_ok hd, queue_synchronize_ok hd, event_host_reset_ok hd,
    World.extend_extend, List.cons_append, List.nil_append]

theorem event_timing_measured_body_ok (context : L0Context) (event : Handle) (tmv : Nat)
    (hmax : timestamp_max_value context.device_property.kernelTimestampValidBits = some tmv)
    (timed : Rat) (w : World) :
    event_timing_measured_body d context event timed w =
      .ok (timed + event_sample d context tmv w.queries, w.extend 5 1 0
        [exec_step context, wait_step event, query_step event, sync_step context,
          reset_step event]) := by
  simp only [event_timing_measured_body, bind_run, execute_command_lists_ok hd,
    event_host_synchronize_ok hd, queue_synchronize_ok hd, event_host_reset_ok hd,
    context_time_in_us_ok hd context event tmv hmax, pure_run,
    World.extend_extend, List.cons_append, List.nil_append]
  simp only [World.extend, Nat.add_zero]

theorem launch_latency_warmup_body_ok (context : L0Context) (event : Handle) (w : World) :
    launch_latency_warmup_body d context event w =
      .ok ((), w.extend 4 0 0
        [exec_step context, sync_step context, wait_step event, reset_step event]) := by
  simp only [launch_latency_warmup_body, bind_run, run_command_queue_ok hd,
    event_host_synchronize_ok hd, synchronize_command_queue_ok hd, event_host_reset_ok hd,
    World.extend_extend, List.cons_append, List.nil_append]

theorem launch_latency_measured_body_ok (context : L0Context) (event : Handle)
    (timed : Rat) (w : World) :
    launch_latency_measured_body d context event timed w =
      .ok (timed + d.stopAndTime w.stops, w.extend 4 0 1
        [Step.timer_start, exec_step context, wait_step event, Step.timer_stopAndTime,
          sync_step context, reset_step event]) := by
  simp only [launch_latency_measured_body, bind_run, execute_command_lists_ok hd,
    event_host_synchronize_ok hd, queue_synchronize_ok hd, event_host_reset_ok hd,
    timer_start_run, timer_stopAndTime_run, pure_run,
    World.extend_extend, List.cons_append, List.nil_append]
  simp only [World.extend, Nat.add_zero]

theorem complete_runtime_warmup_body_ok (context : L0Context) (event : Handle) (w : World) :
    complete_runtime_warmup_body d context event w =
      .ok ((), w.extend 3 0 0 [exec_step context, wait_step event, reset_step event]) := by
  simp only [complete_runtime_warmup_body, bind_run, run_command_queue_ok hd,
    event_host_synchronize_ok hd, event_host_reset_ok hd,
    World.extend_extend, List.cons_append, List.nil_append]

theorem complete_runtime_measured_body_ok (context : L0Context) (event : Handle) (tmv : Nat)
    (hmax : timestamp_max_value context.device_property.kernelTimestampValidBits = some tmv)
    (timed : Rat) (w : World) :
    complete_runtime_measured_body d context event timed w =
      .ok (timed + event_sample d context tmv w.queries, w.extend 5 1 0
        [exec_step context, sync_step context, wait_step event, query_step event,
          reset_step event]) := by
  simp only [complete_runtime_measured_body, bind_run, run_command_queue_ok hd,
    synchronize_command_queue_ok hd, event_host_synchronize_ok hd, event_host_reset_ok hd,
    context_time_in_us_ok hd context event tmv hmax, pure_run,
    World.extend_extend, List.cons_append, List.nil_append]
  simp only [World.extend, Nat.add_zero]

end SuccessIterations

/-! ## Timing engine: branches of a run in which every driver call succeeds -/

section SuccessBranches

variable {d : Driver} (hd : ∀ k, d.result k = 0)
include hd

theorem run_kernel_bandwidth_ok (warmup_iterations iters : Nat) (context : L0Context)
    (function : Handle) (workgroup_info : ZeWorkGroups) (w : World) :
    run_kernel_bandwidth d warmup_iterations iters context function workgroup_info w =
      .ok (d.stopAndTime w.stops, w.extend (warmup_iterations + iters + 4) 0 1
        (bandwidth_steps warmup_iterations iters context function workgroup_info)) := by
  simp only [run_kernel_bandwidth, bind_run, append_launch_kernel_ok hd,
    close_command_list_ok hd, for_loop_unit (run_command_queue_ok hd context),
    synchronize_command_queue_ok hd, timer_start_run, timer_stopAndTime_run, pure_run,
    World.extend_extend]
  simp only [World.extend, bandwidth_steps, Nat.mul_zero, Nat.mul_one, Nat.add_zero,
    Nat.zero_add, List.append_assoc, List.cons_append, List.nil_append]
  congr 3
  omega

theorem run_kernel_event_timing_ok (warmup_iterations iters : Nat) (context : L0Context)
    (function : Handle) (workgroup_info : ZeWorkGroups) (tmv : Nat)
    (hmax : timestamp_max_value context.device_property.kernelTimestampValidBits = some tmv)
    (timed : Rat) (w : World) :
    run_kernel_event_timing d warmup_iterations iters context function workgroup_info timed w =
      .ok (timed + sum_first iters (fun k => event_sample d context tmv (w.queries + k)),
        w.extend (4 * warmup_iterations + 5 * iters + 6) iters 0
          (event_timing_steps warmup_iterations iters context function workgroup_info
            (d.handle w.calls) (d.handle (w.calls + 1)))) := by
  simp only [run_kernel_event_timing, bind_run, single_event_pool_create_ok hd,
    single_event_create_ok hd, append_launch_kernel_ok hd, close_command_list_ok hd,
    fun event => for_loop_unit (event_timing_warmup_body_ok hd context event),
    fun event => for_loop_acc (fun q _ => event_sample d context tmv q)
      (event_timing_measured_body_ok hd context event tmv hmax),
    issue_ok hd, pure_run, World.extend_extend]
  simp only [World.extend, event_timing_steps, Nat.mul_zero, Nat.mul_one, Nat.add_zero,
    Nat.zero_add, List.append_assoc, List.cons_append, List.nil_append]
  congr 3
  omega

theorem run_kernel_launch_latency_ok (warmup_iterations iters : Nat) (context : L0Context)
    (function : Handle) (workgroup_info : ZeWorkGroups) (timed : Rat) (w : World) :
    run_kernel_launch_latency d warmup_iterations iters context function workgroup_info
        timed w =
      .ok (timed + sum_first iters (fun k => d.stopAndTime (w.stops + k)),
        w.extend (4 * warmup_iterations + 4 * iters + 7) 0 iters
          (launch_latency_steps warmup_iterations iters context function workgroup_info
            (d.handle w.calls) (d.handle (w.calls + 1)))) := by
  simp only [run_kernel_launch_latency, bind_run, single_event_pool_create_ok hd,
    single_event_create_ok hd, append_launch_kernel_ok hd, close_command_list_ok hd,
    fun event => for_loop_unit (launch_latency_warmup_body_ok hd context event),
    fun event => for_loop_acc (fun _ t => d.stopAndTime t)
      (launch_latency_measured_body_ok hd context event),
    issue_ok hd, check_zero, pure_run, World.extend_extend]
  simp only [World.extend, launch_latency_steps, Nat.mul_zero, Nat.mul_one, Nat.add_zero,
    Nat.zero_add, List.append_assoc, List.cons_append, List.nil_append]
  congr 3
  omega

theorem run_kernel_complete_runtime_ok (warmup_iterations iters : Nat) (context : L0Context)
    (function : Handle) (workgroup_info : ZeWorkGroups) (tmv : Nat)
    (hmax : timestamp_max_value context.device_property.kernelTimestampValidBits = some tmv)
    (timed : Rat) (w : World) :
    run_kernel_complete_runtime d warmup_iterations iters context function workgroup_info
        timed w =
      .ok (timed + sum_first iters (fun k => event_sample d context tmv (w.queries + k)),
        w.extend (3 * warmup_iterations + 5 * iters + 7) iters 0
          (complete_runtime_steps warmup_iterations iters context function workgroup_info
            (d.handle w.calls) (d.handle (w.calls + 1)))) := by
  simp only [run_kernel_complete_runtime, bind_run, single_event_pool_create_ok hd,
    single_event_create_ok hd, append_launch_kernel_ok hd, close_command_list_ok hd,
    fun event => for_loop_unit (complete_runtime_warmup_body_ok hd context event),
    fun event => for_loop_acc (fun q _ => event_sample d context tmv q)
      (complete_runtime_measured_body_ok hd context event tmv hmax),
    synchronize_command_queue_ok hd, issue_ok hd, pure_run, World.extend_extend]
  simp only [World.extend, complete_runtime_steps, Nat.mul_zero, Nat.mul_one, Nat.add_zero,
    Nat.zero_add, List.append_assoc, List.cons_append, List.nil_append]
  congr 3
  omega

/-- A call of `run_kernel` in which every driver call succeeds returns the mean of the
measured total and leaves exactly the steps of `run_kernel_steps`. -/
theorem run_kernel_ok (warmup_iterations iters : Nat) (context : L0Context)
    (function : Handle) (workgroup_info : ZeWorkGroups) (type : TimingMeasurement)
    (reset_command_list : Bool) (tmv : Nat)
    (hmax : uses_timestamps type = true →
      timestamp_max_value context.device_property.kernelTimestampValidBits = some tmv)
    (w : World) :
    run_kernel d warmup_iterations iters context function workgroup_info type
        reset_command_list w =
      .ok (measured_total d context tmv type iters w / (iters : Rat),
        w.extend (1 + branch_calls type warmup_iterations iters +
            (if reset_command_list then 1 else 0))
          (query_count type iters) (stop_count type iters)
          (run_kernel_steps d w warmup_iterations iters context function workgroup_info type
            reset_command_list)) := by
  have fin : ∀ (v : Rat) (a b q t : Nat) (s s' : List Step), a = b → s = s' →
      (Except.ok (v, w.extend a q t s) : Except Failure (Rat × World)) =
        .ok (v, w.extend b q t s') := by
    intro v a b q t s s' hab hs
    rw [hab, hs]
  cases type with
  | BANDWIDTH =>
    cases reset_command_list <;>
      simp only [run_kernel, bind_run, issue_ok hd, check_zero, pure_run,
        run_kernel_bandwidth_ok hd, reset_commandlist_ok hd, World.extend_extend,
        measured_total, branch_calls, query_count, stop_count, run_kernel_steps, branch_steps,
        if_true, if_false, Bool.false_eq_true] <;>
      exact fin _ _ _ _ _ _ _ (by omega)
        (by first | rfl | simp only [List.append_assoc, List.append_nil, World.extend])
  | BANDWIDTH_EVENT_TIMING =>
    cases reset_command_list <;>
      simp only [run_kernel, bind_run, issue_ok hd, check_zero, pure_run,
        run_kernel_event_timing_ok hd _ _ _ _ _ tmv (hmax rfl), reset_commandlist_ok hd,
        World.extend_extend, measured_total, branch_calls, query_count, stop_count,
        run_kernel_steps, branch_steps, if_true, if_false, Bool.false_eq_true, zero_add] <;>
      exact fin _ _ _ _ _ _ _ (by omega)
        (by first | rfl | simp only [List.append_assoc, List.append_nil, World.extend])
  | KERNEL_LAUNCH_LATENCY =>
    cases reset_command_list <;>
      simp only [run_kernel, bind_run, issue_ok hd, check_zero, pure_run,
        run_kernel_launch_latency_ok hd, reset_commandlist_ok hd,
        World.extend_extend, measured_total, branch_calls, query_count, stop_count,
        run_kernel_steps, branch_steps, if_true, if_false, Bool.false_eq_true, zero_add] <;>
      exact fin _ _ _ _ _ _ _ (by omega)
        (by first | rfl | simp only [List.append_assoc, List.append_nil, World.extend])
  | KERNEL_COMPLETE_RUNTIME =>
    cases reset_command_list <;>
      simp only [run_kernel, bind_run, issue_ok hd, check_zero, pure_run,
        run_kernel_complete_runtime_ok hd _ _ _ _ _ tmv (hmax rfl), reset_commandlist_ok hd,
        World.extend_extend, measured_total, branch_calls, query_count, stop_count,
        run_kernel_steps, branch_steps, if_true, if_false, Bool.false_eq_true, zero_add] <;>
      exact fin _ _ _ _ _ _ _ (by omega)
        (by first | rfl | simp only [List.append_assoc, List.append_nil, World.extend])

end SuccessBranches

/-! ## Timing engine: theorems -/

theorem event_sample_nonneg (d : Driver) (context : L0Context) (tmv q : Nat) :
    0 ≤ event_sample d context tmv q := by
  unfold event_sample
  positivity

theorem measured_total_nonneg (d : Driver) (context : L0Context) (tmv : Nat)
    (type : TimingMeasurement) (iters : Nat) (w : World) (h : ∀ t, 0 ≤ d.stopAndTime t) :
    0 ≤ measured_total d context tmv type iters w := by
  cases type
  · exact h _
  · exact sum_first_nonneg _ _ fun _ => event_sample_nonneg _ _ _ _
  · exact sum_first_nonneg _ _ fun _ => h _
  · exact sum_first_nonneg _ _ fun _ => event_sample_nonneg _ _ _ _

/-- C6: for every timing mode and every `iters ≥ 1`, a call of `run_kernel` in which the
driver calls succeed returns `timed / iters`, where `timed` is the single host-timer
span in `BANDWIDTH` and the sum of exactly `iters` per-iteration samples in the three
other modes; the steps of the call are those of `run_kernel_steps`, these samples are
the only ones read during the call (one in `BANDWIDTH`, `iters` otherwise), the value is
the same for every number of warm-up iterations, and it is `≥ 0` whenever every sample
is `≥ 0`. -/
theorem run_kernel_mean_of_measured (d : Driver) (warmup_iterations iters : Nat)
    (context : L0Context) (function : Handle) (workgroup_info : ZeWorkGroups)
    (type : TimingMeasurement) (reset_command_list : Bool) (tmv : Nat) (w : World)
    (hi : 1 ≤ iters) (hd : ∀ k, d.result k = 0)
    (hmax : uses_timestamps type = true →
      timestamp_max_value context.device_property.kernelTimestampValidBits = some tmv) :
    ∃ mean w', run_kernel d warmup_iterations iters context function workgroup_info type
        reset_command_list w = .ok (mean, w') ∧
      mean = measured_total d context tmv type iters w / (iters : Rat) ∧
      mean * (iters : Rat) = measured_total d context tmv type iters w ∧
      w'.trace = w.trace ++ run_kernel_steps d w warmup_iterations iters context function
        workgroup_info type reset_command_list ∧
      w'.queries = w.queries + query_count type iters ∧
      w'.stops = w.stops + stop_count type iters ∧
      query_count type iters + stop_count type iters =
        (if type = .BANDWIDTH then 1 else iters) ∧
      (∀ warmup', ∃ w'', run_kernel d warmup' iters context function workgroup_info type
        reset_command_list w = .ok (mean, w'')) ∧
      ((∀ t, 0 ≤ d.stopAndTime t) → 0 ≤ mean) := by
  have hne : (iters : Rat) ≠ 0 := Nat.cast_ne_zero.2 (by omega)
  refine ⟨_, _, run_kernel_ok hd warmup_iterations iters context function workgroup_info type
    reset_command_list tmv hmax w, rfl, div_mul_cancel₀ _ hne, rfl, rfl, rfl, ?_, ?_, ?_⟩
  · cases type <;> simp [query_count, stop_count]
  · intro warmup'
    exact ⟨_, run_kernel_ok hd warmup' iters context function workgroup_info type
      reset_command_list tmv hmax w⟩
  · intro h
    exact div_nonneg (measured_total_nonneg d context tmv type iters w h) (Nat.cast_nonneg _)

/-- Witness of C6: three measured iterations after two warm-up iterations in
`BANDWIDTH_EVENT_TIMING` mode on the sample driver. -/
theorem run_kernel_mean_of_measured_witness :
    (1 ≤ 3 ∧ (∀ k, sample_driver.result k = 0) ∧
      (uses_timestamps .BANDWIDTH_EVENT_TIMING = true →
        timestamp_max_value sample_context.device_property.kernelTimestampValidBits =
          some 15)) ∧
    ∃ mean w', run_kernel sample_driver 2 3 sample_context 0 ⟨1, 1, 1, 1, 1, 1⟩
        .BANDWIDTH_EVENT_TIMING true World.initial = .ok (mean, w') ∧
      mean = measured_total sample_driver sample_context 15 .BANDWIDTH_EVENT_TIMING 3
        World.initial / ((3 : Nat) : Rat) ∧
      mean * ((3 : Nat) : Rat) = measured_total sample_driver sample_context 15
        .BANDWIDTH_EVENT_TIMING 3 World.initial ∧
      w'.trace = World.initial.trace ++ run_kernel_steps sample_driver World.initial 2 3
        sample_context 0 ⟨1, 1, 1, 1, 1, 1⟩ .BANDWIDTH_EVENT_TIMING true ∧
      w'.queries = World.initial.queries + query_count .BANDWIDTH_EVENT_TIMING 3 ∧
      w'.stops = World.initial.stops + stop_count .BANDWIDTH_EVENT_TIMING 3 ∧
      query_count .BANDWIDTH_EVENT_TIMING 3 + stop_count .BANDWIDTH_EVENT_TIMING 3 =
        (if TimingMeasurement.BANDWIDTH_EVENT_TIMING = .BANDWIDTH then 1 else 3) ∧
      (∀ warmup', ∃ w'', run_kernel sample_driver warmup' 3 sample_context 0
        ⟨1, 1, 1, 1, 1, 1⟩ .BANDWIDTH_EVENT_TIMING true World.initial = .ok (mean, w'')) ∧
      ((∀ t, 0 ≤ sample_driver.stopAndTime t) → 0 ≤ mean) :=
  ⟨⟨by decide, fun _ => rfl, fun _ => by decide⟩,
    run_kernel_mean_of_measured sample_driver 2 3 sample_context 0 ⟨1, 1, 1, 1, 1, 1⟩
      .BANDWIDTH_EVENT_TIMING true 15 World.initial (by decide) (fun _ => rfl)
      (fun _ => by decide)⟩

/-! ## Workgroup solver: determinism and the reference plan -/

/-- The plan and the count of a call depend on the context through the four limits
only, and not on `verbose`. -/
theorem set_workgroups_printing_result (verbose : Bool) (context : SolverContext) (R : Nat) :
    plan_and_count (set_workgroups_printing verbose context R) =
      set_workgroups context.device_compute_property R := by
  unfold plan_and_count set_workgroups_printing set_workgroups
  simp only []
  cases u64_div R (u64_mul (u64_mul (min R context.device_compute_property.maxGroupSizeX) 1) 1)
    with
  | none => rfl
  | some a =>
    simp only [Option.some_bind]
    cases u64_div (u64_sub R (u64_mul (min a context.device_compute_property.maxGroupCountX)
        (u64_mul (u64_mul (min R context.device_compute_property.maxGroupSizeX) 1) 1)))
      (u64_mul (min a context.device_compute_property.maxGroupCountX)
        (u64_mul (u64_mul (min R context.device_compute_property.maxGroupSizeX) 1) 1)) with
    | none => rfl
    | some b =>
      simp only [Option.some_bind]
      cases u64_div (u64_sub R (u64_mul (u64_mul
          (min a context.device_compute_property.maxGroupCountX)
          (max (min b context.device_compute_property.maxGroupCountY) 1))
          (u64_mul (u64_mul (min R context.device_compute_property.maxGroupSizeX) 1) 1)))
        (u64_mul (u64_mul (min a context.device_compute_property.maxGroupCountX)
          (max (min b context.device_compute_property.maxGroupCountY) 1))
          (u64_mul (u64_mul (min R context.device_compute_property.maxGroupSizeX) 1) 1)) with
      | none => rfl
      | some c => rfl

/-- C15: `set_workgroups` is deterministic: two calls with the same
`total_work_items_requested` and the same `maxGroupSizeX`, `maxGroupCountX`,
`maxGroupCountY`, `maxGroupCountZ` store the same plan and return the same count (or
both meet a zero divisor), whatever `verbose` and every other field of the two contexts
are. -/
theorem set_workgroups_deterministic (verbose verbose' : Bool)
    (context context' : SolverContext) (R : Nat)
    (hsx : context.device_compute_property.maxGroupSizeX =
      context'.device_compute_property.maxGroupSizeX)
    (hcx : context.device_compute_property.maxGroupCountX =
      context'.device_compute_property.maxGroupCountX)
    (hcy : context.device_compute_property.maxGroupCountY =
      context'.device_compute_property.maxGroupCountY)
    (hcz : context.device_compute_property.maxGroupCountZ =
      context'.device_compute_property.maxGroupCountZ) :
    plan_and_count (set_workgroups_printing verbose context R) =
      plan_and_count (set_workgroups_printing verbose' context' R) := by
  have hp : context.device_compute_property = context'.device_compute_property := by
    cases hc : context.device_compute_property
    cases hc' : context'.device_compute_property
    rw [hc, hc'] at hsx hcx hcy hcz
    simp only at hsx hcx hcy hcz
    rw [hsx, hcx, hcy, hcz]
  rw [set_workgroups_printing_result, set_workgroups_printing_result, hp]

/-- Witness of C15: a verbose call and a silent call whose contexts share the limits
256, 3, 5, 7 and differ in every other field. -/
theorem set_workgroups_deterministic_witness :
    ((256 : Nat) = 256 ∧ (3 : Nat) = 3 ∧ (5 : Nat) = 5 ∧ (7 : Nat) = 7) ∧
    plan_and_count (set_workgroups_printing true ⟨⟨256, 3, 5, 7⟩, [1, 2, 3]⟩ 1000) =
      plan_and_count (set_workgroups_printing false ⟨⟨256, 3, 5, 7⟩, []⟩ 1000) :=
  ⟨⟨rfl, rfl, rfl, rfl⟩,
    set_workgroups_deterministic true false ⟨⟨256, 3, 5, 7⟩, [1, 2, 3]⟩ ⟨⟨256, 3, 5, 7⟩, []⟩
      1000 rfl rfl rfl rfl⟩

theorem reference_plan_eq_greedy (prop : DeviceComputeProperties) (R : Nat) :
    reference_plan prop R = greedy_plan prop R := rfl

/-- C16: for every `R ≥ 1` and limits `≥ 1`, the plan stored by `set_workgroups` is the
greedy reference plan: `group_size_x = min(R, maxGroupSizeX)`,
`group_size_y = group_size_z = 1`, `group_count_x = min(R div gs, maxGroupCountX)`,
`group_count_y = clamp((R - group_count_x*gs) div (group_count_x*gs), 1, maxGroupCountY)`
and `group_count_z` likewise after the Y axis, with `clamp(v, 1, M) = max(min(v, M), 1)`
and integer division. -/
theorem set_workgroups_eq_reference (prop : DeviceComputeProperties) (R : Nat)
    (hR : 1 ≤ R) (hR64 : R < 2 ^ 64) (hp : prop.Positive) (hr : prop.InRange) :
    (∃ n, set_workgroups prop R = some (reference_plan prop R, n)) ∧
    (reference_plan prop R).group_size_x = min R prop.maxGroupSizeX ∧
    (reference_plan prop R).group_size_y = 1 ∧
    (reference_plan prop R).group_size_z = 1 ∧
    (reference_plan prop R).groupCountX =
      min (R / (reference_plan prop R).group_size_x) prop.maxGroupCountX ∧
    (reference_plan prop R).groupCountY =
      clamp ((R - (reference_plan prop R).groupCountX * (reference_plan prop R).group_size_x) /
        ((reference_plan prop R).groupCountX * (reference_plan prop R).group_size_x)) 1
        prop.maxGroupCountY ∧
    (reference_plan prop R).groupCountZ =
      clamp ((R - (reference_plan prop R).groupCountX * (reference_plan prop R).groupCountY *
          (reference_plan prop R).group_size_x) /
        ((reference_plan prop R).groupCountX * (reference_plan prop R).groupCountY *
          (reference_plan prop R).group_size_x)) 1 prop.maxGroupCountZ ∧
    (∀ v M : Nat, clamp v 1 M = max (min v M) 1) :=
  ⟨⟨greedy_work_items prop R, by
      rw [reference_plan_eq_greedy]
      exact set_workgroups_eq_greedy prop R hR hR64 hp hr⟩,
    rfl, rfl, rfl, rfl, rfl, rfl, fun _ _ => rfl⟩

/-- Witness of C16 at the request 1000 with limits 16, 4, 3, 9. -/
theorem set_workgroups_eq_reference_witness :
    (1 ≤ 1000 ∧ 1000 < 2 ^ 64 ∧ DeviceComputeProperties.Positive ⟨16, 4, 3, 9⟩ ∧
      DeviceComputeProperties.InRange ⟨16, 4, 3, 9⟩) ∧
    (∃ n, set_workgroups ⟨16, 4, 3, 9⟩ 1000 = some (reference_plan ⟨16, 4, 3, 9⟩ 1000, n)) ∧
    reference_plan ⟨16, 4, 3, 9⟩ 1000 = ⟨16, 1, 1, 4, 3, 4⟩ :=
  ⟨by decide,
    (set_workgroups_eq_reference ⟨16, 4, 3, 9⟩ 1000 (by decide) (by decide) (by decide)
      (by decide)).1,
    by decide⟩

/-! ## Workgroup solver: under-fill, exactness and saturation -/

/-- A clamped quotient of the remainder fills the request exactly only when the
divisor already is the request. -/
theorem clamp_mul_eq_iff {R d : Nat} (M : Nat) (hd : 1 ≤ d) (hdR : d ≤ R) :
    max (min ((R - d) / d) M) 1 * d = R ↔ d = R := by
  constructor
  · intro h
    rcases Nat.le_total (min ((R - d) / d) M) 1 with h1 | h1
    · rw [max_eq_right h1, Nat.one_mul] at h
      exact h
    · rw [max_eq_left h1] at h
      have h2 : min ((R - d) / d) M * d ≤ R - d :=
        le_trans (Nat.mul_le_mul_right _ (min_le_left _ _)) (Nat.div_mul_le_self _ _)
      omega
  · intro h
    subst h
    simp

/-- A clamped quotient above one leaves room for three divisors in the request. -/
theorem three_mul_le_of_clamp {R d M : Nat} (hd : 1 ≤ d)
    (h : 1 < max (min ((R - d) / d) M) 1) : 3 * d ≤ R := by
  have h1 : 2 ≤ (R - d) / d := by
    rcases Nat.le_total (min ((R - d) / d) M) 1 with h1 | h1
    · rw [max_eq_right h1] at h
      omega
    · rw [max_eq_left h1] at h
      exact le_trans h (min_le_left _ _)
  have h2 := (Nat.le_div_iff_mul_le hd).1 h1
  omega

/-- The quotient times the divisor misses the dividend by less than one divisor. -/
theorem lt_div_mul_add_self (R : Nat) {d : Nat} (hd : 1 ≤ d) : R < R / d * d + d := by
  have h1 := Nat.div_add_mod R d
  have h2 := Nat.mod_lt R hd
  have h3 : d * (R / d) = R / d * d := Nat.mul_comm _ _
  omega

section Greedy

variable {prop : DeviceComputeProperties} {R : Nat}

/-- The greedy plan is exact as soon as, and only if, the X axis alone is exact. -/
theorem greedy_work_items_eq_iff (hR : 1 ≤ R) (hp : prop.Positive) :
    greedy_work_items prop R = R ↔
      greedy_count_x prop R * greedy_group_size prop R = R := by
  have ez : greedy_work_items prop R = greedy_count_z prop R *
      (greedy_count_x prop R * greedy_count_y prop R * greedy_group_size prop R) := by
    unfold greedy_work_items
    ring
  have ey : greedy_count_x prop R * greedy_count_y prop R * greedy_group_size prop R =
      greedy_count_y prop R * (greedy_count_x prop R * greedy_group_size prop R) := by ring
  rw [ez]
  have hz := clamp_mul_eq_iff prop.maxGroupCountZ (greedy_xy_pos hR hp)
    (@greedy_xy_le_request prop R)
  have hy := clamp_mul_eq_iff prop.maxGroupCountY (greedy_x_pos hR hp)
    (@greedy_x_le_request prop R)
  have hz' : greedy_count_z prop R *
      (greedy_count_x prop R * greedy_count_y prop R * greedy_group_size prop R) = R ↔
      greedy_count_x prop R * greedy_count_y prop R * greedy_group_size prop R = R := hz
  have hy' : greedy_count_y prop R * (greedy_count_x prop R * greedy_group_size prop R) = R ↔
      greedy_count_x prop R * greedy_group_size prop R = R := hy
  rw [hz', ey, hy']

/-- The X axis alone is exact in exactly two cases: the request fits one group, or the
group size divides the request and the quotient fits the X limit. -/
theorem greedy_x_eq_iff (hR : 1 ≤ R) (hp : prop.Positive) :
    greedy_count_x prop R * greedy_group_size prop R = R ↔
      (R ≤ prop.maxGroupSizeX ∨
        (prop.maxGroupSizeX ∣ R ∧ R / prop.maxGroupSizeX ≤ prop.maxGroupCountX)) := by
  have hs : 1 ≤ prop.maxGroupSizeX := hp.1
  have hc : 1 ≤ prop.maxGroupCountX := hp.2.1
  unfold greedy_count_x greedy_group_size
  rcases Nat.le_total R prop.maxGroupSizeX with h | h
  · rw [min_eq_left h, Nat.div_self hR, min_eq_left hc, Nat.one_mul]
    exact ⟨fun _ => Or.inl h, fun _ => rfl⟩
  · rw [min_eq_right h]
    constructor
    · intro e
      have hdvd : prop.maxGroupSizeX ∣ R := ⟨min (R / prop.maxGroupSizeX) prop.maxGroupCountX, by
        rw [Nat.mul_comm]
        exact e.symm⟩
      refine Or.inr ⟨hdvd, ?_⟩
      have e2 : R / prop.maxGroupSizeX = min (R / prop.maxGroupSizeX) prop.maxGroupCountX :=
        Nat.div_eq_of_eq_mul_left hs e.symm
      rw [e2]
      exact min_le_right _ _
    · rintro (h1 | ⟨hdvd, hle⟩)
      · have e : R = prop.maxGroupSizeX := Nat.le_antisymm h1 h
        rw [← e, Nat.div_self hR, min_eq_left hc, Nat.one_mul]
      · rw [min_eq_left hle]
        exact Nat.div_mul_cancel hdvd

/-- A Y count above one means the X count is at its limit. -/
theorem greedy_count_x_saturated (hR : 1 ≤ R) (hp : prop.Positive)
    (h : 3 * (greedy_count_x prop R * greedy_group_size prop R) ≤ R) :
    greedy_count_x prop R = prop.maxGroupCountX := by
  by_contra hne
  have hgs := @greedy_group_size_pos prop R hR hp
  have hcx := @greedy_count_x_pos prop R hR hp
  have hx : greedy_count_x prop R = R / greedy_group_size prop R := by
    unfold greedy_count_x at hne ⊢
    rcases Nat.le_total (R / greedy_group_size prop R) prop.maxGroupCountX with h1 | h1
    · exact min_eq_left h1
    · exact absurd (min_eq_right h1) hne
  have h1 := lt_div_mul_add_self R hgs
  rw [← hx] at h1
  have h2 : greedy_group_size prop R ≤ greedy_count_x prop R * greedy_group_size prop R :=
    Nat.le_mul_of_pos_left _ hcx
  omega

/-- A Z count above one means the Y count is at its limit. -/
theorem greedy_count_y_saturated (hR : 1 ≤ R) (hp : prop.Positive)
    (h : 3 * (greedy_count_x prop R * greedy_count_y prop R * greedy_group_size prop R) ≤ R) :
    greedy_count_y prop R = prop.maxGroupCountY := by
  by_contra hne
  have hxpos := @greedy_x_pos prop R hR hp
  have hcy := @greedy_count_y_pos prop R
  have e : greedy_count_x prop R * greedy_count_y prop R * greedy_group_size prop R =
      greedy_count_y prop R * (greedy_count_x prop R * greedy_group_size prop R) := by ring
  rw [e] at h
  have hxle : greedy_count_x prop R * greedy_group_size prop R ≤
      greedy_count_y prop R * (greedy_count_x prop R * greedy_group_size prop R) :=
    Nat.le_mul_of_pos_left _ hcy
  have h1 := lt_div_mul_add_self (R - greedy_count_x prop R * greedy_group_size prop R) hxpos
  have hmy : 1 ≤ prop.maxGroupCountY := hp.2.2.1
  unfold greedy_count_y at hne h hxle
  generalize greedy_count_x prop R * greedy_group_size prop R = x at *
  generalize hq : (R - x) / x = q at *
  rcases Nat.lt_or_ge prop.maxGroupCountY q with h2 | h2
  · apply hne
    rw [min_eq_right (Nat.le_of_lt h2), max_eq_left hmy]
  · rw [min_eq_left h2] at h hne hxle
    rcases Nat.lt_or_ge q 1 with h3 | h3
    · have hq0 : q = 0 := by omega
      subst hq0
      simp at h h1
      omega
    · rw [max_eq_left h3] at h hxle
      omega

end Greedy

/-- C17: `set_workgroups` never over-shoots: for every `R ≥ 1` and limits `≥ 1` the
returned executed work-item count is at least 1 and at most
`total_work_items_requested`, so every index below the executed count lies inside a
buffer sized for the requested count. -/
theorem set_workgroups_never_overshoots (prop : DeviceComputeProperties) (R : Nat)
    (hR : 1 ≤ R) (hR64 : R < 2 ^ 64) (hp : prop.Positive) (hr : prop.InRange) :
    ∃ plan n, set_workgroups prop R = some (plan, n) ∧ 1 ≤ n ∧ n ≤ R ∧
      ∀ gid, gid < n → gid < R :=
  ⟨greedy_plan prop R, greedy_work_items prop R,
    set_workgroups_eq_greedy prop R hR hR64 hp hr,
    greedy_work_items_pos hR hp, greedy_work_items_le_request,
    fun _ h => Nat.lt_of_lt_of_le h greedy_work_items_le_request⟩

/-- Witness of C17 at the request 1000 with limits 16, 4, 3, 9, which executes 768. -/
theorem set_workgroups_never_overshoots_witness :
    (1 ≤ 1000 ∧ 1000 < 2 ^ 64 ∧ DeviceComputeProperties.Positive ⟨16, 4, 3, 9⟩ ∧
      DeviceComputeProperties.InRange ⟨16, 4, 3, 9⟩) ∧
    (∃ plan n, set_workgroups ⟨16, 4, 3, 9⟩ 1000 = some (plan, n) ∧ 1 ≤ n ∧ n ≤ 1000 ∧
      ∀ gid, gid < n → gid < 1000) ∧
    (set_workgroups ⟨16, 4, 3, 9⟩ 1000).map Prod.snd = some 768 :=
  ⟨by decide,
    set_workgroups_never_overshoots ⟨16, 4, 3, 9⟩ 1000 (by decide) (by decide) (by decide)
      (by decide),
    by decide⟩

/-- C18: `set_workgroups` can under-fill although the hardware could hold the whole
request: with `maxGroupSizeX = 4`, `maxGroupCountX = 2`, `maxGroupCountY = 2`,
`maxGroupCountZ = 1` and `R = 16`, where `R ≤ 4 * 2 * 2 * 1`, the returned executed
count is 8, strictly less than `R`. -/
theorem set_workgroups_can_underfill :
    ∃ (prop : DeviceComputeProperties) (R : Nat) (plan : ZeWorkGroups) (n : Nat),
      prop = ⟨4, 2, 2, 1⟩ ∧ R = 16 ∧ 1 ≤ R ∧ prop.Positive ∧
      R ≤ prop.maxGroupSizeX * prop.maxGroupCountX * prop.maxGroupCountY *
        prop.maxGroupCountZ ∧
      set_workgroups prop R = some (plan, n) ∧ n = 8 ∧ n < R :=
  ⟨⟨4, 2, 2, 1⟩, 16, ⟨4, 1, 1, 2, 1, 1⟩, 8, rfl, rfl, by decide, by decide, by decide,
    by decide, rfl, by decide⟩

/-- C19: exactness of `set_workgroups`: for every `R ≥ 1` and limits `≥ 1`, the returned
executed count equals `total_work_items_requested` if and only if `R ≤ maxGroupSizeX`,
or `maxGroupSizeX` divides `R` and `R / maxGroupSizeX ≤ maxGroupCountX`; and whenever
`R > maxGroupSizeX * maxGroupCountX` the count is strictly less than `R`, whatever
`maxGroupCountY` and `maxGroupCountZ` are. -/
theorem set_workgroups_exact_iff (prop : DeviceComputeProperties) (R : Nat)
    (hR : 1 ≤ R) (hR64 : R < 2 ^ 64) (hp : prop.Positive) (hr : prop.InRange) :
    ∃ plan n, set_workgroups prop R = some (plan, n) ∧
      (n = R ↔ (R ≤ prop.maxGroupSizeX ∨
        (prop.maxGroupSizeX ∣ R ∧ R / prop.maxGroupSizeX ≤ prop.maxGroupCountX))) ∧
      (prop.maxGroupSizeX * prop.maxGroupCountX < R → n < R) := by
  have hiff := (@greedy_work_items_eq_iff prop R hR hp).trans (@greedy_x_eq_iff prop R hR hp)
  refine ⟨greedy_plan prop R, greedy_work_items prop R,
    set_workgroups_eq_greedy prop R hR hR64 hp hr, hiff, ?_⟩
  intro hlt
  refine Nat.lt_of_le_of_ne greedy_work_items_le_request ?_
  intro he
  have hs : 1 ≤ prop.maxGroupSizeX := hp.1
  have hc : 1 ≤ prop.maxGroupCountX := hp.2.1
  rcases hiff.1 he with h | ⟨hdvd, hle⟩
  · have : prop.maxGroupSizeX ≤ prop.maxGroupSizeX * prop.maxGroupCountX :=
      Nat.le_mul_of_pos_right _ hc
    omega
  · have h1 : R = prop.maxGroupSizeX * (R / prop.maxGroupSizeX) :=
      (Nat.mul_div_cancel' hdvd).symm
    have h2 : prop.maxGroupSizeX * (R / prop.maxGroupSizeX) ≤
        prop.maxGroupSizeX * prop.maxGroupCountX := Nat.mul_le_mul_left _ hle
    omega

/-- Witness of C19: the request 12 with limits 4, 3, 5, 7 is exact (4 divides 12 and
the quotient 3 fits), and the request 1000 with limits 16, 4, 3, 9 is not. -/
theorem set_workgroups_exact_iff_witness :
    ((1 ≤ 12 ∧ 12 < 2 ^ 64 ∧ DeviceComputeProperties.Positive ⟨4, 3, 5, 7⟩ ∧
      DeviceComputeProperties.InRange ⟨4, 3, 5, 7⟩) ∧
    (∃ plan n, set_workgroups ⟨4, 3, 5, 7⟩ 12 = some (plan, n) ∧
      (n = 12 ↔ (12 ≤ 4 ∨ (4 ∣ 12 ∧ 12 / 4 ≤ 3))) ∧ (4 * 3 < 12 → n < 12)) ∧
    (set_workgroups ⟨4, 3, 5, 7⟩ 12).map Prod.snd = some 12) ∧
    ((1 ≤ 1000 ∧ 1000 < 2 ^ 64 ∧ DeviceComputeProperties.Positive ⟨16, 4, 3, 9⟩ ∧
      DeviceComputeProperties.InRange ⟨16, 4, 3, 9⟩) ∧
    (∃ plan n, set_workgroups ⟨16, 4, 3, 9⟩ 1000 = some (plan, n) ∧
      (n = 1000 ↔ (1000 ≤ 16 ∨ (16 ∣ 1000 ∧ 1000 / 16 ≤ 4))) ∧ (16 * 4 < 1000 → n < 1000)) ∧
    (set_workgroups ⟨16, 4, 3, 9⟩ 1000).map Prod.snd = some 768) :=
  ⟨⟨by decide,
      set_workgroups_exact_iff ⟨4, 3, 5, 7⟩ 12 (by decide) (by decide) (by decide) (by decide),
      by decide⟩,
    ⟨by decide,
      set_workgroups_exact_iff ⟨16, 4, 3, 9⟩ 1000 (by decide) (by decide) (by decide)
        (by decide),
      by decide⟩⟩

/-- C20: greedy saturation order of `set_workgroups`: for every `R ≥ 1` and limits `≥ 1`,
if the stored plan has `group_count_y > 1` then `group_count_x = maxGroupCountX`, and if
it has `group_count_z > 1` then `group_count_y = maxGroupCountY` and
`group_count_x = maxGroupCountX`. -/
theorem set_workgroups_saturation_order (prop : DeviceComputeProperties) (R : Nat)
    (hR : 1 ≤ R) (hR64 : R < 2 ^ 64) (hp : prop.Positive) (hr : prop.InRange) :
    ∃ plan n, set_workgroups prop R = some (plan, n) ∧
      (1 < plan.groupCountY → plan.groupCountX = prop.maxGroupCountX) ∧
      (1 < plan.groupCountZ →
        plan.groupCountY = prop.maxGroupCountY ∧ plan.groupCountX = prop.maxGroupCountX) := by
  refine ⟨greedy_plan prop R, greedy_work_items prop R,
    set_workgroups_eq_greedy prop R hR hR64 hp hr, ?_, ?_⟩
  · intro h
    exact greedy_count_x_saturated hR hp (three_mul_le_of_clamp (greedy_x_pos hR hp) h)
  · intro h
    have h3 := three_mul_le_of_clamp (greedy_xy_pos hR hp) h
    refine ⟨greedy_count_y_saturated hR hp h3, greedy_count_x_saturated hR hp ?_⟩
    have hcy := @greedy_count_y_pos prop R
    have e : greedy_count_x prop R * greedy_count_y prop R * greedy_group_size prop R =
        greedy_count_y prop R * (greedy_count_x prop R * greedy_group_size prop R) := by ring
    have hle : greedy_count_x prop R * greedy_group_size prop R ≤
        greedy_count_y prop R * (greedy_count_x prop R * greedy_group_size prop R) :=
      Nat.le_mul_of_pos_left _ hcy
    omega

/-- Witness of C20 at the request 1000 with limits 16, 4, 3, 9: the plan uses the Z
axis (4 groups) with X and Y at their limits 4 and 3. -/
theorem set_workgroups_saturation_order_witness :
    (1 ≤ 1000 ∧ 1000 < 2 ^ 64 ∧ DeviceComputeProperties.Positive ⟨16, 4, 3, 9⟩ ∧
      DeviceComputeProperties.InRange ⟨16, 4, 3, 9⟩) ∧
    (∃ plan n, set_workgroups ⟨16, 4, 3, 9⟩ 1000 = some (plan, n) ∧
      (1 < plan.groupCountY → plan.groupCountX = 4) ∧
      (1 < plan.groupCountZ → plan.groupCountY = 3 ∧ plan.groupCountX = 4)) ∧
    (set_workgroups ⟨16, 4, 3, 9⟩ 1000).map Prod.fst = some ⟨16, 1, 1, 4, 3, 4⟩ :=
  ⟨by decide,
    set_workgroups_saturation_order ⟨16, 4, 3, 9⟩ 1000 (by decide) (by decide) (by decide)
      (by decide),
    by decide⟩

/-! ## Timing engine: the results of the destroy calls -/

theorem timestamp_max_value_four : timestamp_max_value 4 = some 15 := by decide

theorem context_time_ns_sample :
    context_time_ns { kernelStart := 10, kernelEnd := 5 } 1000 15 / 1000 = 11 := by
  norm_num [context_time_ns, u64_add, u64_sub]

/-- A failure of `zeEventDestroy` or of `zeEventPoolDestroy` leaves the run as it is when
every call succeeds. -/
theorem run_kernel_failing_destroy (type : TimingMeasurement) (k : Nat)
    (ht : type ≠ .BANDWIDTH) (hk : k = 14 ∨ k = 15) :
    run_kernel (failing_driver k) 1 1 sample_context 0 ⟨1, 1, 1, 1, 1, 1⟩ type true
        World.initial =
      run_kernel sample_driver 1 1 sample_context 0 ⟨1, 1, 1, 1, 1, 1⟩ type true
        World.initial := by
  cases type with
  | BANDWIDTH => exact absurd rfl ht
  | BANDWIDTH_EVENT_TIMING =>
    rcases hk with rfl | rfl <;>
    simp [run_kernel, run_kernel_event_timing, single_event_pool_create, single_event_create,
      append_launch_kernel, close_command_list, event_timing_warmup_body,
      event_timing_measured_body, execute_command_lists, event_host_synchronize,
      queue_synchronize, event_host_reset, context_time_in_us, reset_commandlist,
      bind_run, pure_run, issue, issue_create, issue_query, check, for_loop, failing_driver,
      sample_driver, sample_context, World.initial, ZE_RESULT_ERROR_DEVICE_LOST, fail,
      timestamp_max_value_four, context_time_ns_sample]
  | KERNEL_LAUNCH_LATENCY =>
    rcases hk with rfl | rfl <;>
    simp [run_kernel, run_kernel_launch_latency, single_event_pool_create, single_event_create,
      append_launch_kernel, close_command_list, launch_latency_warmup_body,
      launch_latency_measured_body, execute_command_lists, event_host_synchronize,
      queue_synchronize, event_host_reset, run_command_queue, synchronize_command_queue,
      reset_commandlist, timer_start, timer_stopAndTime,
      bind_run, pure_run, issue, issue_create, issue_query, check, for_loop, failing_driver,
      sample_driver, sample_context, World.initial, ZE_RESULT_ERROR_DEVICE_LOST, fail]
  | KERNEL_COMPLETE_RUNTIME =>
    rcases hk with rfl | rfl <;>
    simp [run_kernel, run_kernel_complete_runtime, single_event_pool_create,
      single_event_create, append_launch_kernel, close_command_list,
      complete_runtime_warmup_body, complete_runtime_measured_body, event_host_synchronize,
      event_host_reset, run_command_queue, synchronize_command_queue, context_time_in_us,
      reset_commandlist,
      bind_run, pure_run, issue, issue_create, issue_query, check, for_loop, failing_driver,
      sample_driver, sample_context, World.initial, ZE_RESULT_ERROR_DEVICE_LOST, fail,
      timestamp_max_value_four, context_time_ns_sample]

/-- The run when every call succeeds, in the mode `BANDWIDTH_EVENT_TIMING`. -/
theorem run_kernel_sample_event_timing :
    outcome (run_kernel sample_driver 1 1 sample_context 0 ⟨1, 1, 1, 1, 1, 1⟩
      .BANDWIDTH_EVENT_TIMING true World.initial) = .ok 11 := by
  simp [outcome, Except.map, run_kernel, run_kernel_event_timing, single_event_pool_create,
      single_event_create,
      append_launch_kernel, close_command_list, event_timing_warmup_body,
      event_timing_measured_body, execute_command_lists, event_host_synchronize,
      queue_synchronize, event_host_reset, context_time_in_us, reset_commandlist,
      bind_run, pure_run, issue, issue_create, issue_query, check, for_loop, failing_driver,
      sample_driver, sample_context, World.initial, ZE_RESULT_ERROR_DEVICE_LOST, fail,
      timestamp_max_value_four, context_time_ns_sample]

/-- A failure of the event reset before the destroy calls, or of the command-list reset
after them, stops the run. -/
theorem run_kernel_failing_reset (type : TimingMeasurement) (ht : type ≠ .BANDWIDTH) :
    outcome (run_kernel (failing_driver 13) 1 1 sample_context 0 ⟨1, 1, 1, 1, 1, 1⟩ type true
        World.initial) = .error (.runtime_error "zeEventHostReset failed: 1879048193") ∧
    outcome (run_kernel (failing_driver 16) 1 1 sample_context 0 ⟨1, 1, 1, 1, 1, 1⟩ type true
        World.initial) = .error (.runtime_error "zeCommandListReset failed: 1879048193") := by
  cases type with
  | BANDWIDTH => exact absurd rfl ht
  | BANDWIDTH_EVENT_TIMING =>
    constructor <;>
    simp [outcome, Except.map, run_kernel, run_kernel_event_timing, single_event_pool_create,
      single_event_create,
      append_launch_kernel, close_command_list, event_timing_warmup_body,
      event_timing_measured_body, execute_command_lists, event_host_synchronize,
      queue_synchronize, event_host_reset, context_time_in_us, reset_commandlist,
      bind_run, pure_run, issue, issue_create, issue_query, check, for_loop, failing_driver,
      sample_driver, sample_context, World.initial, ZE_RESULT_ERROR_DEVICE_LOST, fail,
      timestamp_max_value_four, context_time_ns_sample] <;> rfl
  | KERNEL_LAUNCH_LATENCY =>
    constructor <;>
    simp [outcome, Except.map, run_kernel, run_kernel_launch_latency, single_event_pool_create,
      single_event_create,
      append_launch_kernel, close_command_list, launch_latency_warmup_body,
      launch_latency_measured_body, execute_command_lists, event_host_synchronize,
      queue_synchronize, event_host_reset, run_command_queue, synchronize_command_queue,
      reset_commandlist, timer_start, timer_stopAndTime,
      bind_run, pure_run, issue, issue_create, issue_query, check, for_loop, failing_driver,
      sample_driver, sample_context, World.initial, ZE_RESULT_ERROR_DEVICE_LOST, fail] <;> rfl
  | KERNEL_COMPLETE_RUNTIME =>
    constructor <;>
    simp [outcome, Except.map, run_kernel, run_kernel_complete_runtime, single_event_pool_create,
      single_event_create, append_launch_kernel, close_command_list,
      complete_runtime_warmup_body, complete_runtime_measured_body, event_host_synchronize,
      event_host_reset, run_command_queue, synchronize_command_queue, context_time_in_us,
      reset_commandlist,
      bind_run, pure_run, issue, issue_create, issue_query, check, for_loop, failing_driver,
      sample_driver, sample_context, World.initial, ZE_RESULT_ERROR_DEVICE_LOST, fail,
      timestamp_max_value_four, context_time_ns_sample] <;> rfl

/-- C11: a driver call of `run_kernel` whose result is not checked.  In each of the three
event modes, with one warm-up and one measured iteration, the driver call of index 14 is
`zeEventDestroy` and the one of index 15 is `zeEventPoolDestroy`.  When either returns
`ZE_RESULT_ERROR_DEVICE_LOST` the run does not fail: it makes all 17 driver calls of the
run in which every call succeeds, the pool destroy and the command-list reset after the
failed call included, and returns a duration.  The same result code returned by the call
just before them, `zeEventHostReset` of index 13, or by the command-list reset of index
16, makes the run fail with that operation's name and the result code. -/
theorem run_kernel_ignores_destroy_result :
    (failing_driver 14).result 14 ≠ 0 ∧ (failing_driver 15).result 15 ≠ 0 ∧
    (∀ type, type ≠ TimingMeasurement.BANDWIDTH → ∀ k, k = 14 ∨ k = 15 →
      ∃ mean w', run_kernel (failing_driver k) 1 1 sample_context 0 ⟨1, 1, 1, 1, 1, 1⟩ type
          true World.initial = .ok (mean, w') ∧
        w'.calls = 17 ∧
        w'.trace = run_kernel_steps sample_driver World.initial 1 1 sample_context 0
          ⟨1, 1, 1, 1, 1, 1⟩ type true ∧
        (w'.trace.filter Step.is_driver_call).drop 14 =
          [.call (.zeEventDestroy 2), .call (.zeEventPoolDestroy 1),
            .call (.zeCommandListReset sample_context.command_list)]) ∧
    outcome (run_kernel (failing_driver 14) 1 1 sample_context 0 ⟨1, 1, 1, 1, 1, 1⟩
      .BANDWIDTH_EVENT_TIMING true World.initial) = .ok 11 ∧
    (∀ type, type ≠ TimingMeasurement.BANDWIDTH →
      outcome (run_kernel (failing_driver 13) 1 1 sample_context 0 ⟨1, 1, 1, 1, 1, 1⟩
        type true World.initial) =
        .error (.runtime_error "zeEventHostReset failed: 1879048193") ∧
      outcome (run_kernel (failing_driver 16) 1 1 sample_context 0 ⟨1, 1, 1, 1, 1, 1⟩
        type true World.initial) =
        .error (.runtime_error "zeCommandListReset failed: 1879048193")) := by
  refine ⟨by decide, by decide, ?_, ?_, run_kernel_failing_reset⟩
  · intro type ht k hk
    rw [run_kernel_failing_destroy type k ht hk,
      @run_kernel_ok sample_driver (fun _ => rfl) 1 1 sample_context 0 ⟨1, 1, 1, 1, 1, 1⟩ type
        true 15 (fun _ => by decide) World.initial]
    refine ⟨_, _, rfl, ?_, ?_, ?_⟩
    · cases type with
      | BANDWIDTH => exact absurd rfl ht
      | BANDWIDTH_EVENT_TIMING => rfl
      | KERNEL_LAUNCH_LATENCY => rfl
      | KERNEL_COMPLETE_RUNTIME => rfl
    · simp only [World.extend, World.initial, List.nil_append]
    · cases type with
      | BANDWIDTH => exact absurd rfl ht
      | BANDWIDTH_EVENT_TIMING => rfl
      | KERNEL_LAUNCH_LATENCY => rfl
      | KERNEL_COMPLETE_RUNTIME => rfl
  · rw [run_kernel_failing_destroy _ 14 (by decide) (Or.inl rfl)]
    exact run_kernel_sample_event_timing

/-! ## Timing engine: steps of a run that returns -/

theorem bind_ok_inversion {α β : Type} {m : M α} {f : α → M β} {w w' : World} {b : β}
    (h : (m >>= f) w = .ok (b, w')) : ∃ a w1, m w = .ok (a, w1) ∧ f a w1 = .ok (b, w') := by
  rw [bind_run] at h
  cases hm : m w with
  | error e =>
    rw [hm] at h
    cases h
  | ok p =>
    obtain ⟨a, w1⟩ := p
    rw [hm] at h
    exact ⟨a, w1, rfl, h⟩

theorem check_ok_inv {name : String} {result : Nat} {w w' : World} {u : Unit}
    (h : check name result w = .ok (u, w')) : result = 0 ∧ w' = w := by
  unfold check at h
  by_cases hr : result = 0
  · subst hr
    simp only [ne_eq, not_true_eq_false, if_false] at h
    cases h
    exact ⟨rfl, rfl⟩
  · rw [if_pos hr] at h
    cases h

theorem Adds.cast {α : Type} {m : M α} {s s' : List Step} (h : Adds m s) (e : s = s') :
    Adds m s' := e ▸ h

theorem adds_pure {α : Type} (a : α) : Adds (pure a : M α) [] := by
  intro w x w' h
  cases h
  exact (List.append_nil _).symm

theorem adds_bind {α β : Type} {m : M α} {f : α → M β} {s1 s2 : List Step}
    (h1 : Adds m s1) (h2 : ∀ a, Adds (f a) s2) : Adds (m >>= f) (s1 ++ s2) := by
  intro w b w' h
  obtain ⟨a, w1, hm, hf⟩ := bind_ok_inversion h
  rw [h2 a w1 b w' hf, h1 w a w1 hm, List.append_assoc]

theorem adds_issue (d : Driver) (c : DriverCall) : Adds (issue d c) [Step.call c] := by
  intro w a w' h
  cases h
  rfl

theorem adds_issue_create (d : Driver) (c : DriverCall) :
    Adds (issue_create d c) [Step.call c] := by
  intro w a w' h
  cases h
  rfl

theorem adds_issue_query (d : Driver) (event : Handle) :
    Adds (issue_query d event) [query_step event] := by
  intro w a w' h
  cases h
  rfl

theorem adds_check (name : String) (result : Nat) : Adds (check name result) [] := by
  intro w a w' h
  rw [(check_ok_inv h).2, List.append_nil]

theorem adds_fail {α : Type} (e : Failure) (steps : List Step) : Adds (fail e : M α) steps := by
  intro w a w' h
  cases h

theorem adds_timer_start : Adds timer_start [Step.timer_start] := by
  intro w a w' h
  cases h
  rfl

theorem adds_timer_stopAndTime (d : Driver) :
    Adds (timer_stopAndTime d) [Step.timer_stopAndTime] := by
  intro w a w' h
  cases h
  rfl

theorem adds_issue_check (d : Driver) (c : DriverCall) (name : String) :
    Adds (issue d c >>= fun result => check name result) [Step.call c] :=
  (adds_bind (adds_issue d c) fun result => adds_check name result).cast rfl

theorem adds_for_loop {σ : Type} {body : σ → M σ} {steps : List Step}
    (hbody : ∀ x, Adds (body x) steps) (n : Nat) (init : σ) :
    Adds (for_loop n body init) (repeated n steps) := by
  induction n generalizing init with
  | zero => exact adds_pure init
  | succ n ih =>
    unfold for_loop
    exact adds_bind (hbody init) fun next => ih next

theorem adds_context_time_in_us (d : Driver) (context : L0Context) (event : Handle) :
    Adds (context_time_in_us d context event) [query_step event] := by
  unfold context_time_in_us
  refine (adds_bind (adds_issue_query d event) ?_).cast (List.append_nil _)
  rintro ⟨result, ts_result⟩
  refine (adds_bind (adds_check _ result) fun _ => ?_).cast (List.append_nil _)
  cases timestamp_max_value context.device_property.kernelTimestampValidBits with
  | none => exact (adds_bind (adds_fail _ []) fun _ => adds_pure _).cast rfl
  | some v => exact (adds_bind (adds_pure v) fun _ => adds_pure _).cast rfl

theorem adds_event_timing_warmup_body (d : Driver) (context : L0Context) (event : Handle) :
    Adds (event_timing_warmup_body d context event)
      [exec_step context, wait_step event, sync_step context, reset_step event] :=
  (adds_bind (adds_issue_check d _ _) fun _ =>
    adds_bind (adds_issue_check d _ _) fun _ =>
    adds_bind (adds_issue_check d _ _) fun _ => adds_issue_check d _ _).cast rfl

theorem adds_event_timing_measured_body (d : Driver) (context : L0Context) (event : Handle)
    (timed : Rat) :
    Adds (event_timing_measured_body d context event timed)
      [exec_step context, wait_step event, query_step event, sync_step context,
        reset_step event] :=
  (adds_bind (adds_issue_check d _ _) fun _ =>
    adds_bind (adds_issue_check d _ _) fun _ =>
    adds_bind (adds_context_time_in_us d context event) fun _ =>
    adds_bind (adds_issue_check d _ _) fun _ =>
    adds_bind (adds_issue_check d _ _) fun _ => adds_pure _).cast rfl

theorem adds_launch_latency_warmup_body (d : Driver) (context : L0Context) (event : Handle) :
    Adds (launch_latency_warmup_body d context event)
      [exec_step context, sync_step context, wait_step event, reset_step event] :=
  (adds_bind (adds_issue_check d _ _) fun _ =>
    adds_bind (adds_issue_check d _ _) fun _ =>
    adds_bind (adds_issue_check d _ _) fun _ => adds_issue_check d _ _).cast rfl

theorem adds_launch_latency_measured_body (d : Driver) (context : L0Context) (event : Handle)
    (timed : Rat) :
    Adds (launch_latency_measured_body d context event timed)
      [Step.timer_start, exec_step context, wait_step event, Step.timer_stopAndTime,
        sync_step context, reset_step event] :=
  (adds_bind adds_timer_start fun _ =>
    adds_bind (adds_issue_check d _ _) fun _ =>
    adds_bind (adds_issue_check d _ _) fun _ =>
    adds_bind (adds_timer_stopAndTime d) fun _ =>
    adds_bind (adds_issue_check d _ _) fun _ =>
    adds_bind (adds_issue_check d _ _) fun _ => adds_pure _).cast rfl

theorem adds_complete_runtime_warmup_body (d : Driver) (context : L0Context)
    (event : Handle) :
    Adds (complete_runtime_warmup_body d context event)
      [exec_step context, wait_step event, reset_step event] :=
  (adds_bind (adds_issue_check d _ _) fun _ =>
    adds_bind (adds_issue_check d _ _) fun _ => adds_issue_check d _ _).cast rfl

theorem adds_complete_runtime_measured_body (d : Driver) (context : L0Context)
    (event : Handle) (timed : Rat) :
    Adds (complete_runtime_measured_body d context event timed)
      [exec_step context, sync_step context, wait_step event, query_step event,
        reset_step event] :=
  (adds_bind (adds_issue_check d _ _) fun _ =>
    adds_bind (adds_issue_check d _ _) fun _ =>
    adds_bind (adds_issue_check d _ _) fun _ =>
    adds_bind (adds_context_time_in_us d context event) fun _ =>
    adds_bind (adds_issue_check d _ _) fun _ => adds_pure _).cast rfl

theorem adds_run_kernel_bandwidth (d : Driver) (warmup_iterations iters : Nat)
    (context : L0Context) (function : Handle) (workgroup_info : ZeWorkGroups) :
    Adds (run_kernel_bandwidth d warmup_iterations iters context function workgroup_info)
      (bandwidth_steps warmup_iterations iters context function workgroup_info) :=
  (adds_bind (adds_issue_check d _ _) fun _ =>
    adds_bind (adds_issue_check d _ _) fun _ =>
    adds_bind
      (adds_for_loop (fun _ => adds_issue_check d _ _) warmup_iterations ()) fun _ =>
    adds_bind (adds_issue_check d _ _) fun _ =>
    adds_bind adds_timer_start fun _ =>
    adds_bind (adds_for_loop (fun _ => adds_issue_check d _ _) iters ()) fun _ =>
    adds_bind (adds_issue_check d _ _) fun _ =>
    adds_bind (adds_timer_stopAndTime d) fun _ => adds_pure _).cast (by
      simp only [bandwidth_steps, launch_step, close_step, exec_step, sync_step,
        List.append_assoc, List.cons_append, List.nil_append, List.append_nil])

/-- A run of `single_event_pool_create` that returns has made one driver call, which
wrote the pool handle. -/
theorem single_event_pool_create_ok_inv {d : Driver} {flags : EventPoolFlags}
    {w w' : World} {pool : Handle}
    (h : single_event_pool_create d flags w = .ok (pool, w')) :
    pool = d.handle w.calls ∧ w'.calls = w.calls + 1 ∧
      w'.trace = w.trace ++ [Step.call (.zeEventPoolCreate flags)] := by
  unfold single_event_pool_create at h
  obtain ⟨⟨result, p⟩, w1, h1, h2⟩ := bind_ok_inversion h
  cases h1
  obtain ⟨u, w2, h3, h4⟩ := bind_ok_inversion h2
  obtain ⟨_, rfl⟩ := check_ok_inv h3
  cases h4
  exact ⟨rfl, rfl, rfl⟩

/-- A run of `single_event_create` that returns has made one driver call, which wrote
the event handle. -/
theorem single_event_create_ok_inv {d : Driver} {event_pool : Handle}
    {w w' : World} {event : Handle}
    (h : single_event_create d event_pool w = .ok (event, w')) :
    event = d.handle w.calls ∧ w'.calls = w.calls + 1 ∧
      w'.trace = w.trace ++ [Step.call (.zeEventCreate event_pool)] := by
  unfold single_event_create at h
  obtain ⟨⟨result, p⟩, w1, h1, h2⟩ := bind_ok_inversion h
  cases h1
  obtain ⟨u, w2, h3, h4⟩ := bind_ok_inversion h2
  obtain ⟨_, rfl⟩ := check_ok_inv h3
  cases h4
  exact ⟨rfl, rfl, rfl⟩

theorem adds_event_timing_rest (d : Driver) (warmup_iterations iters : Nat)
    (context : L0Context) (function : Handle) (workgroup_info : ZeWorkGroups)
    (event_pool function_event : Handle) (timed : Rat) :
    Adds (do
        append_launch_kernel d context function workgroup_info (some function_event)
        close_command_list d context
        for_loop warmup_iterations
          (fun _ => event_timing_warmup_body d context function_event) ()
        let timed ← for_loop iters (event_timing_measured_body d context function_event) timed
        let _ ← issue d (.zeEventDestroy function_event)
        let _ ← issue d (.zeEventPoolDestroy event_pool)
        return timed)
      ([launch_step context function workgroup_info (some function_event),
          close_step context] ++
        repeated warmup_iterations
          [exec_step context, wait_step function_event, sync_step context,
            reset_step function_event] ++
        repeated iters
          [exec_step context, wait_step function_event, query_step function_event,
            sync_step context, reset_step function_event] ++
        [Step.call (.zeEventDestroy function_event),
          Step.call (.zeEventPoolDestroy event_pool)]) :=
  (adds_bind (adds_issue_check d _ _) fun _ =>
    adds_bind (adds_issue_check d _ _) fun _ =>
    adds_bind (adds_for_loop
      (fun _ => adds_event_timing_warmup_body d context function_event)
      warmup_iterations ()) fun _ =>
    adds_bind (adds_for_loop (adds_event_timing_measured_body d context function_event)
      iters timed) fun _ =>
    adds_bind (adds_issue d _) fun _ =>
    adds_bind (adds_issue d _) fun _ => adds_pure _).cast (by
      simp only [launch_step, close_step, List.append_assoc, List.cons_append,
        List.nil_append, List.append_nil])

theorem run_kernel_event_timing_ok_inv {d : Driver} {warmup_iterations iters : Nat}
    {context : L0Context} {function : Handle} {workgroup_info : ZeWorkGroups}
    {timed v : Rat} {w w' : World}
    (h : run_kernel_event_timing d warmup_iterations iters context function workgroup_info
      timed w = .ok (v, w')) :
    w'.trace = w.trace ++ event_timing_steps warmup_iterations iters context function
      workgroup_info (d.handle w.calls) (d.handle (w.calls + 1)) := by
  unfold run_kernel_event_timing at h
  obtain ⟨pool, w1, h1, h2⟩ := bind_ok_inversion h
  obtain ⟨rfl, hc1, ht1⟩ := single_event_pool_create_ok_inv h1
  obtain ⟨event, w2, h3, h4⟩ := bind_ok_inversion h2
  obtain ⟨rfl, hc2, ht2⟩ := single_event_create_ok_inv h3
  rw [adds_event_timing_rest d warmup_iterations iters context function workgroup_info _ _
    timed w2 v w' h4, ht2, ht1, hc1]
  simp only [event_timing_steps, List.append_assoc, List.cons_append, List.nil_append]

theorem adds_launch_latency_rest (d : Driver) (warmup_iterations iters : Nat)
    (context : L0Context) (function : Handle) (workgroup_info : ZeWorkGroups)
    (kernel_launch_event_pool kernel_launch_event : Handle) (timed : Rat) :
    Adds (do
        let result ← issue d
          (.zeCommandListAppendSignalEvent context.command_list kernel_launch_event)
        check "zeCommandListAppendSignalEvent" result
        append_launch_kernel d context function workgroup_info none
        close_command_list d context
        for_loop warmup_iterations
          (fun _ => launch_latency_warmup_body d context kernel_launch_event) ()
        let timed ←
          for_loop iters (launch_latency_measured_body d context kernel_launch_event) timed
        let _ ← issue d (.zeEventDestroy kernel_launch_event)
        let _ ← issue d (.zeEventPoolDestroy kernel_launch_event_pool)
        return timed)
      ([Step.call (.zeCommandListAppendSignalEvent context.command_list kernel_launch_event),
          launch_step context function workgroup_info none, close_step context] ++
        repeated warmup_iterations
          [exec_step context, sync_step context, wait_step kernel_launch_event,
            reset_step kernel_launch_event] ++
        repeated iters
          [Step.timer_start, exec_step context, wait_step kernel_launch_event,
            Step.timer_stopAndTime, sync_step context, reset_step kernel_launch_event] ++
        [Step.call (.zeEventDestroy kernel_launch_event),
          Step.call (.zeEventPoolDestroy kernel_launch_event_pool)]) :=
  (adds_bind (adds_issue d _) fun _ =>
    adds_bind (adds_check _ _) fun _ =>
    adds_bind (adds_issue_check d _ _) fun _ =>
    adds_bind (adds_issue_check d _ _) fun _ =>
    adds_bind (adds_for_loop
      (fun _ => adds_launch_latency_warmup_body d context kernel_launch_event)
      warmup_iterations ()) fun _ =>
    adds_bind (adds_for_loop (adds_launch_latency_measured_body d context kernel_launch_event)
      iters timed) fun _ =>
    adds_bind (adds_issue d _) fun _ =>
    adds_bind (adds_issue d _) fun _ => adds_pure _).cast (by
      simp only [launch_step, close_step, List.append_assoc, List.cons_append,
        List.nil_append, List.append_nil])

theorem run_kernel_launch_latency_ok_inv {d : Driver} {warmup_iterations iters : Nat}
    {context : L0Context} {function : Handle} {workgroup_info : ZeWorkGroups}
    {timed v : Rat} {w w' : World}
    (h : run_kernel_launch_latency d warmup_iterations iters context function workgroup_info
      timed w = .ok (v, w')) :
    w'.trace = w.trace ++ launch_latency_steps warmup_iterations iters context function
      workgroup_info (d.handle w.calls) (d.handle (w.calls + 1)) := by
  unfold run_kernel_launch_latency at h
  obtain ⟨pool, w1, h1, h2⟩ := bind_ok_inversion h
  obtain ⟨rfl, hc1, ht1⟩ := single_event_pool_create_ok_inv h1
  obtain ⟨event, w2, h3, h4⟩ := bind_ok_inversion h2
  obtain ⟨rfl, hc2, ht2⟩ := single_event_create_ok_inv h3
  rw [adds_launch_latency_rest d warmup_iterations iters context function workgroup_info _ _
    timed w2 v w' h4, ht2, ht1, hc1]
  simp only [launch_latency_steps, List.append_assoc, List.cons_append, List.nil_append]

theorem adds_complete_runtime_rest (d : Driver) (warmup_iterations iters : Nat)
    (context : L0Context) (function : Handle) (workgroup_info : ZeWorkGroups)
    (event_pool kernel_duration_event : Handle) (timed : Rat) :
    Adds (do
        append_launch_kernel d context function workgroup_info (some kernel_duration_event)
        close_command_list d context
        for_loop warmup_iterations
          (fun _ => complete_runtime_warmup_body d context kernel_duration_event) ()
        synchronize_command_queue d context
        let timed ←
          for_loop iters (complete_runtime_measured_body d context kernel_duration_event) timed
        let _ ← issue d (.zeEventDestroy kernel_duration_event)
        let _ ← issue d (.zeEventPoolDestroy event_pool)
        return timed)
      ([launch_step context function workgroup_info (some kernel_duration_event),
          close_step context] ++
        repeated warmup_iterations
          [exec_step context, wait_step kernel_duration_event,
            reset_step kernel_duration_event] ++
        [sync_step context] ++
        repeated iters
          [exec_step context, sync_step context, wait_step kernel_duration_event,
            query_step kernel_duration_event, reset_step kernel_duration_event] ++
        [Step.call (.zeEventDestroy kernel_duration_event),
          Step.call (.zeEventPoolDestroy event_pool)]) :=
  (adds_bind (adds_issue_check d _ _) fun _ =>
    adds_bind (adds_issue_check d _ _) fun _ =>
    adds_bind (adds_for_loop
      (fun _ => adds_complete_runtime_warmup_body d context kernel_duration_event)
      warmup_iterations ()) fun _ =>
    adds_bind (adds_issue_check d _ _) fun _ =>
    adds_bind
      (adds_for_loop (adds_complete_runtime_measured_body d context kernel_duration_event)
        iters timed) fun _ =>
    adds_bind (adds_issue d _) fun _ =>
    adds_bind (adds_issue d _) fun _ => adds_pure _).cast (by
      simp only [launch_step, close_step, sync_step, List.append_assoc, List.cons_append,
        List.nil_append, List.append_nil])

theorem run_kernel_complete_runtime_ok_inv {d : Driver} {warmup_iterations iters : Nat}
    {context : L0Context} {function : Handle} {workgroup_info : ZeWorkGroups}
    {timed v : Rat} {w w' : World}
    (h : run_kernel_complete_runtime d warmup_iterations iters context function
      workgroup_info timed w = .ok (v, w')) :
    w'.trace = w.trace ++ complete_runtime_steps warmup_iterations iters context function
      workgroup_info (d.handle w.calls) (d.handle (w.calls + 1)) := by
  unfold run_kernel_complete_runtime at h
  obtain ⟨pool, w1, h1, h2⟩ := bind_ok_inversion h
  obtain ⟨rfl, hc1, ht1⟩ := single_event_pool_create_ok_inv h1
  obtain ⟨event, w2, h3, h4⟩ := bind_ok_inversion h2
  obtain ⟨rfl, hc2, ht2⟩ := single_event_create_ok_inv h3
  rw [adds_complete_runtime_rest d warmup_iterations iters context function workgroup_info
    _ _ timed w2 v w' h4, ht2, ht1, hc1]
  simp only [complete_runtime_steps, List.append_assoc, List.cons_append, List.nil_append]

/-- The end of `run_kernel`: the command-list reset, when asked for, and the mean. -/
theorem adds_final_reset (d : Driver) (context : L0Context) (reset_command_list : Bool)
    (mean : Rat) :
    Adds (if reset_command_list = true then
        reset_commandlist d context.command_list >>= fun _ => pure mean
      else (pure PUnit.unit : M PUnit) >>= fun _ => pure mean)
      (final_reset context reset_command_list) := by
  cases reset_command_list with
  | false => exact (adds_bind (adds_pure _) fun _ => adds_pure _).cast rfl
  | true => exact (adds_bind (adds_issue_check d _ _) fun _ => adds_pure _).cast rfl

/-- A call of `run_kernel` that returns has taken exactly the steps of
`run_kernel_steps`. -/
theorem run_kernel_ok_inv {d : Driver} {warmup_iterations iters : Nat}
    {context : L0Context} {function : Handle} {workgroup_info : ZeWorkGroups}
    {type : TimingMeasurement} {reset_command_list : Bool} {v : Rat} {w w' : World}
    (h : run_kernel d warmup_iterations iters context function workgroup_info type
      reset_command_list w = .ok (v, w')) :
    w'.trace = w.trace ++ run_kernel_steps d w warmup_iterations iters context function
      workgroup_info type reset_command_list := by
  unfold run_kernel at h
  obtain ⟨result, w1, h1, h2⟩ := bind_ok_inversion h
  cases h1
  obtain ⟨u, w2, h3, h4⟩ := bind_ok_inversion h2
  obtain ⟨-, rfl⟩ := check_ok_inv h3
  cases type with
  | BANDWIDTH =>
    dsimp only at h4
    obtain ⟨timed, w3, h5, h6⟩ := bind_ok_inversion h4
    rw [adds_final_reset d context reset_command_list _ w3 v w' h6,
      adds_run_kernel_bandwidth d warmup_iterations iters context function workgroup_info
        _ timed w3 h5]
    simp only [run_kernel_steps, branch_steps, final_reset, List.append_assoc]
  | BANDWIDTH_EVENT_TIMING =>
    dsimp only at h4
    obtain ⟨timed, w3, h5, h6⟩ := bind_ok_inversion h4
    rw [adds_final_reset d context reset_command_list _ w3 v w' h6,
      run_kernel_event_timing_ok_inv h5]
    simp only [run_kernel_steps, branch_steps, final_reset, List.append_assoc]
  | KERNEL_LAUNCH_LATENCY =>
    dsimp only at h4
    obtain ⟨timed, w3, h5, h6⟩ := bind_ok_inversion h4
    rw [adds_final_reset d context reset_command_list _ w3 v w' h6,
      run_kernel_launch_latency_ok_inv h5]
    simp only [run_kernel_steps, branch_steps, final_reset, List.append_assoc]
  | KERNEL_COMPLETE_RUNTIME =>
    dsimp only at h4
    obtain ⟨timed, w3, h5, h6⟩ := bind_ok_inversion h4
    rw [adds_final_reset d context reset_command_list _ w3 v w' h6,
      run_kernel_complete_runtime_ok_inv h5]
    simp only [run_kernel_steps, branch_steps, final_reset, List.append_assoc]

/-! ## Timing engine: events, pools and the command-list reset -/

theorem repeated_nil (n : Nat) : repeated n ([] : List Step) = [] := by
  induction n with
  | zero => rfl
  | succ n ih => simp only [repeated, ih, List.append_nil]

theorem filter_repeated (p : Step → Bool) (n : Nat) (steps : List Step) :
    (repeated n steps).filter p = repeated n (steps.filter p) := by
  induction n with
  | zero => rfl
  | succ n ih => simp only [repeated, List.filter_append, ih]

/-- The steps of a branch that create or destroy an event or a pool, or reset a command
list: none in `BANDWIDTH`, and in the other modes the pool creation, the event creation,
the event destruction and the pool destruction, in this order. -/
theorem branch_steps_lifetime (d : Driver) (calls : Nat) (type : TimingMeasurement)
    (warmup_iterations iters : Nat) (context : L0Context) (function : Handle)
    (workgroup_info : ZeWorkGroups) :
    (branch_steps d calls type warmup_iterations iters context function workgroup_info).filter
        (fun s => s.is_event_lifetime || s.is_list_reset) =
      if type = .BANDWIDTH then []
      else [Step.call (.zeEventPoolCreate (pool_flags type)),
        Step.call (.zeEventCreate (d.handle calls)),
        Step.call (.zeEventDestroy (d.handle (calls + 1))),
        Step.call (.zeEventPoolDestroy (d.handle calls))] := by
  cases type <;>
    simp [branch_steps, bandwidth_steps, event_timing_steps, launch_latency_steps,
      complete_runtime_steps, List.filter_append, filter_repeated, repeated_nil,
      List.filter_cons, Step.is_event_lifetime, Step.is_list_reset, exec_step, sync_step,
      wait_step, reset_step, query_step, launch_step, close_step, pool_flags]

/-- No step of a branch resets a command list. -/
theorem branch_steps_no_reset (d : Driver) (calls : Nat) (type : TimingMeasurement)
    (warmup_iterations iters : Nat) (context : L0Context) (function : Handle)
    (workgroup_info : ZeWorkGroups) :
    (branch_steps d calls type warmup_iterations iters context function workgroup_info).filter
        Step.is_list_reset = [] := by
  cases type <;>
    simp [branch_steps, bandwidth_steps, event_timing_steps, launch_latency_steps,
      complete_runtime_steps, List.filter_append, filter_repeated, repeated_nil,
      List.filter_cons, Step.is_list_reset, exec_step, sync_step,
      wait_step, reset_step, query_step, launch_step, close_step]

theorem final_reset_lifetime (context : L0Context) (reset_command_list : Bool) :
    (final_reset context reset_command_list).filter
        (fun s => s.is_event_lifetime || s.is_list_reset) =
      final_reset context reset_command_list := by
  cases reset_command_list <;> rfl

theorem final_reset_filter (context : L0Context) (reset_command_list : Bool) :
    (final_reset context reset_command_list).filter Step.is_list_reset =
      final_reset context reset_command_list := by
  cases reset_command_list <;> rfl

/-- C12: on every call of `run_kernel` that returns, the steps of the call that create or
destroy an event or a pool, or reset a command list, are these: in `BANDWIDTH` mode none
but the final command-list reset when one is asked for; in `BANDWIDTH_EVENT_TIMING`,
`KERNEL_LAUNCH_LATENCY` and `KERNEL_COMPLETE_RUNTIME` mode one `zeEventPoolCreate`, one
`zeEventCreate` in that pool, one `zeEventDestroy` of that event, then one
`zeEventPoolDestroy` of that pool, and only then the command-list reset when one is
asked for. -/
theorem run_kernel_event_lifetime (d : Driver) (warmup_iterations iters : Nat)
    (context : L0Context) (function : Handle) (workgroup_info : ZeWorkGroups)
    (type : TimingMeasurement) (reset_command_list : Bool) (v : Rat) (w w' : World)
    (h : run_kernel d warmup_iterations iters context function workgroup_info type
      reset_command_list w = .ok (v, w')) :
    ∃ steps, w'.trace = w.trace ++ steps ∧
      steps.filter (fun s => s.is_event_lifetime || s.is_list_reset) =
        (if type = .BANDWIDTH then []
          else [Step.call (.zeEventPoolCreate (pool_flags type)),
            Step.call (.zeEventCreate (d.handle (w.calls + 1))),
            Step.call (.zeEventDestroy (d.handle (w.calls + 2))),
            Step.call (.zeEventPoolDestroy (d.handle (w.calls + 1)))]) ++
          final_reset context reset_command_list := by
  refine ⟨_, run_kernel_ok_inv h, ?_⟩
  unfold run_kernel_steps
  rw [List.filter_append, List.filter_append, branch_steps_lifetime]
  have e := final_reset_lifetime context reset_command_list
  unfold final_reset at e ⊢
  rw [e]
  rfl

/-- Witness of C12: the run of two warm-up and three measured iterations in
`BANDWIDTH_EVENT_TIMING` mode with a driver whose every call succeeds returns, and its
pool 1 and event 2 are created and destroyed once each before the reset of list 1. -/
theorem run_kernel_event_lifetime_witness :
    run_kernel sample_driver 2 3 sample_context 0 ⟨1, 1, 1, 1, 1, 1⟩ .BANDWIDTH_EVENT_TIMING
        true World.initial =
      .ok (measured_total sample_driver sample_context 15 .BANDWIDTH_EVENT_TIMING 3
          World.initial / ((3 : Nat) : Rat),
        World.initial.extend (1 + branch_calls .BANDWIDTH_EVENT_TIMING 2 3 + 1) 3 0
          (run_kernel_steps sample_driver World.initial 2 3 sample_context 0
            ⟨1, 1, 1, 1, 1, 1⟩ .BANDWIDTH_EVENT_TIMING true)) ∧
    ∃ steps, (World.initial.extend (1 + branch_calls .BANDWIDTH_EVENT_TIMING 2 3 + 1) 3 0
        (run_kernel_steps sample_driver World.initial 2 3 sample_context 0
          ⟨1, 1, 1, 1, 1, 1⟩ .BANDWIDTH_EVENT_TIMING true)).trace =
        World.initial.trace ++ steps ∧
      steps.filter (fun s => s.is_event_lifetime || s.is_list_reset) =
        [Step.call (.zeEventPoolCreate host_visible_kernel_timestamp),
          Step.call (.zeEventCreate 1), Step.call (.zeEventDestroy 2),
          Step.call (.zeEventPoolDestroy 1), Step.call (.zeCommandListReset 1)] :=
  ⟨@run_kernel_ok sample_driver (fun _ => rfl) 2 3 sample_context 0 ⟨1, 1, 1, 1, 1, 1⟩
      .BANDWIDTH_EVENT_TIMING true 15 (fun _ => by decide) World.initial,
    run_kernel_event_lifetime sample_driver 2 3 sample_context 0 ⟨1, 1, 1, 1, 1, 1⟩
      .BANDWIDTH_EVENT_TIMING true _ World.initial _
      (@run_kernel_ok sample_driver (fun _ => rfl) 2 3 sample_context 0 ⟨1, 1, 1, 1, 1, 1⟩
        .BANDWIDTH_EVENT_TIMING true 15 (fun _ => by decide) World.initial)⟩

/-- C13: for every timing mode, the steps of a call of `run_kernel` that returns are a
body without any command-list reset followed, when `reset_command_list` is true, by
exactly one `zeCommandListReset` of the context's command list, which is the last step
of the call, and by nothing when `reset_command_list` is false. -/
theorem run_kernel_resets_once (d : Driver) (warmup_iterations iters : Nat)
    (context : L0Context) (function : Handle) (workgroup_info : ZeWorkGroups)
    (type : TimingMeasurement) (reset_command_list : Bool) (v : Rat) (w w' : World)
    (h : run_kernel d warmup_iterations iters context function workgroup_info type
      reset_command_list w = .ok (v, w')) :
    ∃ body, w'.trace = w.trace ++ (body ++
        (if reset_command_list then [Step.call (.zeCommandListReset context.command_list)]
          else [])) ∧
      (∀ s ∈ body, s.is_list_reset = false) ∧
      ((body ++ (if reset_command_list then
          [Step.call (.zeCommandListReset context.command_list)] else [])).filter
        Step.is_list_reset).length = (if reset_command_list then 1 else 0) := by
  have hbody : ([Step.call (.zeKernelSetGroupSize function workgroup_info.group_size_x
      workgroup_info.group_size_y workgroup_info.group_size_z)] ++
      branch_steps d (w.calls + 1) type warmup_iterations iters context function
        workgroup_info).filter Step.is_list_reset = [] := by
    rw [List.filter_append, branch_steps_no_reset]
    rfl
  refine ⟨_, run_kernel_ok_inv h, ?_, ?_⟩
  · intro s hs
    have hn := List.filter_eq_nil_iff.1 hbody s hs
    simpa using hn
  · rw [List.filter_append, hbody]
    cases reset_command_list <;> rfl

/-- Witness of C13: the run of one warm-up and two measured iterations in `BANDWIDTH`
mode with a driver whose every call succeeds returns, and its only command-list reset is
its last step. -/
theorem run_kernel_resets_once_witness :
    run_kernel sample_driver 1 2 sample_context 0 ⟨1, 1, 1, 1, 1, 1⟩ .BANDWIDTH true
        World.initial =
      .ok (measured_total sample_driver sample_context 15 .BANDWIDTH 2 World.initial /
          ((2 : Nat) : Rat),
        World.initial.extend (1 + branch_calls .BANDWIDTH 1 2 + 1) 0 1
          (run_kernel_steps sample_driver World.initial 1 2 sample_context 0
            ⟨1, 1, 1, 1, 1, 1⟩ .BANDWIDTH true)) ∧
    ∃ body, (World.initial.extend (1 + branch_calls .BANDWIDTH 1 2 + 1) 0 1
        (run_kernel_steps sample_driver World.initial 1 2 sample_context 0
          ⟨1, 1, 1, 1, 1, 1⟩ .BANDWIDTH true)).trace =
        World.initial.trace ++ (body ++ [Step.call (.zeCommandListReset 1)]) ∧
      (∀ s ∈ body, s.is_list_reset = false) ∧
      ((body ++ [Step.call (.zeCommandListReset 1)]).filter Step.is_list_reset).length = 1 :=
  ⟨@run_kernel_ok sample_driver (fun _ => rfl) 1 2 sample_context 0 ⟨1, 1, 1, 1, 1, 1⟩
      .BANDWIDTH true 15 (fun h => by cases h) World.initial,
    run_kernel_resets_once sample_driver 1 2 sample_context 0 ⟨1, 1, 1, 1, 1, 1⟩
      .BANDWIDTH true _ World.initial _
      (@run_kernel_ok sample_driver (fun _ => rfl) 1 2 sample_context 0 ⟨1, 1, 1, 1, 1, 1⟩
        .BANDWIDTH true 15 (fun h => by cases h) World.initial)⟩

/-! ## Timing engine: the phases of a call that returns -/

/-- The steps of a call in which no checked call fails fall into five phases: a
prologue, the warm-up iterations, an interlude, the measured iterations, an epilogue. -/
theorem run_kernel_steps_phases (d : Driver) (w : World) (warmup_iterations iters : Nat)
    (context : L0Context) (function : Handle) (workgroup_info : ZeWorkGroups)
    (type : TimingMeasurement) (reset_command_list : Bool) :
    run_kernel_steps d w warmup_iterations iters context function workgroup_info type
        reset_command_list =
      prologue_steps d w type context function workgroup_info ++
        repeated warmup_iterations (warmup_iteration type context (d.handle (w.calls + 2))) ++
        interlude_steps type context ++
        repeated iters (measured_iteration type context (d.handle (w.calls + 2))) ++
        epilogue_steps d w type context reset_command_list := by
  cases type <;>
    simp only [run_kernel_steps, branch_steps, bandwidth_steps, event_timing_steps,
      launch_latency_steps, complete_runtime_steps, prologue_steps, warmup_iteration,
      interlude_steps, measured_iteration, epilogue_steps, final_reset, List.append_assoc,
      List.cons_append, List.nil_append, List.append_nil]

/-- A call of `run_kernel` that returns has taken its steps in five phases: a prologue,
all the warm-up iterations, an interlude, all the measured iterations, an epilogue. -/
theorem run_kernel_phases {d : Driver} {warmup_iterations iters : Nat}
    {context : L0Context} {function : Handle} {workgroup_info : ZeWorkGroups}
    {type : TimingMeasurement} {reset_command_list : Bool} {v : Rat} {w w' : World}
    (h : run_kernel d warmup_iterations iters context function workgroup_info type
      reset_command_list w = .ok (v, w')) :
    w'.trace = w.trace ++
      (prologue_steps d w type context function workgroup_info ++
        repeated warmup_iterations (warmup_iteration type context (d.handle (w.calls + 2))) ++
        interlude_steps type context ++
        repeated iters (measured_iteration type context (d.handle (w.calls + 2))) ++
        epilogue_steps d w type context reset_command_list) := by
  rw [run_kernel_ok_inv h, run_kernel_steps_phases]

/-- C23: in `BANDWIDTH` mode a call of `run_kernel` that returns has taken exactly these
steps: the group size is set, the launch is appended with no event, the list is closed,
the closed list is executed `warmup_iterations` times, the queue is synchronized, the
host timer is started, the list is executed `iters` times, the queue is synchronized, the
host timer is stopped, and the list is reset when asked for.  The list is appended to
once and closed once, and no step stands between two executions of a loop. -/
theorem run_kernel_bandwidth_sequence (d : Driver) (warmup_iterations iters : Nat)
    (context : L0Context) (function : Handle) (workgroup_info : ZeWorkGroups)
    (reset_command_list : Bool) (v : Rat) (w w' : World)
    (h : run_kernel d warmup_iterations iters context function workgroup_info .BANDWIDTH
      reset_command_list w = .ok (v, w')) :
    ∃ steps, w'.trace = w.trace ++ steps ∧
      steps =
        [Step.call (.zeKernelSetGroupSize function workgroup_info.group_size_x
            workgroup_info.group_size_y workgroup_info.group_size_z),
          Step.call (.zeCommandListAppendLaunchKernel context.command_list function
            workgroup_info.groupCountX workgroup_info.groupCountY workgroup_info.groupCountZ
            none),
          Step.call (.zeCommandListClose context.command_list)] ++
        repeated warmup_iterations
          [Step.call (.zeCommandQueueExecuteCommandLists context.command_queue
            context.command_list)] ++
        [Step.call (.zeCommandQueueSynchronize context.command_queue), Step.timer_start] ++
        repeated iters
          [Step.call (.zeCommandQueueExecuteCommandLists context.command_queue
            context.command_list)] ++
        [Step.call (.zeCommandQueueSynchronize context.command_queue),
          Step.timer_stopAndTime] ++
        (if reset_command_list then [Step.call (.zeCommandListReset context.command_list)]
          else []) ∧
      steps.filter Step.is_list_build =
        [Step.call (.zeCommandListAppendLaunchKernel context.command_list function
            workgroup_info.groupCountX workgroup_info.groupCountY workgroup_info.groupCountZ
            none),
          Step.call (.zeCommandListClose context.command_list)] := by
  refine ⟨_, run_kernel_ok_inv h, ?_, ?_⟩
  · simp only [run_kernel_steps, branch_steps, bandwidth_steps, launch_step, close_step,
      exec_step, sync_step, List.append_assoc, List.cons_append, List.nil_append]
  · cases reset_command_list <;>
      simp [run_kernel_steps, branch_steps, bandwidth_steps, launch_step, close_step,
        exec_step, sync_step, List.filter_append, filter_repeated, repeated_nil,
        List.filter_cons, Step.is_list_build]

/-- Witness of C23: the run of one warm-up and two measured iterations in `BANDWIDTH`
mode with a driver whose every call succeeds. -/
theorem run_kernel_bandwidth_sequence_witness :
    run_kernel sample_driver 1 2 sample_context 0 ⟨1, 1, 1, 1, 1, 1⟩ .BANDWIDTH true
        World.initial =
      .ok (measured_total sample_driver sample_context 15 .BANDWIDTH 2 World.initial /
          ((2 : Nat) : Rat),
        World.initial.extend (1 + branch_calls .BANDWIDTH 1 2 + 1) 0 1
          (run_kernel_steps sample_driver World.initial 1 2 sample_context 0
            ⟨1, 1, 1, 1, 1, 1⟩ .BANDWIDTH true)) ∧
    ∃ steps, (World.initial.extend (1 + branch_calls .BANDWIDTH 1 2 + 1) 0 1
        (run_kernel_steps sample_driver World.initial 1 2 sample_context 0
          ⟨1, 1, 1, 1, 1, 1⟩ .BANDWIDTH true)).trace = World.initial.trace ++ steps ∧
      steps =
        [Step.call (.zeKernelSetGroupSize 0 1 1 1),
          Step.call (.zeCommandListAppendLaunchKernel 1 0 1 1 1 none),
          Step.call (.zeCommandListClose 1)] ++
        repeated 1 [Step.call (.zeCommandQueueExecuteCommandLists 2 1)] ++
        [Step.call (.zeCommandQueueSynchronize 2), Step.timer_start] ++
        repeated 2 [Step.call (.zeCommandQueueExecuteCommandLists 2 1)] ++
        [Step.call (.zeCommandQueueSynchronize 2), Step.timer_stopAndTime] ++
        [Step.call (.zeCommandListReset 1)] ∧
      steps.filter Step.is_list_build =
        [Step.call (.zeCommandListAppendLaunchKernel 1 0 1 1 1 none),
          Step.call (.zeCommandListClose 1)] :=
  ⟨@run_kernel_ok sample_driver (fun _ => rfl) 1 2 sample_context 0 ⟨1, 1, 1, 1, 1, 1⟩
      .BANDWIDTH true 15 (fun h => by cases h) World.initial,
    run_kernel_bandwidth_sequence sample_driver 1 2 sample_context 0 ⟨1, 1, 1, 1, 1, 1⟩
      true _ World.initial _
      (@run_kernel_ok sample_driver (fun _ => rfl) 1 2 sample_context 0 ⟨1, 1, 1, 1, 1, 1⟩
        .BANDWIDTH true 15 (fun h => by cases h) World.initial)⟩

/-- C22 (as the code has it): for every timing mode, a call of `run_kernel` that returns
has taken all its warm-up iterations before all its measured iterations.  Leaving out
the timestamp query and the uses of the host timer, a warm-up iteration makes the driver
calls of a measured iteration in the same order in `BANDWIDTH` (execute) and in
`BANDWIDTH_EVENT_TIMING` (execute, event host-wait, queue synchronize, event reset), and
only in these two modes: in `KERNEL_LAUNCH_LATENCY` the warm-up synchronizes the queue
before the host-wait and the measured iteration after it, and in
`KERNEL_COMPLETE_RUNTIME` only the measured iteration synchronizes the queue. -/
theorem run_kernel_warmup_and_measured (d : Driver) (warmup_iterations iters : Nat)
    (context : L0Context) (function : Handle) (workgroup_info : ZeWorkGroups)
    (type : TimingMeasurement) (reset_command_list : Bool) (v : Rat) (w w' : World)
    (h : run_kernel d warmup_iterations iters context function workgroup_info type
      reset_command_list w = .ok (v, w')) :
    w'.trace = w.trace ++
      (prologue_steps d w type context function workgroup_info ++
        repeated warmup_iterations (warmup_iteration type context (d.handle (w.calls + 2))) ++
        interlude_steps type context ++
        repeated iters (measured_iteration type context (d.handle (w.calls + 2))) ++
        epilogue_steps d w type context reset_command_list) ∧
    (∀ event, (common_calls (warmup_iteration type context event) =
        common_calls (measured_iteration type context event) ↔
      type = .BANDWIDTH ∨ type = .BANDWIDTH_EVENT_TIMING)) ∧
    (∀ event, common_calls (warmup_iteration .BANDWIDTH context event) =
        [exec_step context] ∧
      common_calls (measured_iteration .BANDWIDTH context event) = [exec_step context]) ∧
    (∀ event, common_calls (warmup_iteration .BANDWIDTH_EVENT_TIMING context event) =
        [exec_step context, wait_step event, sync_step context, reset_step event] ∧
      common_calls (measured_iteration .BANDWIDTH_EVENT_TIMING context event) =
        [exec_step context, wait_step event, sync_step context, reset_step event]) ∧
    (∀ event, common_calls (warmup_iteration .KERNEL_LAUNCH_LATENCY context event) =
        [exec_step context, sync_step context, wait_step event, reset_step event] ∧
      common_calls (measured_iteration .KERNEL_LAUNCH_LATENCY context event) =
        [exec_step context, wait_step event, sync_step context, reset_step event]) ∧
    (∀ event, common_calls (warmup_iteration .KERNEL_COMPLETE_RUNTIME context event) =
        [exec_step context, wait_step event, reset_step event] ∧
      common_calls (measured_iteration .KERNEL_COMPLETE_RUNTIME context event) =
        [exec_step context, sync_step context, wait_step event, reset_step event]) := by
  refine ⟨run_kernel_phases h, ?_, fun _ => ⟨rfl, rfl⟩, fun _ => ⟨rfl, rfl⟩,
    fun _ => ⟨rfl, rfl⟩, fun _ => ⟨rfl, rfl⟩⟩
  intro event
  cases type <;>
    simp [common_calls, warmup_iteration, measured_iteration, exec_step, sync_step, wait_step,
      reset_step, query_step]

/-- Witness of C22 (as the code has it): the run of two warm-up and three measured
iterations in `KERNEL_LAUNCH_LATENCY` mode with a driver whose every call succeeds. -/
theorem run_kernel_warmup_and_measured_witness :
    run_kernel sample_driver 2 3 sample_context 0 ⟨1, 1, 1, 1, 1, 1⟩ .KERNEL_LAUNCH_LATENCY
        false World.initial =
      .ok (measured_total sample_driver sample_context 15 .KERNEL_LAUNCH_LATENCY 3
          World.initial / ((3 : Nat) : Rat),
        World.initial.extend (1 + branch_calls .KERNEL_LAUNCH_LATENCY 2 3 + 0) 0 3
          (run_kernel_steps sample_driver World.initial 2 3 sample_context 0
            ⟨1, 1, 1, 1, 1, 1⟩ .KERNEL_LAUNCH_LATENCY false)) ∧
    (World.initial.extend (1 + branch_calls .KERNEL_LAUNCH_LATENCY 2 3 + 0) 0 3
        (run_kernel_steps sample_driver World.initial 2 3 sample_context 0
          ⟨1, 1, 1, 1, 1, 1⟩ .KERNEL_LAUNCH_LATENCY false)).trace =
      World.initial.trace ++
        (prologue_steps sample_driver World.initial .KERNEL_LAUNCH_LATENCY sample_context 0
            ⟨1, 1, 1, 1, 1, 1⟩ ++
          repeated 2 (warmup_iteration .KERNEL_LAUNCH_LATENCY sample_context 2) ++
          interlude_steps .KERNEL_LAUNCH_LATENCY sample_context ++
          repeated 3 (measured_iteration .KERNEL_LAUNCH_LATENCY sample_context 2) ++
          epilogue_steps sample_driver World.initial .KERNEL_LAUNCH_LATENCY sample_context
            false) :=
  ⟨@run_kernel_ok sample_driver (fun _ => rfl) 2 3 sample_context 0 ⟨1, 1, 1, 1, 1, 1⟩
      .KERNEL_LAUNCH_LATENCY false 15 (fun h => by cases h) World.initial,
    (run_kernel_warmup_and_measured sample_driver 2 3 sample_context 0 ⟨1, 1, 1, 1, 1, 1⟩
      .KERNEL_LAUNCH_LATENCY false _ World.initial _
      (@run_kernel_ok sample_driver (fun _ => rfl) 2 3 sample_context 0 ⟨1, 1, 1, 1, 1, 1⟩
        .KERNEL_LAUNCH_LATENCY false 15 (fun h => by cases h) World.initial)).1⟩

/-- C22, counterexample to the claim: the run of one warm-up and one measured iteration
in `KERNEL_LAUNCH_LATENCY` mode with a driver whose every call succeeds returns; its
warm-up iteration calls execute, queue synchronize, event host-wait, event reset, and its
measured iteration calls execute, event host-wait, queue synchronize, event reset: the
two sequences of driver calls differ. -/
theorem run_kernel_warmup_differs_counterexample :
    ∃ v w' warm_up measured,
      run_kernel sample_driver 1 1 sample_context 0 ⟨1, 1, 1, 1, 1, 1⟩ .KERNEL_LAUNCH_LATENCY
        false World.initial = .ok (v, w') ∧
      w'.trace = World.initial.trace ++
        (prologue_steps sample_driver World.initial .KERNEL_LAUNCH_LATENCY sample_context 0
            ⟨1, 1, 1, 1, 1, 1⟩ ++
          warm_up ++ measured ++
          epilogue_steps sample_driver World.initial .KERNEL_LAUNCH_LATENCY sample_context
            false) ∧
      warm_up =
        [Step.call (.zeCommandQueueExecuteCommandLists 2 1),
          Step.call (.zeCommandQueueSynchronize 2),
          Step.call (.zeEventHostSynchronize 2), Step.call (.zeEventHostReset 2)] ∧
      measured =
        [Step.timer_start, Step.call (.zeCommandQueueExecuteCommandLists 2 1),
          Step.call (.zeEventHostSynchronize 2), Step.timer_stopAndTime,
          Step.call (.zeCommandQueueSynchronize 2), Step.call (.zeEventHostReset 2)] ∧
      common_calls warm_up ≠ common_calls measured :=
  ⟨_, _, _, _, @run_kernel_ok sample_driver (fun _ => rfl) 1 1 sample_context 0
      ⟨1, 1, 1, 1, 1, 1⟩ .KERNEL_LAUNCH_LATENCY false 15 (fun h => by cases h) World.initial,
    by decide, rfl, rfl, by decide⟩

/-! ## Timing engine: the tick count is a modular difference -/

theorem int_to_u64_of_nonneg {x : Int} (h0 : 0 ≤ x) (h1 : x < 2 ^ 64) :
    int_to_u64 x = x.toNat := by
  unfold int_to_u64
  rw [Int.emod_eq_of_lt h0 h1]

/-- C28: the tick count of `context_time_in_us` is a modular difference: for every
`timestamp_max_value` `M` (a `uint64_t`) and every `kernelStart`, `kernelEnd` within
`0..M`, the tick count equals `(kernelEnd - kernelStart) mod (M + 1)` and lies in `0..M`;
when `kernelEnd < kernelStart` it is at least 1 and equals the exact sum
`(M - kernelStart) + kernelEnd + 1`, which is below `2 ^ 64`, so no 64-bit operation
wraps; and it is the count that `context_time_ns` multiplies by the timer resolution. -/
theorem elapsed_ticks_modular (M kernelStart kernelEnd : Nat) (hM : M < 2 ^ 64)
    (hs : kernelStart ≤ M) (he : kernelEnd ≤ M) :
    ((elapsed_ticks kernelStart kernelEnd M : Nat) : Int) =
      ((kernelEnd : Int) - (kernelStart : Int)) % ((M : Int) + 1) ∧
    elapsed_ticks kernelStart kernelEnd M ≤ M ∧
    (kernelEnd < kernelStart → 1 ≤ elapsed_ticks kernelStart kernelEnd M) ∧
    (kernelEnd < kernelStart →
      (M - kernelStart) + kernelEnd + 1 < 2 ^ 64 ∧
      elapsed_ticks kernelStart kernelEnd M = (M - kernelStart) + kernelEnd + 1) ∧
    (kernelStart ≤ kernelEnd → elapsed_ticks kernelStart kernelEnd M =
      kernelEnd - kernelStart) ∧
    (∀ timestamp_freq : Nat, context_time_ns ⟨kernelStart, kernelEnd⟩ timestamp_freq M =
      ((elapsed_ticks kernelStart kernelEnd M : Nat) : Rat) * (timestamp_freq : Rat)) := by
  have hfwd : kernelStart ≤ kernelEnd →
      elapsed_ticks kernelStart kernelEnd M = kernelEnd - kernelStart :=
    fun h => elapsed_ticks_forward M h (by omega)
  have hwrap : kernelEnd < kernelStart →
      elapsed_ticks kernelStart kernelEnd M = (M - kernelStart) + kernelEnd + 1 :=
    fun h => elapsed_ticks_wrapped h hs hM
  refine ⟨?_, ?_, ?_, ?_, hfwd, fun freq => context_time_ns_eq _ _ _⟩
  · rcases Nat.lt_or_ge kernelEnd kernelStart with h | h
    · rw [hwrap h]
      have e : ((kernelEnd : Int) - (kernelStart : Int)) % ((M : Int) + 1) =
          ((kernelEnd : Int) - (kernelStart : Int) + ((M : Int) + 1)) % ((M : Int) + 1) := by
        rw [Int.add_emod_self]
      rw [e, Int.emod_eq_of_lt (by omega) (by omega)]
      omega
    · rw [hfwd h, Int.emod_eq_of_lt (by omega) (by omega)]
      omega
  · rcases Nat.lt_or_ge kernelEnd kernelStart with h | h
    · rw [hwrap h]
      omega
    · rw [hfwd h]
      omega
  · intro h
    rw [hwrap h]
    omega
  · intro h
    exact ⟨by omega, hwrap h⟩

/-- Witness of C28: with `M = 15`, `kernelStart = 10` and `kernelEnd = 5` the tick count
is 11, which is `(5 - 10) mod 16`. -/
theorem elapsed_ticks_modular_witness :
    (15 < 2 ^ 64 ∧ 10 ≤ 15 ∧ 5 ≤ 15) ∧
    (((elapsed_ticks 10 5 15 : Nat) : Int) = ((5 : Nat) - (10 : Nat) : Int) % ((15 : Nat) + 1) ∧
    elapsed_ticks 10 5 15 ≤ 15 ∧
    (5 < 10 → 1 ≤ elapsed_ticks 10 5 15) ∧
    (5 < 10 → (15 - 10) + 5 + 1 < 2 ^ 64 ∧ elapsed_ticks 10 5 15 = (15 - 10) + 5 + 1) ∧
    (10 ≤ 5 → elapsed_ticks 10 5 15 = 5 - 10) ∧
    (∀ timestamp_freq : Nat, context_time_ns ⟨10, 5⟩ timestamp_freq 15 =
      ((elapsed_ticks 10 5 15 : Nat) : Rat) * (timestamp_freq : Rat))) ∧
    elapsed_ticks 10 5 15 = 11 :=
  ⟨by decide, elapsed_ticks_modular 15 10 5 (by decide) (by decide) (by decide), by decide⟩

/-- C29: for every `kernelTimestampValidBits` `b` with `0 ≤ b ≤ 31`, the wrap bound
`timestamp_max_value = ~(-1 << b)`, computed on a 32-bit `int` and stored in a
`uint64_t`, is `2 ^ b - 1`; from 32 bits on the shift has no defined value. -/
theorem timestamp_max_value_eq (b : Nat) (hb : b ≤ 31) :
    timestamp_max_value b = some (2 ^ b - 1) ∧
    shl_minus_one b = some (-(2 ^ b : Int)) ∧
    (∀ b' : Nat, 32 ≤ b' → timestamp_max_value b' = none) := by
  have hlt : b < 32 := by omega
  have hpow : (2 : Int) ^ b ≤ 2 ^ 31 := pow_le_pow_right₀ (by norm_num) hb
  have hpos : (0 : Int) < 2 ^ b := by positivity
  refine ⟨?_, ?_, ?_⟩
  · unfold timestamp_max_value shl_minus_one
    rw [if_pos hlt, Option.map_some']
    congr 1
    unfold bit_not
    rw [int_to_u64_of_nonneg (by omega) (by omega)]
    have e : (-(-(2 : Int) ^ b) - 1) = (((2 ^ b - 1 : Nat)) : Int) := by
      have h1 : 1 ≤ 2 ^ b := Nat.one_le_two_pow
      push_cast [h1]
      ring
    rw [e, Int.toNat_ofNat]
  · unfold shl_minus_one
    rw [if_pos hlt]
  · intro b' hb'
    unfold timestamp_max_value shl_minus_one
    rw [if_neg (by omega)]
    rfl

/-- Witness of C29 at 31 bits, the largest count for which the shift is defined. -/
theorem timestamp_max_value_eq_witness :
    31 ≤ 31 ∧
    (timestamp_max_value 31 = some (2 ^ 31 - 1) ∧
      shl_minus_one 31 = some (-(2 ^ 31 : Int)) ∧
      (∀ b' : Nat, 32 ≤ b' → timestamp_max_value b' = none)) ∧
    timestamp_max_value 31 = some 2147483647 ∧ timestamp_max_value 0 = some 0 :=
  ⟨by decide, timestamp_max_value_eq 31 (by decide), by decide, by decide⟩

end ZePeak

namespace XePeer

/-! ## Peer transfer harness: running a computation -/

theorem run_pure {α : Type} (a : α) (w : World) : (pure a : M α) w = (.ok a, w) := rfl

theorem run_bind {α β : Type} (m : M α) (f : α → M β) (w : World) :
    (m >>= f) w = match m w with
      | (.ok a, w') => f a w'
      | (.error e, w') => (.error e, w') := rfl

theorem run_bind_ok {α β : Type} {m : M α} {f : α → M β} {w w' : World} {a : α}
    (h : m w = (.ok a, w')) : (m >>= f) w = f a w' := by
  rw [run_bind, h]

theorem run_bind_error {α β : Type} {m : M α} {f : α → M β} {w w' : World} {e : Stop}
    (h : m w = (.error e, w')) : (m >>= f) w = (.error e, w') := by
  rw [run_bind, h]

/-- A sequence that returns: its first part returned, and the rest returned from
there. -/
theorem bind_ok_inv {α β : Type} {m : M α} {f : α → M β} {w w' : World} {b : β}
    (h : (m >>= f) w = (.ok b, w')) :
    ∃ a w1, m w = (.ok a, w1) ∧ f a w1 = (.ok b, w') := by
  rw [run_bind] at h
  rcases hm : m w with ⟨r, w1⟩
  rw [hm] at h
  cases r with
  | ok a => exact ⟨a, w1, rfl, h⟩
  | error e => simp at h

theorem emit_run (s : Step) (w : World) : emit s w = (.ok (), w.push s) := rfl

theorem driver_call_run (env : Env) (s : Step) (w : World) :
    driver_call env s w = (.ok (env.result w.steps), w.push s) := rfl

theorem success_or_terminate_zero : success_or_terminate 0 = pure () := rfl

theorem success_or_terminate_ok_inv {result : Nat} {w w' : World}
    (h : success_or_terminate result w = (.ok (), w')) : result = 0 ∧ w' = w := by
  unfold success_or_terminate at h
  split at h
  · next h0 =>
    rw [run_pure] at h
    exact ⟨h0, (Prod.mk.inj h).2.symm⟩
  · simp [terminate] at h

theorem app_call_ok_inv {env : Env} {s : Step} {w w' : World}
    (h : app_call env s w = (.ok (), w')) : env.result w.steps = 0 ∧ w' = w.push s := by
  unfold app_call at h
  rw [run_bind_ok (driver_call_run env s w)] at h
  exact success_or_terminate_ok_inv h

theorem app_create_ok_inv {env : Env} {s : Step} {w w' : World} {a : Handle}
    (h : app_create env s w = (.ok a, w')) :
    env.result w.steps = 0 ∧ a = env.handle w.steps ∧ w' = w.push s := by
  unfold app_create at h
  rw [run_bind_ok (driver_call_run env s w)] at h
  obtain ⟨u, w1, h1, h2⟩ := bind_ok_inv h
  obtain ⟨h0, hw⟩ := success_or_terminate_ok_inv h1
  rw [run_pure] at h2
  obtain ⟨ha, hw'⟩ := Prod.mk.inj h2
  exact ⟨h0, (Except.ok.inj ha).symm, by rw [← hw', hw]⟩

theorem app_call_ok {env : Env} (s : Step) (w : World) (h : env.result w.steps = 0) :
    app_call env s w = (.ok (), w.push s) := by
  unfold app_call
  rw [run_bind_ok (driver_call_run env s w), h, success_or_terminate_zero, run_pure]

theorem app_create_ok {env : Env} (s : Step) (w : World) (h : env.result w.steps = 0) :
    app_create env s w = (.ok (env.handle w.steps), w.push s) := by
  unfold app_create
  rw [run_bind_ok (driver_call_run env s w), h, success_or_terminate_zero]
  rfl

/-! ## Peer transfer harness: the value reported for a pair -/

theorem size_mul_eq {a b : Nat} (h : a * b < 2 ^ 64) : size_mul a b = a * b :=
  Nat.mod_eq_of_lt h

theorem double_div_of_ne_zero (numerator : Rat) {denominator : Rat} (h : denominator ≠ 0) :
    double_div numerator denominator = .finite (numerator / denominator) := by
  unfold double_div
  rw [if_neg h]

theorem double_div_zero_of_pos {numerator : Rat} (h : 0 < numerator) :
    double_div numerator 0 = .inf := by
  unfold double_div
  rw [if_pos rfl, if_neg (ne_of_gt h), if_pos h]

/-- The bandwidth of lines 242-250 for the buffer of `bandwidth`: `inf` for a reading of
zero, and otherwise one quotient. -/
theorem total_bandwidth_eq (element_size : Nat) (h1 : 1 ≤ element_size)
    (he : element_size ≤ 8) (bidirectional : Bool) (elapsed : Int) :
    total_bandwidth (size_mul element_size 10000000) 5 bidirectional elapsed =
      if elapsed = 0 then double.inf
      else .finite
        (((element_size * 10000000 * 5 * (if bidirectional then 2 else 1) : Nat) : Rat) /
          1000000000 / ((elapsed : Rat) / 1000000)) := by
  have e1 : size_mul element_size 10000000 = element_size * 10000000 :=
    size_mul_eq (by omega)
  have e2 : size_mul (element_size * 10000000) 5 = element_size * 10000000 * 5 :=
    size_mul_eq (by omega)
  have hpos : (0 : Rat) < ((element_size * 10000000 * 5 : Nat) : Rat) / 1000000000 := by
    apply div_pos
    · exact Nat.cast_pos.2 (by omega)
    · norm_num
  unfold total_bandwidth
  rw [e1, e2]
  by_cases h0 : elapsed = 0
  · rw [if_pos h0, h0]
    have hz : ((0 : Int) : Rat) / 1000000 = 0 := by norm_num
    dsimp only
    rw [hz]
    cases bidirectional
    · simp only [Bool.false_eq_true, if_false]
      exact double_div_zero_of_pos hpos
    · simp only [if_true]
      exact double_div_zero_of_pos (by linarith)
  · rw [if_neg h0]
    have hne : (elapsed : Rat) / 1000000 ≠ 0 := by
      apply div_ne_zero
      · exact Int.cast_ne_zero.2 h0
      · norm_num
    dsimp only
    rw [double_div_of_ne_zero _ hne]
    cases bidirectional
    · simp only [Bool.false_eq_true, if_false, Nat.mul_one]
    · simp only [if_true]
      push_cast
      ring_nf

/-- The mean time of lines 390-391 for the 100 iterations of `latency`: always finite. -/
theorem total_time_usec_eq (elapsed : Int) :
    total_time_usec 100 elapsed = .finite ((elapsed : Rat) / 100) := by
  unfold total_time_usec
  exact double_div_of_ne_zero _ (by norm_num)

/-! ## Peer transfer harness: what a computation emits -/

section EmitsRules

variable {P : Step → Prop}

theorem emits_pure {α : Type} (a : α) : Emits P (pure a : M α) :=
  fun w => ⟨[], by rw [run_pure, List.append_nil], fun _ h => absurd h (List.not_mem_nil _)⟩

theorem emits_push {α : Type} {m : M α} {s : Step} (hs : P s)
    (h : ∀ w, (m w).2 = w.push s) : Emits P m :=
  fun w => ⟨[s], by rw [h w]; rfl, fun x hx => by
    rw [List.mem_singleton] at hx
    rw [hx]
    exact hs⟩

theorem emits_emit {s : Step} (hs : P s) : Emits P (emit s) :=
  emits_push hs fun _ => rfl

theorem emits_terminate {α : Type} (hs : P .terminate) : Emits P (terminate : M α) :=
  emits_push hs fun _ => rfl

theorem emits_driver_call (env : Env) {s : Step} (hs : P s) : Emits P (driver_call env s) :=
  emits_push hs fun _ => rfl

theorem emits_suggest_group_size (env : Env) (function x y z : Nat)
    (hs : P (.xeFunctionSuggestGroupSize function x y z)) :
    Emits P (suggest_group_size env function x y z) :=
  emits_push hs fun _ => rfl

theorem emits_period_minus_overhead (env : Env) (hs : ∀ v, P (.period_minus_overhead v)) :
    Emits P (period_minus_overhead env) :=
  fun w => ⟨[.period_minus_overhead (env.period_minus_overhead w.steps)], rfl, fun x hx => by
    rw [List.mem_singleton] at hx
    rw [hx]
    exact hs _⟩

theorem emits_divide (a b : Nat) : Emits P (divide a b) := by
  intro w
  refine ⟨[], ?_, fun _ h => absurd h (List.not_mem_nil _)⟩
  unfold divide
  split <;> rw [List.append_nil]

theorem emits_bind {α β : Type} {m : M α} {f : α → M β} (hm : Emits P m)
    (hf : ∀ a, Emits P (f a)) : Emits P (m >>= f) := by
  intro w
  obtain ⟨t, ht, hP⟩ := hm w
  rw [run_bind]
  rcases hmw : m w with ⟨r, w1⟩
  rw [hmw] at ht
  cases r with
  | ok a =>
    obtain ⟨t', ht', hP'⟩ := hf a w1
    refine ⟨t ++ t', ?_, ?_⟩
    · show ((f a) w1).2.trace = _
      rw [ht', ht, List.append_assoc]
    · intro s hs
      rcases List.mem_append.1 hs with h | h
      · exact hP s h
      · exact hP' s h
  | error e => exact ⟨t, ht, hP⟩

theorem emits_bind_stops {α β : Type} {m : M α} {f : α → M β} (hm : Emits P m)
    (hstop : Stops m) : Emits P (m >>= f) := by
  intro w
  obtain ⟨t, ht, hP⟩ := hm w
  obtain ⟨e, he⟩ := hstop w
  rw [run_bind]
  rcases hmw : m w with ⟨r, w1⟩
  rw [hmw] at ht he
  cases r with
  | ok a => simp at he
  | error e => exact ⟨t, ht, hP⟩

theorem emits_success_or_terminate (result : Nat) (hs : P .terminate) :
    Emits P (success_or_terminate result) := by
  unfold success_or_terminate
  split
  · exact emits_pure _
  · exact emits_terminate hs

theorem emits_app_call (env : Env) {s : Step} (hs : P s) (ht : P .terminate) :
    Emits P (app_call env s) :=
  emits_bind (emits_driver_call env hs) fun _ => emits_success_or_terminate _ ht

theorem emits_app_create (env : Env) {s : Step} (hs : P s) (ht : P .terminate) :
    Emits P (app_create env s) := by
  intro w
  exact emits_bind (emits_driver_call env hs)
    (fun _ => emits_bind (emits_success_or_terminate _ ht) fun _ => emits_pure _) w

theorem emits_for_from {σ : Type} {body : Nat → σ → M σ} (hbody : ∀ i s, Emits P (body i s))
    (count start : Nat) (init : σ) : Emits P (for_from count start body init) := by
  induction count generalizing start init with
  | zero => exact emits_pure _
  | succ n ih => exact emits_bind (hbody _ _) fun _ => ih _ _

theorem emits_for_range {σ : Type} {body : Nat → σ → M σ} (hbody : ∀ i s, Emits P (body i s))
    (n : Nat) (init : σ) : Emits P (for_range n body init) :=
  emits_for_from hbody n 0 init

end EmitsRules

/-! ## Peer transfer harness: computations that never return -/

theorem stops_terminate {α : Type} : Stops (terminate : M α) :=
  fun _ => ⟨.terminated, rfl⟩

theorem stops_bind_left {α β : Type} {m : M α} (f : α → M β) (hm : Stops m) :
    Stops (m >>= f) := by
  intro w
  obtain ⟨e, he⟩ := hm w
  rw [run_bind]
  rcases hmw : m w with ⟨r, w1⟩
  rw [hmw] at he
  cases r with
  | ok a => simp at he
  | error e' => exact ⟨e', rfl⟩

theorem stops_bind_right {α β : Type} (m : M α) {f : α → M β} (hf : ∀ a, Stops (f a)) :
    Stops (m >>= f) := by
  intro w
  rw [run_bind]
  rcases m w with ⟨r, w1⟩
  cases r with
  | ok a => exact hf a w1
  | error e' => exact ⟨e', rfl⟩

theorem for_from_pos {σ : Type} {count : Nat} (h : 1 ≤ count) (start : Nat)
    (body : Nat → σ → M σ) (init : σ) :
    for_from count start body init =
      body start init >>= for_from (count - 1) (start + 1) body := by
  cases count with
  | zero => exact absurd h (by decide)
  | succ n => rfl

theorem stops_for_from {σ : Type} {body : Nat → σ → M σ} (hbody : ∀ i s, Stops (body i s))
    (count start : Nat) (init : σ) : Stops (for_from (count + 1) start body init) :=
  stops_bind_left _ (hbody _ _)

/-! ## Peer transfer harness: what the parts of a benchmark emit -/

section EmitsParts

variable {P : Step → Prop}

theorem emits_copy_function_setup
    (hq : ∀ s : Step, s.is_memory = false → s.is_work = false → P s) (env : Env)
    (module : Handle) (function_name : String) (x y z : Nat) :
    Emits P (_copy_function_setup env module function_name x y z) := by
  unfold _copy_function_setup
  refine emits_bind (emits_app_create env (hq _ rfl rfl) (hq _ rfl rfl)) fun function => ?_
  refine emits_bind (emits_suggest_group_size env _ _ _ _ (hq _ rfl rfl)) fun r => ?_
  obtain ⟨result, gx, gy, gz⟩ := r
  dsimp only
  refine emits_bind (emits_success_or_terminate _ (hq _ rfl rfl)) fun _ => ?_
  refine emits_bind (emits_driver_call env (hq _ rfl rfl)) fun _ => ?_
  exact emits_bind (emits_success_or_terminate _ (hq _ rfl rfl)) fun _ => emits_pure _

theorem emits_copy_function_cleanup
    (hq : ∀ s : Step, s.is_memory = false → s.is_work = false → P s) (env : Env)
    (function : Handle) : Emits P (_copy_function_cleanup env function) :=
  emits_app_call env (hq _ rfl rfl) (hq _ rfl rfl)

theorem emits_set_argument (hs : ∀ s : Step, s.is_memory = false → s.is_report = false → P s) (env : Env)
    (function : Handle) (index : Nat) (buffer : Handle) :
    Emits P (set_argument env function index buffer) :=
  emits_bind (emits_driver_call env (hs _ rfl rfl)) fun _ =>
    emits_success_or_terminate _ (hs _ rfl rfl)

theorem emits_append_launch (hs : ∀ s : Step, s.is_memory = false → s.is_report = false → P s) (env : Env)
    (command_list_a function : Handle) (groupCountX : Nat) :
    Emits P (append_launch env command_list_a function groupCountX) :=
  emits_bind (emits_driver_call env (hs _ rfl rfl)) fun _ => emits_pure _

theorem emits_bind_and_append (hs : ∀ s : Step, s.is_memory = false → s.is_report = false → P s) (metric : Metric)
    (env : Env) (bidirectional : Bool) (transfer_type : peer_transfer_t)
    (function_a function_b buffer_i buffer_j command_list_a : Handle) (groupCountX : Nat) :
    Emits P (bind_and_append metric env bidirectional transfer_type function_a function_b
      buffer_i buffer_j command_list_a groupCountX) := by
  unfold bind_and_append
  cases bidirectional
  · simp only [Bool.false_eq_true, if_false]
    refine emits_bind ?_ fun _ => emits_append_launch hs _ _ _ _
    unfold bind_unidirectional
    cases transfer_type
    · exact emits_bind (emits_emit (hs _ rfl rfl)) fun _ => emits_terminate (hs _ rfl rfl)
    · exact emits_bind (emits_set_argument hs _ _ _ _) fun _ => emits_set_argument hs _ _ _ _
    · exact emits_bind (emits_set_argument hs _ _ _ _) fun _ => emits_set_argument hs _ _ _ _
  · simp only [if_true]
    refine emits_bind (emits_set_argument hs _ _ _ _) fun _ => ?_
    refine emits_bind (emits_set_argument hs _ _ _ _) fun _ => ?_
    refine emits_bind (emits_set_argument hs _ _ _ _) fun _ => ?_
    refine emits_bind (emits_set_argument hs _ _ _ _) fun _ => ?_
    exact emits_bind (emits_append_launch hs _ _ _ _) fun _ => emits_append_launch hs _ _ _ _

theorem emits_execute_and_synchronize (hs : ∀ s : Step, s.is_memory = false → s.is_report = false → P s) (env : Env)
    (command_queue_a command_list_a : Handle) :
    Emits P (execute_and_synchronize env command_queue_a command_list_a) :=
  emits_bind (emits_app_call env (hs _ rfl rfl) (hs _ rfl rfl)) fun _ =>
    emits_app_call env (hs _ rfl rfl) (hs _ rfl rfl)

theorem emits_result_line_not_memory (metric : Metric) (buffer_size : Nat)
    (bidirectional : Bool) (transfer_type : peer_transfer_t) (i j : Nat) (period : Int) :
    (result_line metric buffer_size bidirectional transfer_type i j period).is_memory =
      false := by
  cases metric <;> rfl

theorem emits_measure_pair (hm : ∀ s : Step, s.is_memory = false → P s) (metric : Metric)
    (env : Env) (buffer_size : Nat) (bidirectional : Bool) (transfer_type : peer_transfer_t)
    (function_a function_b buffer_i command_list_a command_queue_a : Handle)
    (groupCountX : Nat) (buffers : Nat → Handle) (i j : Nat) :
    Emits P (measure_pair metric env buffer_size bidirectional transfer_type function_a
      function_b buffer_i command_list_a command_queue_a groupCountX buffers i j) := by
  unfold measure_pair
  refine emits_bind (emits_bind_and_append (fun s h _ => hm s h) _ _ _ _ _ _ _ _ _ _) fun _ => ?_
  refine emits_bind (emits_app_call env (hm _ rfl) (hm _ rfl)) fun _ => ?_
  refine emits_bind (emits_for_range (fun _ _ => emits_execute_and_synchronize (fun s h _ => hm s h) _ _ _) _ _)
    fun _ => ?_
  refine emits_bind (emits_emit (hm _ rfl)) fun _ => ?_
  refine emits_bind (emits_for_range (fun _ _ => emits_execute_and_synchronize (fun s h _ => hm s h) _ _ _) _ _)
    fun _ => ?_
  refine emits_bind (emits_emit (hm _ rfl)) fun _ => ?_
  refine emits_bind (emits_period_minus_overhead env fun _ => hm _ rfl) fun _ => ?_
  exact emits_emit (hm _ (emits_result_line_not_memory _ _ _ _ _ _ _))

/-- The measurement of a device emits whatever its pairs emit, besides steps that are
neither memory operations nor work. -/
theorem emits_measure_device
    (hq : ∀ s : Step, s.is_memory = false → s.is_work = false → P s) (metric : Metric)
    (env : Env) (self : Peer) (buffer_size : Nat) (bidirectional : Bool)
    (transfer_type : peer_transfer_t) (buffers : Nat → Handle) (i : Nat)
    (hpair : ∀ function_a function_b buffer_i command_list_a command_queue_a groupCountX j,
      Emits P (measure_pair metric env buffer_size bidirectional transfer_type function_a
        function_b buffer_i command_list_a command_queue_a groupCountX buffers i j)) :
    Emits P (measure_device metric env self buffer_size bidirectional transfer_type buffers
      i) := by
  unfold measure_device
  refine emits_bind (emits_copy_function_setup hq _ _ _ _ _ _) fun r => ?_
  obtain ⟨function_a, gx, gy, gz⟩ := r
  dsimp only
  refine emits_bind ?_ fun r => ?_
  · cases bidirectional
    · exact emits_pure _
    · exact emits_copy_function_setup hq _ _ _ _ _ _
  obtain ⟨function_b, gx', gy', gz'⟩ := r
  dsimp only
  refine emits_bind (emits_divide _ _) fun _ => ?_
  refine emits_bind (emits_for_range (fun _ _ => hpair _ _ _ _ _ _ _) _ _) fun _ => ?_
  refine emits_bind (emits_copy_function_cleanup hq _ _) fun _ => ?_
  cases bidirectional
  · exact emits_pure _
  · exact emits_copy_function_cleanup hq _ _

end EmitsParts

/-! ## Peer transfer harness: the allocation and the release of the buffers -/

/-- An allocation loop that returns took one allocation step per index, in order, and
stored in each slot the pointer written by its step. -/
theorem allocate_loop_ok_inv (env : Env) (self : Peer) (buffer_size : Nat) (count : Nat) :
    ∀ (start : Nat) (buffers buffers' : Nat → Handle) (w w' : World),
      for_from count start (allocate_buffer env self buffer_size) buffers w =
        (.ok buffers', w') →
      w'.steps = w.steps + count ∧
      w'.trace = w.trace ++ (List.range' start count).map (alloc_step self buffer_size) ∧
      (∀ k, k < count → buffers' (start + k) = env.handle (w.steps + k)) ∧
      (∀ i, i < start → buffers' i = buffers i) := by
  induction count with
  | zero =>
    intro start buffers buffers' w w' h
    simp only [for_from, run_pure] at h
    obtain ⟨hb, hw⟩ := Prod.mk.inj h
    have hb' := Except.ok.inj hb
    subst hb' hw
    refine ⟨rfl, by simp, fun k hk => absurd hk (Nat.not_lt_zero _), fun _ _ => rfl⟩
  | succ n ih =>
    intro start buffers buffers' w w' h
    unfold for_from at h
    obtain ⟨b1, w1, hbody, hrest⟩ := bind_ok_inv h
    unfold allocate_buffer at hbody
    obtain ⟨a, w0, hcreate, hpure⟩ := bind_ok_inv hbody
    obtain ⟨_, ha, hw0⟩ := app_create_ok_inv hcreate
    rw [run_pure] at hpure
    obtain ⟨hb1, hw1⟩ := Prod.mk.inj hpure
    have hb1' := Except.ok.inj hb1
    subst hb1' hw1 hw0 ha
    obtain ⟨hsteps, htrace, hnew, hold⟩ := ih (start + 1) _ buffers' _ w' hrest
    refine ⟨?_, ?_, ?_, ?_⟩
    · rw [hsteps]
      simp only [World.push]
      omega
    · rw [htrace, List.range'_succ, List.map_cons]
      simp only [World.push, alloc_step, List.append_assoc, List.cons_append, List.nil_append]
    · intro k hk
      cases k with
      | zero =>
        rw [Nat.add_zero, hold start (Nat.lt_succ_self _), Function.update_same, Nat.add_zero]
      | succ k =>
        have := hnew k (by omega)
        simp only [World.push] at this
        rw [show start + (k + 1) = start + 1 + k by omega, this]
        congr 1
        omega
    · intro i hi
      rw [hold i (by omega), Function.update_noteq (by omega)]

/-- A release loop that returns took one release step per index, in order. -/
theorem free_loop_ok_inv (env : Env) (self : Peer) (buffers : Nat → Handle) (count : Nat) :
    ∀ (start : Nat) (w w' : World),
      for_from count start (fun i _ => free_buffer env self buffers i) () w = (.ok (), w') →
      w'.trace = w.trace ++ (List.range' start count).map
        (fun i => Step.memoryFree self.device_group (buffers i)) := by
  induction count with
  | zero =>
    intro start w w' h
    simp only [for_from, run_pure] at h
    rw [← (Prod.mk.inj h).2]
    simp
  | succ n ih =>
    intro start w w' h
    unfold for_from at h
    obtain ⟨_, w1, hbody, hrest⟩ := bind_ok_inv h
    unfold free_buffer at hbody
    obtain ⟨_, hw1⟩ := app_call_ok_inv hbody
    subst hw1
    rw [ih (start + 1) _ w' hrest, List.range'_succ, List.map_cons]
    simp only [World.push, List.append_assoc, List.cons_append, List.nil_append]

/-- C10: every call of `XePeer::bandwidth` or `XePeer::latency` (the two instances of
`benchmark`) that returns normally on `n` devices issues exactly `n` `memoryAlloc`
calls, one per device and before every other step, then steps none of which allocates
or frees, then exactly `n` `memoryFree` calls, one per allocated buffer and after every
other step: the count does not depend on the `n * n` pairs measured. -/
theorem benchmark_allocates_and_frees_once (metric : Metric) (env : Env) (self : Peer)
    (element_size : Nat) (bidirectional : Bool) (transfer_type : peer_transfer_t)
    (w w' : World)
    (h : benchmark metric env self element_size bidirectional transfer_type w = (.ok (), w')) :
    ∃ measured : List Step,
      w'.trace = w.trace ++
        (List.range self.device_count).map
          (alloc_step self (size_mul element_size metric.number_buffer_elements)) ++
        measured ++
        (List.range self.device_count).map
          (fun i => Step.memoryFree self.device_group (env.handle (w.steps + i))) ∧
      (∀ s ∈ measured, s.is_memory = false) ∧
      ((List.range self.device_count).map
        (alloc_step self (size_mul element_size metric.number_buffer_elements))).length =
        self.device_count ∧
      ((List.range self.device_count).map
        (fun i => Step.memoryFree self.device_group (env.handle (w.steps + i)))).length =
        self.device_count := by
  unfold benchmark at h
  obtain ⟨buffers, w1, halloc, h⟩ := bind_ok_inv h
  obtain ⟨_, w2, hmeasure, hfree⟩ := bind_ok_inv h
  obtain ⟨_, htrace1, hbuf, _⟩ := allocate_loop_ok_inv env self _ _ 0 _ buffers w w1 halloc
  have htrace3 := free_loop_ok_inv env self buffers _ 0 w2 w' hfree
  have hmid : Emits (fun s => s.is_memory = false)
      (for_range self.device_count
        (fun i _ => measure_device metric env self
          (size_mul element_size metric.number_buffer_elements) bidirectional transfer_type
          buffers i) ()) :=
    emits_for_range (fun i _ => emits_measure_device (fun _ hm _ => hm) metric env self _ _ _
      buffers i fun _ _ _ _ _ _ _ => emits_measure_pair (fun _ hm => hm) _ _ _ _ _ _ _ _ _ _
        _ _ _ _) _ _
  obtain ⟨measured, htrace2, hmem⟩ := hmid w1
  rw [hmeasure] at htrace2
  refine ⟨measured, ?_, hmem, by simp, by simp⟩
  rw [htrace3, htrace2, htrace1, List.range_eq_range']
  congr 1
  apply List.map_congr_left
  intro i hi
  have hi' : i < self.device_count := by
    have := List.mem_range'_1.1 hi
    omega
  have := hbuf i hi'
  rw [Nat.zero_add] at this
  rw [this]

/-- Witness of C10: the unidirectional write of `bandwidth` on the two sample devices. -/
theorem benchmark_allocates_and_frees_once_witness :
    (benchmark .bandwidth sample_env sample_peer 8 false .PEER_WRITE World.initial =
      (.ok (), sample_bandwidth_run.2)) ∧
    ∃ measured : List Step,
      sample_bandwidth_run.2.trace = World.initial.trace ++
        (List.range sample_peer.device_count).map
          (alloc_step sample_peer (size_mul 8 Metric.bandwidth.number_buffer_elements)) ++
        measured ++
        (List.range sample_peer.device_count).map
          (fun i => Step.memoryFree sample_peer.device_group
            (sample_env.handle (World.initial.steps + i))) ∧
      (∀ s ∈ measured, s.is_memory = false) ∧
      ((List.range sample_peer.device_count).map
        (alloc_step sample_peer (size_mul 8 Metric.bandwidth.number_buffer_elements))).length =
        sample_peer.device_count ∧
      ((List.range sample_peer.device_count).map
        (fun i => Step.memoryFree sample_peer.device_group
          (sample_env.handle (World.initial.steps + i)))).length =
        sample_peer.device_count :=
  ⟨rfl, benchmark_allocates_and_frees_once .bandwidth sample_env sample_peer 8 false
    .PEER_WRITE World.initial sample_bandwidth_run.2 rfl⟩

/-! ## Peer transfer harness: an invalid transfer type -/

theorem bind_unidirectional_invalid_run (metric : Metric) (env : Env)
    (function_a buffer_i buffer_j : Handle) (w : World) :
    bind_unidirectional metric env .PEER_NONE function_a buffer_i buffer_j w =
      (.error .terminated, (w.push (.cerr metric.invalid_message)).push .terminate) := rfl

/-- The measurement of a pair in a unidirectional call with an invalid transfer type
writes the error message and terminates, before any other step. -/
theorem measure_pair_invalid_run (metric : Metric) (env : Env) (buffer_size : Nat)
    (function_a function_b buffer_i command_list_a command_queue_a : Handle)
    (groupCountX : Nat) (buffers : Nat → Handle) (i j : Nat) (w : World) :
    measure_pair metric env buffer_size false .PEER_NONE function_a function_b buffer_i
        command_list_a command_queue_a groupCountX buffers i j w =
      (.error .terminated, (w.push (.cerr metric.invalid_message)).push .terminate) := rfl

theorem stops_measure_pair_invalid (metric : Metric) (env : Env) (buffer_size : Nat)
    (function_a function_b buffer_i command_list_a command_queue_a : Handle)
    (groupCountX : Nat) (buffers : Nat → Handle) (i j : Nat) :
    Stops (measure_pair metric env buffer_size false .PEER_NONE function_a function_b buffer_i
      command_list_a command_queue_a groupCountX buffers i j) :=
  fun w => ⟨.terminated, by rw [measure_pair_invalid_run]⟩

theorem emits_measure_pair_invalid {P : Step → Prop}
    (hq : ∀ s : Step, s.is_memory = false → s.is_work = false → P s) (metric : Metric)
    (env : Env) (buffer_size : Nat)
    (function_a function_b buffer_i command_list_a command_queue_a : Handle)
    (groupCountX : Nat) (buffers : Nat → Handle) (i j : Nat) :
    Emits P (measure_pair metric env buffer_size false .PEER_NONE function_a function_b
      buffer_i command_list_a command_queue_a groupCountX buffers i j) := by
  intro w
  refine ⟨[.cerr metric.invalid_message, .terminate], ?_, ?_⟩
  · rw [measure_pair_invalid_run]
    simp only [World.push, List.append_assoc, List.cons_append, List.nil_append]
  · intro s hs
    rcases List.mem_cons.1 hs with h | h
    · rw [h]
      exact hq _ rfl rfl
    · rw [List.mem_singleton.1 h]
      exact hq _ rfl rfl

/-- With at least one device, the measurement of a device in a unidirectional call with
an invalid transfer type never returns. -/
theorem stops_measure_device_invalid (metric : Metric) (env : Env) (self : Peer)
    (buffer_size : Nat) (buffers : Nat → Handle) (i : Nat) (hn : 1 ≤ self.device_count) :
    Stops (measure_device metric env self buffer_size false .PEER_NONE buffers i) := by
  obtain ⟨n, hn'⟩ : ∃ n, self.device_count = n + 1 := ⟨self.device_count - 1, by omega⟩
  unfold measure_device
  refine stops_bind_right _ fun r => ?_
  obtain ⟨function_a, gx, gy, gz⟩ := r
  dsimp only
  refine stops_bind_right _ fun r => ?_
  obtain ⟨function_b, gx', gy', gz'⟩ := r
  dsimp only
  refine stops_bind_right _ fun _ => ?_
  refine stops_bind_left _ ?_
  rw [hn']
  exact stops_for_from (fun _ _ => stops_measure_pair_invalid _ _ _ _ _ _ _ _ _ _ _ _) n 0 ()

/-- In a session whose operations succeed the allocation loop returns after one
allocation step per index. -/
theorem allocate_loop_ok {env : Env} (hres : ∀ k, env.result k = 0) (self : Peer)
    (buffer_size : Nat) (count : Nat) :
    ∀ (start : Nat) (buffers : Nat → Handle) (w : World),
      ∃ buffers', for_from count start (allocate_buffer env self buffer_size) buffers w =
        (.ok buffers', ⟨w.steps + count,
          w.trace ++ (List.range' start count).map (alloc_step self buffer_size)⟩) := by
  induction count with
  | zero =>
    intro start buffers w
    exact ⟨buffers, by simp [for_from, run_pure]⟩
  | succ n ih =>
    intro start buffers w
    have hbody : allocate_buffer env self buffer_size start buffers w =
        (.ok (Function.update buffers start (env.handle w.steps)),
          w.push (alloc_step self buffer_size start)) := by
      unfold allocate_buffer
      rw [run_bind_ok (app_create_ok _ _ (hres _))]
      rfl
    obtain ⟨buffers', h⟩ := ih (start + 1) (Function.update buffers start (env.handle w.steps))
      (w.push (alloc_step self buffer_size start))
    refine ⟨buffers', ?_⟩
    unfold for_from
    rw [run_bind_ok hbody, h, List.range'_succ, List.map_cons]
    simp only [World.push, List.append_assoc, List.cons_append, List.nil_append,
      Nat.add_assoc, Nat.add_comm 1 n]

theorem copy_function_setup_ok {env : Env} (hres : ∀ k, env.result k = 0) (module : Handle)
    (function_name : String) (x y z : Nat) (w : World) :
    _copy_function_setup env module function_name x y z w =
      (.ok (env.handle w.steps, env.group_size (w.steps + 1)),
        ((w.push (.functionCreate module function_name)).push
          (.xeFunctionSuggestGroupSize (env.handle w.steps) x y z)).push
          (.xeFunctionSetGroupSize (env.handle w.steps) (env.group_size (w.steps + 1)).1
            (env.group_size (w.steps + 1)).2.1 (env.group_size (w.steps + 1)).2.2)) := by
  unfold _copy_function_setup
  rw [run_bind_ok (app_create_ok _ _ (hres _))]
  simp only [run_bind, suggest_group_size, driver_call_run, hres, success_or_terminate_zero,
    run_pure, World.push]

theorem divide_ok {a b : Nat} (h : b ≠ 0) (w : World) : divide a b w = (.ok (a / b), w) := by
  unfold divide
  rw [if_neg h]

/-- In a session whose operations succeed and suggest a non-zero group size, the
measurement of a device in a unidirectional call with an invalid transfer type sets up
its copy kernel, writes the error message and terminates. -/
theorem measure_device_invalid_run {env : Env} (hres : ∀ k, env.result k = 0)
    (hgs : ∀ k, (env.group_size k).1 ≠ 0) (metric : Metric) (self : Peer) (buffer_size : Nat)
    (buffers : Nat → Handle) (i : Nat) (hn : 1 ≤ self.device_count) (w : World) :
    measure_device metric env self buffer_size false .PEER_NONE buffers i w =
      (.error .terminated, ⟨w.steps + 5, w.trace ++
        [.functionCreate (self.device_contexts i).module "single_copy_peer_to_peer",
          .xeFunctionSuggestGroupSize (env.handle w.steps) metric.number_buffer_elements 1 1,
          .xeFunctionSetGroupSize (env.handle w.steps) (env.group_size (w.steps + 1)).1
            (env.group_size (w.steps + 1)).2.1 (env.group_size (w.steps + 1)).2.2,
          .cerr metric.invalid_message, .terminate]⟩) := by
  obtain ⟨n, hn'⟩ : ∃ n, self.device_count = n + 1 := ⟨self.device_count - 1, by omega⟩
  unfold measure_device
  rw [run_bind_ok (copy_function_setup_ok hres _ _ _ _ _ _)]
  simp only [Bool.false_eq_true, if_false]
  rw [run_bind_ok (run_pure _ _)]
  dsimp only
  rw [run_bind_ok (divide_ok (hgs _) _), hn']
  unfold for_range for_from
  rw [run_bind_error (run_bind_error (measure_pair_invalid_run _ _ _ _ _ _ _ _ _ _ _ _ _))]
  simp only [World.push, List.append_assoc, List.cons_append, List.nil_append]

theorem emits_allocate_buffer {P : Step → Prop}
    (hw : ∀ s : Step, s.is_work = false → P s) (env : Env) (self : Peer) (buffer_size : Nat)
    (i : Nat) (buffers : Nat → Handle) :
    Emits P (allocate_buffer env self buffer_size i buffers) :=
  emits_bind (emits_app_create env (hw _ rfl) (hw _ rfl)) fun _ => emits_pure _

theorem emits_free_buffer {P : Step → Prop}
    (hw : ∀ s : Step, s.is_work = false → P s) (env : Env) (self : Peer)
    (buffers : Nat → Handle) (i : Nat) : Emits P (free_buffer env self buffers i) :=
  emits_app_call env (hw _ rfl) (hw _ rfl)

/-- C9: on a device group with at least one device, a call of `XePeer::bandwidth` or
`XePeer::latency` (the two instances of `benchmark`) with `bidirectional = false` and a
transfer type that is neither `PEER_WRITE` nor `PEER_READ` never returns normally, and
no step it takes appends a kernel launch, executes a command list or prints a result
line; in a session whose operations succeed and suggest a non-zero group size it ends
by `std::terminate` at the first pair, right after the buffers are allocated, the copy
kernel of device 0 is set up and the error message is written. -/
theorem invalid_transfer_type_terminates (metric : Metric) (env : Env) (self : Peer)
    (element_size : Nat) (transfer_type : peer_transfer_t) (w : World)
    (hn : 1 ≤ self.device_count) (hwrite : transfer_type ≠ .PEER_WRITE)
    (hread : transfer_type ≠ .PEER_READ) :
    (∃ e, (benchmark metric env self element_size false transfer_type w).1 = .error e) ∧
    (∃ t, (benchmark metric env self element_size false transfer_type w).2.trace =
        w.trace ++ t ∧ ∀ s ∈ t, s.is_work = false) ∧
    ((∀ k, env.result k = 0) → (∀ k, (env.group_size k).1 ≠ 0) →
      benchmark metric env self element_size false transfer_type w =
        (.error .terminated, ⟨w.steps + self.device_count + 5, w.trace ++
          (List.range self.device_count).map
            (alloc_step self (size_mul element_size metric.number_buffer_elements)) ++
          [.functionCreate (self.device_contexts 0).module "single_copy_peer_to_peer",
            .xeFunctionSuggestGroupSize (env.handle (w.steps + self.device_count))
              metric.number_buffer_elements 1 1,
            .xeFunctionSetGroupSize (env.handle (w.steps + self.device_count))
              (env.group_size (w.steps + self.device_count + 1)).1
              (env.group_size (w.steps + self.device_count + 1)).2.1
              (env.group_size (w.steps + self.device_count + 1)).2.2,
            .cerr metric.invalid_message, .terminate]⟩)) := by
  have ht : transfer_type = .PEER_NONE := by
    cases transfer_type
    · rfl
    · exact absurd rfl hwrite
    · exact absurd rfl hread
  subst ht
  obtain ⟨n, hn'⟩ : ∃ n, self.device_count = n + 1 := ⟨self.device_count - 1, by omega⟩
  refine ⟨?_, ?_, ?_⟩
  · have hstop : Stops (benchmark metric env self element_size false .PEER_NONE) := by
      unfold benchmark
      refine stops_bind_right _ fun buffers => stops_bind_left _ ?_
      unfold for_range
      rw [hn']
      exact stops_for_from (fun i _ => stops_measure_device_invalid _ _ _ _ _ i hn) n 0 ()
    exact hstop w
  · have hemit : Emits (fun s => s.is_work = false)
        (benchmark metric env self element_size false .PEER_NONE) := by
      unfold benchmark
      refine emits_bind (emits_for_range
        (fun _ _ => emits_allocate_buffer (fun _ h => h) _ _ _ _ _) _ _) fun buffers => ?_
      refine emits_bind (emits_for_range (fun i _ => emits_measure_device (fun _ _ h => h)
        metric env self _ false .PEER_NONE buffers i fun _ _ _ _ _ _ _ =>
          emits_measure_pair_invalid (fun _ _ h => h) _ _ _ _ _ _ _ _ _ _ _ _) _ _) fun _ => ?_
      exact emits_for_range (fun _ _ => emits_free_buffer (fun _ h => h) _ _ _ _) _ _
    exact hemit w
  · intro hres hgs
    obtain ⟨buffers', halloc⟩ := allocate_loop_ok hres self
      (size_mul element_size metric.number_buffer_elements) self.device_count 0 (fun _ => 0) w
    unfold benchmark for_range
    rw [run_bind_ok halloc, for_from_pos hn]
    rw [run_bind_error (run_bind_error
      (measure_device_invalid_run hres hgs metric self _ buffers' 0 hn _)),
      List.range_eq_range']

/-- Witness of C9: a unidirectional `latency` call with `PEER_NONE` on the two sample
devices. -/
theorem invalid_transfer_type_terminates_witness :
    (1 ≤ sample_peer.device_count ∧ peer_transfer_t.PEER_NONE ≠ .PEER_WRITE ∧
      peer_transfer_t.PEER_NONE ≠ .PEER_READ) ∧
    (∃ e, (benchmark .latency sample_env sample_peer 8 false .PEER_NONE World.initial).1 =
      .error e) ∧
    (∃ t, (benchmark .latency sample_env sample_peer 8 false .PEER_NONE World.initial).2.trace =
        World.initial.trace ++ t ∧ ∀ s ∈ t, s.is_work = false) ∧
    ((∀ k, sample_env.result k = 0) → (∀ k, (sample_env.group_size k).1 ≠ 0) →
      benchmark .latency sample_env sample_peer 8 false .PEER_NONE World.initial =
        (.error .terminated, ⟨World.initial.steps + sample_peer.device_count + 5,
          World.initial.trace ++
          (List.range sample_peer.device_count).map
            (alloc_step sample_peer (size_mul 8 Metric.latency.number_buffer_elements)) ++
          [.functionCreate (sample_peer.device_contexts 0).module "single_copy_peer_to_peer",
            .xeFunctionSuggestGroupSize
              (sample_env.handle (World.initial.steps + sample_peer.device_count))
              Metric.latency.number_buffer_elements 1 1,
            .xeFunctionSetGroupSize
              (sample_env.handle (World.initial.steps + sample_peer.device_count))
              (sample_env.group_size (World.initial.steps + sample_peer.device_count + 1)).1
              (sample_env.group_size (World.initial.steps + sample_peer.device_count + 1)).2.1
              (sample_env.group_size (World.initial.steps + sample_peer.device_count + 1)).2.2,
            .cerr Metric.latency.invalid_message, .terminate]⟩)) :=
  ⟨⟨by decide, by decide, by decide⟩,
    invalid_transfer_type_terminates .latency sample_env sample_peer 8 .PEER_NONE
      World.initial (by decide) (by decide) (by decide)⟩

/-! ## Peer transfer harness: the steps of a measured pair -/

theorem set_argument_ok_inv {env : Env} {function : Handle} {index : Nat} {buffer : Handle}
    {w w' : World} (h : set_argument env function index buffer w = (.ok (), w')) :
    w' = w.push (.xeFunctionSetArgumentValue function index buffer) :=
  (app_call_ok_inv h).2

theorem append_launch_run (env : Env) (command_list_a function : Handle) (groupCountX : Nat)
    (w : World) :
    append_launch env command_list_a function groupCountX w =
      (.ok (), w.push (.xeCommandListAppendLaunchFunction command_list_a function
        groupCountX 1 1)) := rfl

theorem ok_world_eq {w1 w2 : World} (h : ((.ok (), w1) : Except Stop Unit × World) = (.ok (), w2)) :
    w2 = w1 :=
  (Prod.mk.inj h).2.symm

/-- A binding of the arguments that returns took exactly the steps of
`binding_steps`. -/
theorem bind_and_append_ok_inv {metric : Metric} {env : Env} {bidirectional : Bool}
    {transfer_type : peer_transfer_t}
    {function_a function_b buffer_i buffer_j command_list_a : Handle} {groupCountX : Nat}
    {w w' : World}
    (h : bind_and_append metric env bidirectional transfer_type function_a function_b buffer_i
      buffer_j command_list_a groupCountX w = (.ok (), w')) :
    w'.trace = w.trace ++ binding_steps bidirectional transfer_type function_a function_b
      buffer_i buffer_j command_list_a groupCountX := by
  unfold bind_and_append at h
  cases bidirectional
  · simp only [Bool.false_eq_true, if_false] at h
    obtain ⟨_, w1, h1, h⟩ := bind_ok_inv h
    rw [append_launch_run] at h
    have hw' := ok_world_eq h
    subst hw'
    unfold bind_unidirectional at h1
    cases transfer_type
    · simp [run_bind, emit, terminate] at h1
    · obtain ⟨_, w2, h2, h3⟩ := bind_ok_inv h1
      have e2 := set_argument_ok_inv h2
      have e3 := set_argument_ok_inv h3
      subst e2 e3
      simp only [World.push, binding_steps, Bool.false_eq_true, if_false, List.append_assoc,
        List.cons_append, List.nil_append]
    · obtain ⟨_, w2, h2, h3⟩ := bind_ok_inv h1
      have e2 := set_argument_ok_inv h2
      have e3 := set_argument_ok_inv h3
      subst e2 e3
      simp only [World.push, binding_steps, Bool.false_eq_true, if_false, List.append_assoc,
        List.cons_append, List.nil_append]
  · simp only [if_true] at h
    obtain ⟨_, w1, h1, h⟩ := bind_ok_inv h
    obtain ⟨_, w2, h2, h⟩ := bind_ok_inv h
    obtain ⟨_, w3, h3, h⟩ := bind_ok_inv h
    obtain ⟨_, w4, h4, h⟩ := bind_ok_inv h
    obtain ⟨_, w5, h5, h⟩ := bind_ok_inv h
    rw [append_launch_run] at h h5
    have e1 := set_argument_ok_inv h1
    have e2 := set_argument_ok_inv h2
    have e3 := set_argument_ok_inv h3
    have e4 := set_argument_ok_inv h4
    have e5 := ok_world_eq h5
    have e6 := ok_world_eq h
    subst e1 e2 e3 e4 e5 e6
    simp only [World.push, binding_steps, if_true, List.append_assoc, List.cons_append,
      List.nil_append]

/-- A loop of executions that returns took the two steps of an execution each time. -/
theorem execute_loop_ok_inv (env : Env) (command_queue_a command_list_a : Handle)
    (count : Nat) :
    ∀ (start : Nat) (w w' : World),
      for_from count start
        (fun _ _ => execute_and_synchronize env command_queue_a command_list_a) () w =
        (.ok (), w') →
      w'.trace = w.trace ++ iterations count (execute_steps command_queue_a command_list_a) := by
  induction count with
  | zero =>
    intro start w w' h
    simp only [for_from, run_pure] at h
    rw [ok_world_eq h]
    simp [iterations]
  | succ n ih =>
    intro start w w' h
    unfold for_from at h
    obtain ⟨_, w1, hbody, hrest⟩ := bind_ok_inv h
    unfold execute_and_synchronize at hbody
    obtain ⟨_, w0, h1, h2⟩ := bind_ok_inv hbody
    obtain ⟨_, e1⟩ := app_call_ok_inv h1
    obtain ⟨_, e2⟩ := app_call_ok_inv h2
    subst e1 e2
    rw [ih (start + 1) _ w' hrest]
    simp only [World.push, iterations, execute_steps, List.append_assoc, List.cons_append,
      List.nil_append]

/-- A measured pair that returns took exactly the steps of `pair_steps`, for the
reading of the timer made right after the timed region: the answer of the session at
the step `k` that follows the end of the timer. -/
theorem measure_pair_ok_inv {metric : Metric} {env : Env} {buffer_size : Nat}
    {bidirectional : Bool} {transfer_type : peer_transfer_t}
    {function_a function_b buffer_i command_list_a command_queue_a : Handle}
    {groupCountX : Nat} {buffers : Nat → Handle} {i j : Nat} {w w' : World}
    (h : measure_pair metric env buffer_size bidirectional transfer_type function_a function_b
      buffer_i command_list_a command_queue_a groupCountX buffers i j w = (.ok (), w')) :
    ∃ k : Nat, w'.trace = w.trace ++
      pair_steps metric buffer_size bidirectional transfer_type function_a function_b buffer_i
        (buffers j) command_list_a command_queue_a groupCountX i j
        (env.period_minus_overhead k) := by
  unfold measure_pair at h
  obtain ⟨_, w1, h1, h⟩ := bind_ok_inv h
  obtain ⟨_, w2, h2, h⟩ := bind_ok_inv h
  obtain ⟨_, w3, h3, h⟩ := bind_ok_inv h
  obtain ⟨_, w4, h4, h⟩ := bind_ok_inv h
  obtain ⟨_, w5, h5, h⟩ := bind_ok_inv h
  refine ⟨w5.steps + 1, ?_⟩
  have hw : w' = ((w5.push .timer_end).push
      (.period_minus_overhead (env.period_minus_overhead (w5.steps + 1)))).push
      (result_line metric buffer_size bidirectional transfer_type i j
        (env.period_minus_overhead (w5.steps + 1))) :=
    (Prod.mk.inj h).2.symm
  have t1 := bind_and_append_ok_inv h1
  obtain ⟨_, e2⟩ := app_call_ok_inv h2
  have t3 := execute_loop_ok_inv env _ _ _ 0 w2 w3 h3
  have e4 : w4 = w3.push .timer_start := ok_world_eq h4
  have t5 := execute_loop_ok_inv env _ _ _ 0 w4 w5 h5
  rw [hw]
  simp only [World.push, pair_steps, t5, e4, t3, e2, t1, List.append_assoc, List.cons_append,
    List.nil_append]

/-! ## Peer transfer harness: every result line follows its timer reading -/

theorem reported_after_weaken (value : Int → double) (previous : Option Step) :
    ∀ t : List Step, reported_after value none t → reported_after value previous t
  | [], _ => trivial
  | s :: rest, h => by
    refine ⟨?_, h.2⟩
    have h1 := h.1
    cases s <;> first | trivial | (obtain ⟨_, hnone, _⟩ := h1; exact absurd hnone (by simp))

theorem reported_after_append (value : Int → double) :
    ∀ (t1 : List Step) (previous : Option Step) (t2 : List Step),
      reported_after value previous t1 → reported_after value none t2 →
      reported_after value previous (t1 ++ t2)
  | [], previous, t2, _, h2 => reported_after_weaken value previous t2 h2
  | s :: rest, _, t2, h1, h2 =>
    ⟨h1.1, reported_after_append value rest (some s) t2 h1.2 h2⟩

theorem reported_after_of_no_report (value : Int → double) :
    ∀ (t : List Step) (previous : Option Step), (∀ s ∈ t, s.is_report = false) →
      reported_after value previous t
  | [], _, _ => trivial
  | s :: rest, _, h => by
    refine ⟨?_, reported_after_of_no_report value rest (some s)
      fun x hx => h x (List.mem_cons_of_mem _ hx)⟩
    have hs := h s (List.mem_cons_self _ _)
    cases s <;> trivial

section ReportedRules

variable {value : Int → double}

theorem reported_of_emits {α : Type} {m : M α} (h : Emits (fun s => s.is_report = false) m) :
    EmitsList (reported_after value none) m := by
  intro w
  obtain ⟨t, ht, hP⟩ := h w
  exact ⟨t, ht, reported_after_of_no_report value t none hP⟩

theorem reported_bind {α β : Type} {m : M α} {f : α → M β}
    (hm : EmitsList (reported_after value none) m)
    (hf : ∀ a, EmitsList (reported_after value none) (f a)) :
    EmitsList (reported_after value none) (m >>= f) := by
  intro w
  obtain ⟨t, ht, hQ⟩ := hm w
  rw [run_bind]
  rcases hmw : m w with ⟨r, w1⟩
  rw [hmw] at ht
  cases r with
  | ok a =>
    obtain ⟨t', ht', hQ'⟩ := hf a w1
    refine ⟨t ++ t', ?_, reported_after_append value t none t' hQ hQ'⟩
    show ((f a) w1).2.trace = _
    rw [ht', ht, List.append_assoc]
  | error e => exact ⟨t, ht, hQ⟩

theorem reported_for_from {σ : Type} {body : Nat → σ → M σ}
    (hbody : ∀ i s, EmitsList (reported_after value none) (body i s))
    (count start : Nat) (init : σ) :
    EmitsList (reported_after value none) (for_from count start body init) := by
  induction count generalizing start init with
  | zero => exact reported_of_emits (emits_pure _)
  | succ n ih => exact reported_bind (hbody _ _) fun _ => ih _ _

end ReportedRules

theorem not_report_of_not_work (s : Step) (h : s.is_work = false) : s.is_report = false := by
  cases s <;> first | rfl | simp [Step.is_work] at h

/-- The last two statements of the measurement of a pair read the timer and print the
value computed from the reading. -/
theorem reported_read_and_report (metric : Metric) (env : Env) (buffer_size : Nat)
    (bidirectional : Bool) (transfer_type : peer_transfer_t) (i j : Nat) :
    EmitsList (reported_after (reported_value metric buffer_size bidirectional) none)
      (period_minus_overhead env >>= fun period =>
        report metric buffer_size bidirectional transfer_type i j period) := by
  intro w
  refine ⟨[.period_minus_overhead (env.period_minus_overhead w.steps),
    result_line metric buffer_size bidirectional transfer_type i j
      (env.period_minus_overhead w.steps)], ?_, ?_⟩
  · show (((w.push _).push _).trace = _)
    simp only [World.push, List.append_assoc, List.cons_append, List.nil_append]
  · cases metric
    · exact ⟨trivial, ⟨_, rfl, rfl⟩, trivial⟩
    · exact ⟨trivial, ⟨_, rfl, rfl⟩, trivial⟩

theorem reported_measure_pair (metric : Metric) (env : Env) (buffer_size : Nat)
    (bidirectional : Bool) (transfer_type : peer_transfer_t)
    (function_a function_b buffer_i command_list_a command_queue_a : Handle)
    (groupCountX : Nat) (buffers : Nat → Handle) (i j : Nat) :
    EmitsList (reported_after (reported_value metric buffer_size bidirectional) none)
      (measure_pair metric env buffer_size bidirectional transfer_type function_a function_b
        buffer_i command_list_a command_queue_a groupCountX buffers i j) := by
  unfold measure_pair
  refine reported_bind (reported_of_emits
    (emits_bind_and_append (fun _ _ h => h) _ _ _ _ _ _ _ _ _ _)) fun _ => ?_
  refine reported_bind (reported_of_emits (emits_app_call env rfl rfl)) fun _ => ?_
  refine reported_bind (reported_of_emits (emits_for_range
    (fun _ _ => emits_execute_and_synchronize (fun _ _ h => h) _ _ _) _ _)) fun _ => ?_
  refine reported_bind (reported_of_emits (emits_emit rfl)) fun _ => ?_
  refine reported_bind (reported_of_emits (emits_for_range
    (fun _ _ => emits_execute_and_synchronize (fun _ _ h => h) _ _ _) _ _)) fun _ => ?_
  refine reported_bind (reported_of_emits (emits_emit rfl)) fun _ => ?_
  exact reported_read_and_report metric env buffer_size bidirectional transfer_type i j

theorem reported_measure_device (metric : Metric) (env : Env) (self : Peer)
    (buffer_size : Nat) (bidirectional : Bool) (transfer_type : peer_transfer_t)
    (buffers : Nat → Handle) (i : Nat) :
    EmitsList (reported_after (reported_value metric buffer_size bidirectional) none)
      (measure_device metric env self buffer_size bidirectional transfer_type buffers i) := by
  have hq : ∀ s : Step, s.is_memory = false → s.is_work = false → s.is_report = false :=
    fun s _ h => not_report_of_not_work s h
  unfold measure_device
  refine reported_bind (reported_of_emits (emits_copy_function_setup hq _ _ _ _ _ _))
    fun r => ?_
  obtain ⟨function_a, gx, gy, gz⟩ := r
  dsimp only
  refine reported_bind ?_ fun r => ?_
  · cases bidirectional
    · exact reported_of_emits (emits_pure _)
    · exact reported_of_emits (emits_copy_function_setup hq _ _ _ _ _ _)
  obtain ⟨function_b, gx', gy', gz'⟩ := r
  dsimp only
  refine reported_bind (reported_of_emits (emits_divide _ _)) fun _ => ?_
  refine reported_bind (reported_for_from
    (fun _ _ => reported_measure_pair _ _ _ _ _ _ _ _ _ _ _ _ _ _) _ _ _) fun _ => ?_
  refine reported_bind (reported_of_emits (emits_copy_function_cleanup hq _ _)) fun _ => ?_
  cases bidirectional
  · exact reported_of_emits (emits_pure _)
  · exact reported_of_emits (emits_copy_function_cleanup hq _ _)

/-- In every call of a benchmark, returning or not, every result line comes right after
a reading of the timer and carries the value computed from that reading. -/
theorem reported_benchmark (metric : Metric) (env : Env) (self : Peer) (element_size : Nat)
    (bidirectional : Bool) (transfer_type : peer_transfer_t) :
    EmitsList (reported_after (reported_value metric
        (size_mul element_size metric.number_buffer_elements) bidirectional) none)
      (benchmark metric env self element_size bidirectional transfer_type) := by
  unfold benchmark
  refine reported_bind (reported_of_emits (emits_for_range
    (fun _ _ => emits_allocate_buffer not_report_of_not_work _ _ _ _ _) _ _)) fun buffers => ?_
  refine reported_bind (reported_for_from
    (fun _ _ => reported_measure_device _ _ _ _ _ _ _ _) _ _ _) fun _ => ?_
  exact reported_of_emits (emits_for_range
    (fun _ _ => emits_free_buffer not_report_of_not_work _ _ _ _) _ _)

/-! ## Peer transfer harness: the values of the result lines -/

theorem reported_value_bandwidth (element_size : Nat) (h1 : 1 ≤ element_size)
    (he : element_size ≤ 8) (bidirectional : Bool) :
    reported_value .bandwidth (size_mul element_size Metric.bandwidth.number_buffer_elements)
        bidirectional =
      fun elapsed_usec : Int =>
        if elapsed_usec = 0 then double.inf
        else .finite
          (((element_size * 10000000 * 5 * (if bidirectional then 2 else 1) : Nat) : Rat) /
            1000000000 / ((elapsed_usec : Rat) / 1000000)) := by
  funext elapsed
  exact total_bandwidth_eq element_size h1 he bidirectional elapsed

theorem reported_value_latency (buffer_size : Nat) (bidirectional : Bool) :
    reported_value .latency buffer_size bidirectional =
      fun elapsed_usec : Int => double.finite ((elapsed_usec : Rat) / 100) := by
  funext elapsed
  exact total_time_usec_eq elapsed

/-! ## Peer transfer harness: the steps of a loop that returns -/

theorem concat_from_succ {α : Type} (count start : Nat) (f : Nat → List α) :
    concat_from (count + 1) start f = f start ++ concat_from count (start + 1) f := rfl

theorem concat_from_congr {α : Type} {f g : Nat → List α} (count : Nat) :
    ∀ start, (∀ i, start ≤ i → i < start + count → f i = g i) →
      concat_from count start f = concat_from count start g := by
  induction count with
  | zero => intro _ _; rfl
  | succ n ih =>
    intro start h
    unfold concat_from
    rw [h start (Nat.le_refl _) (by omega), ih (start + 1) fun i h1 h2 => h i (by omega) (by omega)]

theorem filter_concat_from (p : Step → Bool) (f : Nat → List Step) (count : Nat) :
    ∀ start, (concat_from count start f).filter p =
      concat_from count start fun i => (f i).filter p := by
  induction count with
  | zero => intro _; rfl
  | succ n ih =>
    intro start
    simp only [concat_from, List.filter_append, ih]

theorem filterMap_concat_from {β : Type} (p : Step → Option β) (f : Nat → List Step)
    (count : Nat) :
    ∀ start, (concat_from count start f).filterMap p =
      concat_from count start fun i => (f i).filterMap p := by
  induction count with
  | zero => intro _; rfl
  | succ n ih =>
    intro start
    simp only [concat_from, List.filterMap_append, ih]

theorem length_concat_from {α : Type} {f : Nat → List α} {k : Nat}
    (h : ∀ i, (f i).length = k) (count : Nat) :
    ∀ start, (concat_from count start f).length = count * k := by
  induction count with
  | zero => intro _; simp [concat_from]
  | succ n ih =>
    intro start
    simp only [concat_from, List.length_append, ih, h, Nat.succ_mul]
    omega

theorem length_row_major (n : Nat) : (row_major n).length = n * n := by
  unfold row_major concat_range
  apply length_concat_from
  intro i
  have h : ∀ j, ([(i, j)] : List (Nat × Nat)).length = 1 := fun _ => rfl
  rw [length_concat_from h n 0, Nat.mul_one]

/-- A run that returns took steps every one of which satisfies what the computation
emits. -/
theorem emits_ok_inv {α : Type} {P : Step → Prop} {m : M α} (hm : Emits P m)
    {w w' : World} {a : α} (h : m w = (.ok a, w')) :
    ∃ t, w'.trace = w.trace ++ t ∧ ∀ s ∈ t, P s := by
  obtain ⟨t, ht, hp⟩ := hm w
  rw [h] at ht
  exact ⟨t, ht, hp⟩

/-- A loop that returns took, for each index in order, the steps of a returning body. -/
theorem for_from_ok_inv {β : Type} [Inhabited β] {body : Nat → Unit → M Unit}
    {Q : Nat → β → Prop} {block : Nat → β → List Step}
    (hbody : ∀ i w w', body i () w = (.ok (), w') →
      ∃ e, Q i e ∧ w'.trace = w.trace ++ block i e) (count : Nat) :
    ∀ (start : Nat) (w w' : World), for_from count start body () w = (.ok (), w') →
      ∃ e : Nat → β, (∀ i, start ≤ i → i < start + count → Q i (e i)) ∧
        w'.trace = w.trace ++ concat_from count start fun i => block i (e i) := by
  induction count with
  | zero =>
    intro start w w' h
    simp only [for_from, run_pure] at h
    refine ⟨fun _ => default, fun i h1 h2 => absurd h2 (by omega), ?_⟩
    rw [ok_world_eq h]
    simp [concat_from]
  | succ n ih =>
    intro start w w' h
    unfold for_from at h
    obtain ⟨_, w1, h1, h2⟩ := bind_ok_inv h
    obtain ⟨e0, hq0, ht0⟩ := hbody start w w1 h1
    obtain ⟨e, hq, ht⟩ := ih (start + 1) w1 w' h2
    refine ⟨fun i => if i = start then e0 else e i, ?_, ?_⟩
    · intro i h1 h2
      by_cases hi : i = start
      · show Q i (if i = start then e0 else e i)
        rw [if_pos hi, hi]
        exact hq0
      · show Q i (if i = start then e0 else e i)
        rw [if_neg hi]
        exact hq i (by omega) (by omega)
    · rw [ht, ht0, List.append_assoc]
      congr 1
      rw [concat_from_succ]
      dsimp only
      rw [if_pos rfl]
      congr 1
      apply concat_from_congr
      intro i h1 h2
      dsimp only
      rw [if_neg (by omega)]

/-! ## Peer transfer harness: the steps of a measured device -/

theorem quiet_copy_function_setup (env : Env) (module : Handle) (function_name : String)
    (x y z : Nat) :
    Emits (fun s => s.is_measurement = false ∧ s.is_binding = false)
      (_copy_function_setup env module function_name x y z) := by
  unfold _copy_function_setup
  refine emits_bind (emits_app_create env ⟨rfl, rfl⟩ ⟨rfl, rfl⟩) fun function => ?_
  refine emits_bind (emits_suggest_group_size env _ _ _ _ ⟨rfl, rfl⟩) fun r => ?_
  obtain ⟨result, gx, gy, gz⟩ := r
  dsimp only
  refine emits_bind (emits_success_or_terminate _ ⟨rfl, rfl⟩) fun _ => ?_
  refine emits_bind (emits_driver_call env ⟨rfl, rfl⟩) fun _ => ?_
  exact emits_bind (emits_success_or_terminate _ ⟨rfl, rfl⟩) fun _ => emits_pure _

theorem quiet_copy_function_cleanup (env : Env) (function : Handle) :
    Emits (fun s => s.is_measurement = false ∧ s.is_binding = false)
      (_copy_function_cleanup env function) :=
  emits_app_call env ⟨rfl, rfl⟩ ⟨rfl, rfl⟩

/-- A loop over `j` that returns measured the pairs `(i, start)`, `(i, start + 1)`, ...
in this order, each with the steps of `pair_steps` for a reading of the timer of the
session. -/
theorem pair_loop_ok_inv {metric : Metric} {env : Env} {buffer_size : Nat}
    {bidirectional : Bool} {transfer_type : peer_transfer_t}
    {function_a function_b buffer_i command_list_a command_queue_a : Handle}
    {groupCountX : Nat} {buffers : Nat → Handle} {i : Nat} (count start : Nat)
    {w w' : World}
    (h : for_from count start
      (fun j _ => measure_pair metric env buffer_size bidirectional transfer_type function_a
        function_b buffer_i command_list_a command_queue_a groupCountX buffers i j) () w =
      (.ok (), w')) :
    ∃ elapsed : Nat → Int,
      (∀ j, start ≤ j → j < start + count → ∃ k, elapsed j = env.period_minus_overhead k) ∧
      w'.trace = w.trace ++ concat_from count start fun j =>
        pair_steps metric buffer_size bidirectional transfer_type function_a function_b
          buffer_i (buffers j) command_list_a command_queue_a groupCountX i j (elapsed j) :=
  @for_from_ok_inv Int _ _ (fun _ e => ∃ k, e = env.period_minus_overhead k)
    (fun j e => pair_steps metric buffer_size bidirectional transfer_type function_a
      function_b buffer_i (buffers j) command_list_a command_queue_a groupCountX i j e)
    (fun j w w' hj => by
      obtain ⟨k, ht⟩ := measure_pair_ok_inv hj
      exact ⟨env.period_minus_overhead k, ⟨k, rfl⟩, ht⟩) count start w w' h

/-- A measurement of a device that returns took the steps of `device_steps`, the
reading of each pair being a reading of the timer of the session. -/
theorem measure_device_ok_inv {metric : Metric} {env : Env} {self : Peer} {buffer_size : Nat}
    {bidirectional : Bool} {transfer_type : peer_transfer_t} {buffers : Nat → Handle}
    {i : Nat} {w w' : World}
    (h : measure_device metric env self buffer_size bidirectional transfer_type buffers i w =
      (.ok (), w')) :
    ∃ run : DeviceRun,
      (run.quiet ∧
        ∀ j, j < self.device_count → ∃ k, run.elapsed j = env.period_minus_overhead k) ∧
      w'.trace = w.trace ++
        device_steps metric self buffer_size bidirectional transfer_type buffers i run := by
  unfold measure_device at h
  obtain ⟨⟨function_a, gx, gy, gz⟩, w1, h1, h⟩ := bind_ok_inv h
  dsimp only at h
  obtain ⟨t1, ht1, hq1⟩ := emits_ok_inv (quiet_copy_function_setup env _ _ _ _ _) h1
  obtain ⟨⟨function_b, gx2, gy2, gz2⟩, w2, h2, h⟩ := bind_ok_inv h
  dsimp only at h
  have hE2 : Emits (fun s => s.is_measurement = false ∧ s.is_binding = false)
      (if bidirectional then
        _copy_function_setup env (self.device_contexts i).module "single_copy_peer_to_peer"
          metric.number_buffer_elements 1 1
      else (pure (0, gx, 0, 0) : M (Handle × Nat × Nat × Nat))) := by
    cases bidirectional
    · exact emits_pure _
    · exact quiet_copy_function_setup env _ _ _ _ _
  obtain ⟨t2, ht2, hq2⟩ := emits_ok_inv hE2 h2
  obtain ⟨group_count_x, w3, h3, h⟩ := bind_ok_inv h
  obtain ⟨t3, ht3, hq3⟩ := emits_ok_inv
    (@emits_divide (fun s => s.is_measurement = false ∧ s.is_binding = false) _ _) h3
  obtain ⟨_, w4, h4, h⟩ := bind_ok_inv h
  obtain ⟨elapsed, hread, ht4⟩ := pair_loop_ok_inv _ _ h4
  obtain ⟨_, w5, h5, h⟩ := bind_ok_inv h
  obtain ⟨t5, ht5, hq5⟩ := emits_ok_inv (quiet_copy_function_cleanup env _) h5
  have hE6 : Emits (fun s => s.is_measurement = false ∧ s.is_binding = false)
      (if bidirectional then _copy_function_cleanup env function_b else (pure () : M Unit)) := by
    cases bidirectional
    · exact emits_pure _
    · exact quiet_copy_function_cleanup env _
  obtain ⟨t6, ht6, hq6⟩ := emits_ok_inv hE6 h
  refine ⟨⟨t1 ++ t2 ++ t3, function_a, function_b, group_count_x, elapsed, t5 ++ t6⟩,
    ⟨⟨?_, ?_⟩, fun j hj => hread j (Nat.zero_le _) (by omega)⟩, ?_⟩
  · intro s hs
    rcases List.mem_append.1 hs with hs | hs
    · rcases List.mem_append.1 hs with hs | hs
      · exact hq1 s hs
      · exact hq2 s hs
    · exact hq3 s hs
  · intro s hs
    rcases List.mem_append.1 hs with hs | hs
    · exact hq5 s hs
    · exact hq6 s hs
  · rw [ht6, ht5, ht4, ht3, ht2, ht1]
    simp only [device_steps, concat_range, List.append_assoc]

/-- A loop over the devices that returns measured the devices `start`, `start + 1`, ...
in this order, each with the steps of `device_steps`. -/
theorem device_loop_ok_inv {metric : Metric} {env : Env} {self : Peer} {buffer_size : Nat}
    {bidirectional : Bool} {transfer_type : peer_transfer_t} {buffers : Nat → Handle}
    (count start : Nat) {w w' : World}
    (h : for_from count start
      (fun i _ => measure_device metric env self buffer_size bidirectional transfer_type
        buffers i) () w = (.ok (), w')) :
    ∃ runs : Nat → DeviceRun,
      (∀ i, start ≤ i → i < start + count → (runs i).quiet ∧
        ∀ j, j < self.device_count →
          ∃ k, (runs i).elapsed j = env.period_minus_overhead k) ∧
      w'.trace = w.trace ++ concat_from count start fun i =>
        device_steps metric self buffer_size bidirectional transfer_type buffers i (runs i) :=
  @for_from_ok_inv DeviceRun _ _
    (fun _ run => run.quiet ∧
      ∀ j, j < self.device_count → ∃ k, run.elapsed j = env.period_minus_overhead k)
    (fun i run => device_steps metric self buffer_size bidirectional transfer_type buffers i
      run)
    (fun _ _ _ hi => measure_device_ok_inv hi) count start w w' h

/-- The steps of a measured device depend on the buffers of the devices only. -/
theorem device_steps_congr (metric : Metric) (self : Peer) (buffer_size : Nat)
    (bidirectional : Bool) (transfer_type : peer_transfer_t) {buffers buffers' : Nat → Handle}
    (hb : ∀ k, k < self.device_count → buffers k = buffers' k) {i : Nat}
    (hi : i < self.device_count) (run : DeviceRun) :
    device_steps metric self buffer_size bidirectional transfer_type buffers i run =
      device_steps metric self buffer_size bidirectional transfer_type buffers' i run := by
  unfold device_steps concat_range
  rw [hb i hi]
  congr 2
  apply concat_from_congr
  intro j _ hj
  rw [hb j (by omega)]

/-- A benchmark that returns took these steps: one allocation per device, then for each
device in order the steps of `device_steps`, then one release per buffer; the reading
of each pair is a reading of the timer of the session. -/
theorem benchmark_ok_readings {metric : Metric} {env : Env} {self : Peer}
    {element_size : Nat} {bidirectional : Bool} {transfer_type : peer_transfer_t}
    {w w' : World}
    (h : benchmark metric env self element_size bidirectional transfer_type w = (.ok (), w')) :
    ∃ runs : Nat → DeviceRun,
      (∀ i, i < self.device_count → (runs i).quiet ∧
        ∀ j, j < self.device_count →
          ∃ k, (runs i).elapsed j = env.period_minus_overhead k) ∧
      w'.trace = w.trace ++
        ((List.range self.device_count).map
            (alloc_step self (size_mul element_size metric.number_buffer_elements)) ++
          concat_range self.device_count (fun i =>
            device_steps metric self (size_mul element_size metric.number_buffer_elements)
              bidirectional transfer_type (fun k => env.handle (w.steps + k)) i (runs i)) ++
          (List.range self.device_count).map
            (fun i => Step.memoryFree self.device_group (env.handle (w.steps + i)))) := by
  unfold benchmark at h
  obtain ⟨buffers, w1, halloc, h⟩ := bind_ok_inv h
  obtain ⟨_, w2, hmeasure, hfree⟩ := bind_ok_inv h
  obtain ⟨_, htrace1, hbuf, _⟩ := allocate_loop_ok_inv env self _ _ 0 _ buffers w w1 halloc
  have htrace3 := free_loop_ok_inv env self buffers _ 0 w2 w' hfree
  obtain ⟨runs, hquiet, htrace2⟩ := device_loop_ok_inv _ _ hmeasure
  have hb : ∀ k, k < self.device_count → buffers k = env.handle (w.steps + k) := by
    intro k hk
    have := hbuf k hk
    rw [Nat.zero_add] at this
    exact this
  refine ⟨runs, fun i hi => hquiet i (Nat.zero_le _) (by omega), ?_⟩
  rw [htrace3, htrace2, htrace1, List.range_eq_range']
  simp only [List.append_assoc]
  congr 2
  · unfold concat_range
    congr 1
    · apply concat_from_congr
      intro i _ hi
      exact device_steps_congr metric self _ bidirectional transfer_type hb (by omega) (runs i)
    · apply List.map_congr_left
      intro i hi
      have hi' : i < self.device_count := by
        have := List.mem_range'_1.1 hi
        omega
      rw [hb i hi']

/-- A benchmark that returns took these steps: one allocation per device, then for each
device in order the steps of `device_steps`, then one release per buffer. -/
theorem benchmark_ok_inv {metric : Metric} {env : Env} {self : Peer} {element_size : Nat}
    {bidirectional : Bool} {transfer_type : peer_transfer_t} {w w' : World}
    (h : benchmark metric env self element_size bidirectional transfer_type w = (.ok (), w')) :
    ∃ runs : Nat → DeviceRun, (∀ i, i < self.device_count → (runs i).quiet) ∧
      w'.trace = w.trace ++
        ((List.range self.device_count).map
            (alloc_step self (size_mul element_size metric.number_buffer_elements)) ++
          concat_range self.device_count (fun i =>
            device_steps metric self (size_mul element_size metric.number_buffer_elements)
              bidirectional transfer_type (fun k => env.handle (w.steps + k)) i (runs i)) ++
          (List.range self.device_count).map
            (fun i => Step.memoryFree self.device_group (env.handle (w.steps + i)))) := by
  obtain ⟨runs, hruns, htrace⟩ := benchmark_ok_readings h
  exact ⟨runs, fun i hi => (hruns i hi).1, htrace⟩

/-! ## Peer transfer harness: every ordered pair is measured once -/

theorem iterations_nil (n : Nat) : iterations n ([] : List Step) = [] := by
  induction n with
  | zero => rfl
  | succ n ih => simp only [iterations, ih, List.append_nil]

theorem filter_iterations (p : Step → Bool) (n : Nat) (steps : List Step) :
    (iterations n steps).filter p = iterations n (steps.filter p) := by
  induction n with
  | zero => rfl
  | succ n ih => simp only [iterations, List.filter_append, ih]

theorem filterMap_iterations {β : Type} (p : Step → Option β) (n : Nat) (steps : List Step)
    (h : steps.filterMap p = []) : (iterations n steps).filterMap p = [] := by
  induction n with
  | zero => rfl
  | succ n ih => simp only [iterations, List.filterMap_append, ih, h, List.append_nil]

theorem filter_eq_nil_of_quiet {t : List Step} (h : ∀ s ∈ t, s.is_measurement = false) :
    t.filter Step.is_measurement = [] := by
  apply List.filter_eq_nil_iff.2
  intro s hs
  rw [h s hs]
  exact Bool.false_ne_true

theorem binding_steps_quiet (bidirectional : Bool) (transfer_type : peer_transfer_t)
    (function_a function_b buffer_i buffer_j command_list_a : Handle) (groupCountX : Nat) :
    (binding_steps bidirectional transfer_type function_a function_b buffer_i buffer_j
      command_list_a groupCountX).filter Step.is_measurement = [] := by
  cases bidirectional <;> cases transfer_type <;> rfl

theorem result_line_is_measurement (metric : Metric) (buffer_size : Nat)
    (bidirectional : Bool) (transfer_type : peer_transfer_t) (i j : Nat) (elapsed : Int) :
    (result_line metric buffer_size bidirectional transfer_type i j elapsed).is_measurement =
      true := by
  cases metric <;> rfl

theorem reported_pair_result_line (metric : Metric) (buffer_size : Nat)
    (bidirectional : Bool) (transfer_type : peer_transfer_t) (i j : Nat) (elapsed : Int) :
    reported_pair (result_line metric buffer_size bidirectional transfer_type i j elapsed) =
      some (i, j) := by
  cases metric <;> rfl

/-- The steps of a pair, without the binding of the arguments and the launches, are the
steps of its measurement proper. -/
theorem filter_pair_steps (metric : Metric) (buffer_size : Nat) (bidirectional : Bool)
    (transfer_type : peer_transfer_t)
    (function_a function_b buffer_i buffer_j command_list_a command_queue_a : Handle)
    (groupCountX : Nat) (i j : Nat) (elapsed : Int) :
    (pair_steps metric buffer_size bidirectional transfer_type function_a function_b buffer_i
      buffer_j command_list_a command_queue_a groupCountX i j elapsed).filter
        Step.is_measurement =
      measurement_steps metric buffer_size bidirectional transfer_type command_list_a
        command_queue_a i j elapsed := by
  have he : (execute_steps command_queue_a command_list_a).filter Step.is_measurement =
      execute_steps command_queue_a command_list_a := rfl
  cases metric <;>
    simp only [pair_steps, measurement_steps, List.filter_append, binding_steps_quiet,
      filter_iterations, he, List.nil_append, List.filter_cons, List.filter_nil,
      result_line, Step.is_measurement, if_true]

/-- The measurement proper of a pair prints one result line, for that pair. -/
theorem filterMap_measurement_steps (metric : Metric) (buffer_size : Nat)
    (bidirectional : Bool) (transfer_type : peer_transfer_t)
    (command_list_a command_queue_a : Handle) (i j : Nat) (elapsed : Int) :
    (measurement_steps metric buffer_size bidirectional transfer_type command_list_a
      command_queue_a i j elapsed).filterMap reported_pair = [(i, j)] := by
  have he : (execute_steps command_queue_a command_list_a).filterMap reported_pair = [] := rfl
  cases metric <;>
    simp only [measurement_steps, List.filterMap_append, filterMap_iterations _ _ _ he,
      List.filterMap_cons, List.filterMap_nil, result_line, reported_pair,
      List.nil_append, List.append_nil]

/-- Only steps of a measurement print a result line. -/
theorem filterMap_filter_measurement (t : List Step) :
    (t.filter Step.is_measurement).filterMap reported_pair = t.filterMap reported_pair := by
  induction t with
  | nil => rfl
  | cons s t ih =>
    cases s <;>
      simp [List.filter_cons, List.filterMap_cons, Step.is_measurement, reported_pair, ih]

/-- The measurement steps of a measured device are those of its pairs, in order. -/
theorem filter_device_steps (metric : Metric) (self : Peer) (buffer_size : Nat)
    (bidirectional : Bool) (transfer_type : peer_transfer_t) (buffers : Nat → Handle)
    (i : Nat) (run : DeviceRun) (hq : run.quiet) :
    (device_steps metric self buffer_size bidirectional transfer_type buffers i run).filter
        Step.is_measurement =
      concat_range self.device_count fun j =>
        measurement_steps metric buffer_size bidirectional transfer_type
          (self.device_contexts i).command_list (self.device_contexts i).command_queue i j
          (run.elapsed j) := by
  unfold device_steps concat_range
  rw [List.filter_append, List.filter_append,
    filter_eq_nil_of_quiet (fun s hs => (hq.1 s hs).1),
    filter_eq_nil_of_quiet (fun s hs => (hq.2 s hs).1), filter_concat_from, List.nil_append,
    List.append_nil]
  apply concat_from_congr
  intro j _ _
  exact filter_pair_steps _ _ _ _ _ _ _ _ _ _ _ _ _ _

theorem filter_alloc_steps (self : Peer) (buffer_size : Nat) (l : List Nat) :
    (l.map (alloc_step self buffer_size)).filter Step.is_measurement = [] := by
  apply filter_eq_nil_of_quiet
  intro s hs
  obtain ⟨i, _, rfl⟩ := List.mem_map.1 hs
  rfl

theorem filter_free_steps (device_group : Handle) (buffers : Nat → Handle) (l : List Nat) :
    (l.map fun i => Step.memoryFree device_group (buffers i)).filter Step.is_measurement =
      [] := by
  apply filter_eq_nil_of_quiet
  intro s hs
  obtain ⟨i, _, rfl⟩ := List.mem_map.1 hs
  rfl

/-- C14: every call of `XePeer::bandwidth` or `XePeer::latency` (the two instances of
`benchmark`) that returns normally on `n` devices has taken these steps: the
allocations, then for each device `i` in order a kernel setup, the pairs `(i, 0)`, ...,
`(i, n - 1)` in order, each with the steps of `pair_steps`, and a kernel cleanup, then
the releases.  The steps of measurement among them are, for each ordered pair `(i, j)`
in row-major order, `i = j` included, one close of the command list, 5 warm-up
executions, the start of the timer, 5 (bandwidth) or 100 (latency) executions, the end
of the timer, its reading and one result line, every execution being followed at once by
a queue synchronize; the result lines are those of the `n * n` pairs in row-major
order. -/
theorem benchmark_measures_every_pair (metric : Metric) (env : Env) (self : Peer)
    (element_size : Nat) (bidirectional : Bool) (transfer_type : peer_transfer_t)
    (w w' : World)
    (h : benchmark metric env self element_size bidirectional transfer_type w = (.ok (), w')) :
    ∃ (runs : Nat → DeviceRun) (steps : List Step),
      w'.trace = w.trace ++ steps ∧
      steps =
        (List.range self.device_count).map
            (alloc_step self (size_mul element_size metric.number_buffer_elements)) ++
          concat_range self.device_count (fun i =>
            device_steps metric self (size_mul element_size metric.number_buffer_elements)
              bidirectional transfer_type (fun k => env.handle (w.steps + k)) i (runs i)) ++
          (List.range self.device_count).map
            (fun i => Step.memoryFree self.device_group (env.handle (w.steps + i))) ∧
      (∀ i, i < self.device_count → (runs i).quiet) ∧
      steps.filter Step.is_measurement =
        concat_range self.device_count (fun i =>
          concat_range self.device_count fun j =>
            measurement_steps metric (size_mul element_size metric.number_buffer_elements)
              bidirectional transfer_type (self.device_contexts i).command_list
              (self.device_contexts i).command_queue i j ((runs i).elapsed j)) ∧
      steps.filterMap reported_pair = row_major self.device_count ∧
      (steps.filterMap reported_pair).length = self.device_count * self.device_count ∧
      metric.warm_up_iterations = 5 ∧
      metric.number_iterations = (match metric with | .bandwidth => 5 | .latency => 100) := by
  obtain ⟨runs, hquiet, htrace⟩ := benchmark_ok_inv h
  have hfilter : ((List.range self.device_count).map
          (alloc_step self (size_mul element_size metric.number_buffer_elements)) ++
        concat_range self.device_count (fun i =>
          device_steps metric self (size_mul element_size metric.number_buffer_elements)
            bidirectional transfer_type (fun k => env.handle (w.steps + k)) i (runs i)) ++
        (List.range self.device_count).map
          (fun i => Step.memoryFree self.device_group (env.handle (w.steps + i)))).filter
        Step.is_measurement =
      concat_range self.device_count (fun i =>
        concat_range self.device_count fun j =>
          measurement_steps metric (size_mul element_size metric.number_buffer_elements)
            bidirectional transfer_type (self.device_contexts i).command_list
            (self.device_contexts i).command_queue i j ((runs i).elapsed j)) := by
    rw [List.filter_append, List.filter_append, filter_alloc_steps,
      filter_free_steps self.device_group (fun i => env.handle (w.steps + i)),
      List.nil_append, List.append_nil]
    unfold concat_range
    rw [filter_concat_from]
    apply concat_from_congr
    intro i _ hi
    exact filter_device_steps metric self _ bidirectional transfer_type _ i (runs i)
      (hquiet i (by omega))
  have hpairs : ((List.range self.device_count).map
          (alloc_step self (size_mul element_size metric.number_buffer_elements)) ++
        concat_range self.device_count (fun i =>
          device_steps metric self (size_mul element_size metric.number_buffer_elements)
            bidirectional transfer_type (fun k => env.handle (w.steps + k)) i (runs i)) ++
        (List.range self.device_count).map
          (fun i => Step.memoryFree self.device_group (env.handle (w.steps + i)))).filterMap
        reported_pair = row_major self.device_count := by
    rw [← filterMap_filter_measurement, hfilter]
    unfold row_major concat_range
    rw [filterMap_concat_from]
    apply concat_from_congr
    intro i _ _
    rw [filterMap_concat_from]
    apply concat_from_congr
    intro j _ _
    exact filterMap_measurement_steps _ _ _ _ _ _ _ _ _
  refine ⟨runs, _, htrace, rfl, hquiet, hfilter, hpairs, ?_, ?_, ?_⟩
  · rw [hpairs, length_row_major]
  · cases metric <;> rfl
  · cases metric <;> rfl

/-- Witness of C14: the unidirectional write of `bandwidth` on the two sample devices
returns, and its result lines are those of `(0, 0)`, `(0, 1)`, `(1, 0)`, `(1, 1)`. -/
theorem benchmark_measures_every_pair_witness :
    (benchmark .bandwidth sample_env sample_peer 8 false .PEER_WRITE World.initial =
      (.ok (), sample_bandwidth_run.2)) ∧
    (∃ (runs : Nat → DeviceRun) (steps : List Step),
      sample_bandwidth_run.2.trace = World.initial.trace ++ steps ∧
      steps =
        (List.range sample_peer.device_count).map
            (alloc_step sample_peer (size_mul 8 Metric.bandwidth.number_buffer_elements)) ++
          concat_range sample_peer.device_count (fun i =>
            device_steps .bandwidth sample_peer
              (size_mul 8 Metric.bandwidth.number_buffer_elements) false .PEER_WRITE
              (fun k => sample_env.handle (World.initial.steps + k)) i (runs i)) ++
          (List.range sample_peer.device_count).map
            (fun i => Step.memoryFree sample_peer.device_group
              (sample_env.handle (World.initial.steps + i))) ∧
      (∀ i, i < sample_peer.device_count → (runs i).quiet) ∧
      steps.filter Step.is_measurement =
        concat_range sample_peer.device_count (fun i =>
          concat_range sample_peer.device_count fun j =>
            measurement_steps .bandwidth (size_mul 8 Metric.bandwidth.number_buffer_elements)
              false .PEER_WRITE (sample_peer.device_contexts i).command_list
              (sample_peer.device_contexts i).command_queue i j ((runs i).elapsed j)) ∧
      steps.filterMap reported_pair = row_major sample_peer.device_count ∧
      (steps.filterMap reported_pair).length =
        sample_peer.device_count * sample_peer.device_count ∧
      Metric.bandwidth.warm_up_iterations = 5 ∧
      Metric.bandwidth.number_iterations = 5) ∧
    row_major sample_peer.device_count = [(0, 0), (0, 1), (1, 0), (1, 1)] :=
  ⟨rfl, benchmark_measures_every_pair .bandwidth sample_env sample_peer 8 false
    .PEER_WRITE World.initial sample_bandwidth_run.2 rfl, rfl⟩

/-! ## Peer transfer harness: the binding of the kernel arguments -/

theorem filter_eq_nil_of_forall {p : Step → Bool} {t : List Step}
    (h : ∀ s ∈ t, p s = false) : t.filter p = [] := by
  apply List.filter_eq_nil_iff.2
  intro s hs
  rw [h s hs]
  exact Bool.false_ne_true

theorem binding_steps_filter (bidirectional : Bool) (transfer_type : peer_transfer_t)
    (function_a function_b buffer_i buffer_j command_list_a : Handle) (groupCountX : Nat) :
    (binding_steps bidirectional transfer_type function_a function_b buffer_i buffer_j
      command_list_a groupCountX).filter Step.is_binding =
      binding_steps bidirectional transfer_type function_a function_b buffer_i buffer_j
        command_list_a groupCountX := by
  cases bidirectional <;> cases transfer_type <;> rfl

/-- The steps of a pair that bind an argument or append a launch are its
`binding_steps`. -/
theorem filter_binding_pair_steps (metric : Metric) (buffer_size : Nat) (bidirectional : Bool)
    (transfer_type : peer_transfer_t)
    (function_a function_b buffer_i buffer_j command_list_a command_queue_a : Handle)
    (groupCountX : Nat) (i j : Nat) (elapsed : Int) :
    (pair_steps metric buffer_size bidirectional transfer_type function_a function_b buffer_i
      buffer_j command_list_a command_queue_a groupCountX i j elapsed).filter
        Step.is_binding =
      binding_steps bidirectional transfer_type function_a function_b buffer_i buffer_j
        command_list_a groupCountX := by
  have he : (execute_steps command_queue_a command_list_a).filter Step.is_binding = [] := rfl
  cases metric <;>
    simp only [pair_steps, List.filter_append, binding_steps_filter, filter_iterations, he,
      iterations_nil, List.append_nil, List.filter_cons, List.filter_nil, result_line,
      Step.is_binding, Bool.false_eq_true, if_false]

/-- The steps of a measured device that bind an argument or append a launch are those
of its pairs, in order. -/
theorem filter_binding_device_steps (metric : Metric) (self : Peer) (buffer_size : Nat)
    (bidirectional : Bool) (transfer_type : peer_transfer_t) (buffers : Nat → Handle)
    (i : Nat) (run : DeviceRun) (hq : run.quiet) :
    (device_steps metric self buffer_size bidirectional transfer_type buffers i run).filter
        Step.is_binding =
      concat_range self.device_count fun j =>
        binding_steps bidirectional transfer_type run.function_a run.function_b (buffers i)
          (buffers j) (self.device_contexts i).command_list run.group_count_x := by
  unfold device_steps concat_range
  rw [List.filter_append, List.filter_append,
    filter_eq_nil_of_forall (fun s hs => (hq.1 s hs).2),
    filter_eq_nil_of_forall (fun s hs => (hq.2 s hs).2), filter_concat_from, List.nil_append,
    List.append_nil]
  apply concat_from_congr
  intro j _ _
  exact filter_binding_pair_steps _ _ _ _ _ _ _ _ _ _ _ _ _ _

theorem filter_binding_alloc_steps (self : Peer) (buffer_size : Nat) (l : List Nat) :
    (l.map (alloc_step self buffer_size)).filter Step.is_binding = [] := by
  apply filter_eq_nil_of_forall
  intro s hs
  obtain ⟨i, _, rfl⟩ := List.mem_map.1 hs
  rfl

theorem filter_binding_free_steps (device_group : Handle) (buffers : Nat → Handle)
    (l : List Nat) :
    (l.map fun i => Step.memoryFree device_group (buffers i)).filter Step.is_binding = [] := by
  apply filter_eq_nil_of_forall
  intro s hs
  obtain ⟨i, _, rfl⟩ := List.mem_map.1 hs
  rfl

/-- C27: in every call of `XePeer::bandwidth` or `XePeer::latency` (the two instances of
`benchmark`) that returns, the steps that bind a kernel argument or append a launch are,
for each pair `(i, j)` in row-major order, those of `binding_steps` for the buffers
`buffer_i` and `buffer_j` allocated for the devices `i` and `j`: a unidirectional
`PEER_WRITE` binds argument 0 of `function_a` to `buffer_j` and argument 1 to
`buffer_i`; a unidirectional `PEER_READ` binds argument 0 to `buffer_i` and argument 1
to `buffer_j`; a bidirectional call binds `function_a` as the write and `function_b` as
the read, whatever the transfer type. -/
theorem benchmark_binds_arguments (metric : Metric) (env : Env) (self : Peer)
    (element_size : Nat) (bidirectional : Bool) (transfer_type : peer_transfer_t)
    (w w' : World)
    (h : benchmark metric env self element_size bidirectional transfer_type w = (.ok (), w')) :
    (∃ (runs : Nat → DeviceRun) (steps : List Step),
      w'.trace = w.trace ++ steps ∧
      steps.filter Step.is_binding =
        concat_range self.device_count (fun i =>
          concat_range self.device_count fun j =>
            binding_steps bidirectional transfer_type (runs i).function_a
              (runs i).function_b (env.handle (w.steps + i)) (env.handle (w.steps + j))
              (self.device_contexts i).command_list (runs i).group_count_x)) ∧
    (∀ function_a function_b buffer_i buffer_j command_list_a groupCountX,
      binding_steps false .PEER_WRITE function_a function_b buffer_i buffer_j command_list_a
          groupCountX =
        [.xeFunctionSetArgumentValue function_a 0 buffer_j,
          .xeFunctionSetArgumentValue function_a 1 buffer_i,
          .xeCommandListAppendLaunchFunction command_list_a function_a groupCountX 1 1]) ∧
    (∀ function_a function_b buffer_i buffer_j command_list_a groupCountX,
      binding_steps false .PEER_READ function_a function_b buffer_i buffer_j command_list_a
          groupCountX =
        [.xeFunctionSetArgumentValue function_a 0 buffer_i,
          .xeFunctionSetArgumentValue function_a 1 buffer_j,
          .xeCommandListAppendLaunchFunction command_list_a function_a groupCountX 1 1]) ∧
    (∀ transfer_type function_a function_b buffer_i buffer_j command_list_a groupCountX,
      binding_steps true transfer_type function_a function_b buffer_i buffer_j
          command_list_a groupCountX =
        [.xeFunctionSetArgumentValue function_a 0 buffer_j,
          .xeFunctionSetArgumentValue function_a 1 buffer_i,
          .xeFunctionSetArgumentValue function_b 0 buffer_i,
          .xeFunctionSetArgumentValue function_b 1 buffer_j,
          .xeCommandListAppendLaunchFunction command_list_a function_a groupCountX 1 1,
          .xeCommandListAppendLaunchFunction command_list_a function_b groupCountX 1 1]) := by
  refine ⟨?_, fun _ _ _ _ _ _ => rfl, fun _ _ _ _ _ _ => rfl, fun _ _ _ _ _ _ _ => rfl⟩
  obtain ⟨runs, hquiet, htrace⟩ := benchmark_ok_inv h
  refine ⟨runs, _, htrace, ?_⟩
  rw [List.filter_append, List.filter_append, filter_binding_alloc_steps,
    filter_binding_free_steps self.device_group (fun i => env.handle (w.steps + i)),
    List.nil_append, List.append_nil]
  unfold concat_range
  rw [filter_concat_from]
  apply concat_from_congr
  intro i _ hi
  exact filter_binding_device_steps metric self _ bidirectional transfer_type _ i (runs i)
    (hquiet i (by omega))

/-- Witness of C27: the unidirectional write of `bandwidth` on the two sample devices,
whose buffers are the pointers 100 and 101. -/
theorem benchmark_binds_arguments_witness :
    (benchmark .bandwidth sample_env sample_peer 8 false .PEER_WRITE World.initial =
      (.ok (), sample_bandwidth_run.2)) ∧
    ((∃ (runs : Nat → DeviceRun) (steps : List Step),
      sample_bandwidth_run.2.trace = World.initial.trace ++ steps ∧
      steps.filter Step.is_binding =
        concat_range sample_peer.device_count (fun i =>
          concat_range sample_peer.device_count fun j =>
            binding_steps false .PEER_WRITE (runs i).function_a
              (runs i).function_b (sample_env.handle (World.initial.steps + i))
              (sample_env.handle (World.initial.steps + j))
              (sample_peer.device_contexts i).command_list (runs i).group_count_x)) ∧
    (∀ function_a function_b buffer_i buffer_j command_list_a groupCountX,
      binding_steps false .PEER_WRITE function_a function_b buffer_i buffer_j command_list_a
          groupCountX =
        [.xeFunctionSetArgumentValue function_a 0 buffer_j,
          .xeFunctionSetArgumentValue function_a 1 buffer_i,
          .xeCommandListAppendLaunchFunction command_list_a function_a groupCountX 1 1]) ∧
    (∀ function_a function_b buffer_i buffer_j command_list_a groupCountX,
      binding_steps false .PEER_READ function_a function_b buffer_i buffer_j command_list_a
          groupCountX =
        [.xeFunctionSetArgumentValue function_a 0 buffer_i,
          .xeFunctionSetArgumentValue function_a 1 buffer_j,
          .xeCommandListAppendLaunchFunction command_list_a function_a groupCountX 1 1]) ∧
    (∀ transfer_type function_a function_b buffer_i buffer_j command_list_a groupCountX,
      binding_steps true transfer_type function_a function_b buffer_i buffer_j
          command_list_a groupCountX =
        [.xeFunctionSetArgumentValue function_a 0 buffer_j,
          .xeFunctionSetArgumentValue function_a 1 buffer_i,
          .xeFunctionSetArgumentValue function_b 0 buffer_i,
          .xeFunctionSetArgumentValue function_b 1 buffer_j,
          .xeCommandListAppendLaunchFunction command_list_a function_a groupCountX 1 1,
          .xeCommandListAppendLaunchFunction command_list_a function_b groupCountX 1 1])) ∧
    sample_env.handle (World.initial.steps + 0) = 100 ∧
    sample_env.handle (World.initial.steps + 1) = 101 :=
  ⟨rfl, benchmark_binds_arguments .bandwidth sample_env sample_peer 8 false
    .PEER_WRITE World.initial sample_bandwidth_run.2 rfl, rfl, rfl⟩

/-! ## Peer transfer harness: the command list is never reset -/

theorem iterations_succ (n : Nat) (steps : List Step) :
    iterations (n + 1) steps = steps ++ iterations n steps := rfl

theorem length_iterations (n : Nat) (steps : List Step) :
    (iterations n steps).length = n * steps.length := by
  induction n with
  | zero => simp [iterations]
  | succ n ih =>
    rw [iterations_succ, List.length_append, ih, Nat.succ_mul]
    omega

theorem is_launch_of_not_binding {s : Step} (h : s.is_binding = false) :
    s.is_launch = false := by
  cases s <;> first | rfl | exact absurd h (Bool.noConfusion)

theorem is_execute_of_not_measurement {s : Step} (h : s.is_measurement = false) :
    s.is_execute = false := by
  cases s <;> first | rfl | exact absurd h (Bool.noConfusion)

/-- The steps of a pair up to its first execution of the command list, and after it. -/
theorem pair_steps_first_execute (metric : Metric) (buffer_size : Nat) (bidirectional : Bool)
    (transfer_type : peer_transfer_t)
    (function_a function_b buffer_i buffer_j command_list_a command_queue_a : Handle)
    (groupCountX : Nat) (i j : Nat) (elapsed : Int) :
    pair_steps metric buffer_size bidirectional transfer_type function_a function_b buffer_i
        buffer_j command_list_a command_queue_a groupCountX i j elapsed =
      (binding_steps bidirectional transfer_type function_a function_b buffer_i buffer_j
          command_list_a groupCountX ++ [.commandListClose command_list_a]) ++
        Step.commandQueueExecuteCommandList command_queue_a command_list_a ::
          ([.commandQueueSynchronize command_queue_a] ++
            iterations 4 (execute_steps command_queue_a command_list_a) ++
            [.timer_start] ++
            iterations metric.number_iterations
              (execute_steps command_queue_a command_list_a) ++
            [.timer_end, .period_minus_overhead elapsed,
              result_line metric buffer_size bidirectional transfer_type i j elapsed]) := by
  have hwarm : metric.warm_up_iterations = 4 + 1 := by cases metric <;> rfl
  unfold pair_steps
  rw [hwarm, iterations_succ]
  simp only [execute_steps, List.append_assoc, List.cons_append, List.nil_append]

/-- The launches appended for a pair are those of its `binding_steps`. -/
theorem filter_launch_pair_steps (metric : Metric) (buffer_size : Nat) (bidirectional : Bool)
    (transfer_type : peer_transfer_t)
    (function_a function_b buffer_i buffer_j command_list_a command_queue_a : Handle)
    (groupCountX : Nat) (i j : Nat) (elapsed : Int) :
    (pair_steps metric buffer_size bidirectional transfer_type function_a function_b buffer_i
      buffer_j command_list_a command_queue_a groupCountX i j elapsed).filter
        Step.is_launch =
      (binding_steps bidirectional transfer_type function_a function_b buffer_i buffer_j
        command_list_a groupCountX).filter Step.is_launch := by
  have he : (execute_steps command_queue_a command_list_a).filter Step.is_launch = [] := rfl
  cases metric <;>
    simp only [pair_steps, List.filter_append, filter_iterations, he,
      iterations_nil, List.append_nil, List.filter_cons, List.filter_nil, result_line,
      Step.is_launch, Bool.false_eq_true, if_false]

/-- A pair executes the command list once per warm-up and once per timed iteration. -/
theorem length_execute_pair_steps (metric : Metric) (buffer_size : Nat) (bidirectional : Bool)
    (transfer_type : peer_transfer_t)
    (function_a function_b buffer_i buffer_j command_list_a command_queue_a : Handle)
    (groupCountX : Nat) (i j : Nat) (elapsed : Int) :
    ((pair_steps metric buffer_size bidirectional transfer_type function_a function_b buffer_i
      buffer_j command_list_a command_queue_a groupCountX i j elapsed).filter
        Step.is_execute).length =
      metric.warm_up_iterations + metric.number_iterations := by
  have he : (execute_steps command_queue_a command_list_a).filter Step.is_execute =
      [.commandQueueExecuteCommandList command_queue_a command_list_a] := rfl
  have hb : (binding_steps bidirectional transfer_type function_a function_b buffer_i buffer_j
      command_list_a groupCountX).filter Step.is_execute = [] := by
    cases bidirectional <;> cases transfer_type <;> rfl
  cases metric <;>
    simp only [pair_steps, List.filter_append, filter_iterations, he, hb, List.nil_append,
      List.filter_cons, List.filter_nil, result_line, Step.is_execute, Bool.false_eq_true,
      if_false, List.length_append, length_iterations, List.length_cons, List.length_nil] <;>
    omega

/-- The launches appended for a valid pair: one when unidirectional, two when
bidirectional, all to the command list of the pair. -/
theorem binding_steps_launches (bidirectional : Bool) (transfer_type : peer_transfer_t)
    (ht : bidirectional = true ∨ transfer_type ≠ .PEER_NONE)
    (function_a function_b buffer_i buffer_j command_list_a : Handle) (groupCountX : Nat) :
    (binding_steps bidirectional transfer_type function_a function_b buffer_i buffer_j
      command_list_a groupCountX).filter Step.is_launch =
      if bidirectional then
        [.xeCommandListAppendLaunchFunction command_list_a function_a groupCountX 1 1,
          .xeCommandListAppendLaunchFunction command_list_a function_b groupCountX 1 1]
      else [.xeCommandListAppendLaunchFunction command_list_a function_a groupCountX 1 1] := by
  cases bidirectional <;> cases transfer_type <;>
    first
    | rfl
    | (rcases ht with ht | ht
       · exact absurd ht (by decide)
       · exact absurd rfl ht)

/-- C21: between two pairs the command list is not reset.  In every call of
`XePeer::bandwidth` or `XePeer::latency` (the two instances of `benchmark`) that returns
on at least two devices, the steps taken before the first execution of the command list
of device 0 for the pair `(0, 1)` hold the executions of the pair `(0, 0)` and, as the
only launches appended so far, all to the list of device 0, the launch or launches of
the pair `(0, 0)` followed by those of the pair `(0, 1)`: two launches when
unidirectional and four when bidirectional, where the claim allows one and two. -/
theorem benchmark_list_accumulates (metric : Metric) (env : Env) (self : Peer)
    (element_size : Nat) (bidirectional : Bool) (transfer_type : peer_transfer_t)
    (w w' : World)
    (h : benchmark metric env self element_size bidirectional transfer_type w = (.ok (), w'))
    (hn : 2 ≤ self.device_count)
    (ht : bidirectional = true ∨ transfer_type ≠ .PEER_NONE) :
    ∃ (function_a function_b : Handle) (groupCountX : Nat) (before after : List Step),
      w'.trace = w.trace ++
        (before ++
          Step.commandQueueExecuteCommandList (self.device_contexts 0).command_queue
            (self.device_contexts 0).command_list :: after) ∧
      (before.filter Step.is_execute).length =
        metric.warm_up_iterations + metric.number_iterations ∧
      before.filter Step.is_launch =
        (if bidirectional then
          [.xeCommandListAppendLaunchFunction (self.device_contexts 0).command_list
              function_a groupCountX 1 1,
            .xeCommandListAppendLaunchFunction (self.device_contexts 0).command_list
              function_b groupCountX 1 1,
            .xeCommandListAppendLaunchFunction (self.device_contexts 0).command_list
              function_a groupCountX 1 1,
            .xeCommandListAppendLaunchFunction (self.device_contexts 0).command_list
              function_b groupCountX 1 1]
        else
          [.xeCommandListAppendLaunchFunction (self.device_contexts 0).command_list
              function_a groupCountX 1 1,
            .xeCommandListAppendLaunchFunction (self.device_contexts 0).command_list
              function_a groupCountX 1 1]) ∧
      (before.filter Step.is_launch).length = (if bidirectional then 4 else 2) := by
  obtain ⟨runs, hquiet, htrace⟩ := benchmark_ok_inv h
  obtain ⟨m, hm⟩ : ∃ m, self.device_count = m + 2 := ⟨self.device_count - 2, by omega⟩
  have hq0 := hquiet 0 (by omega)
  have hD : ∀ D : Nat → List Step,
      concat_range self.device_count D = D 0 ++ concat_from (m + 1) 1 D := by
    intro D
    unfold concat_range
    rw [hm]
    rfl
  have hP : ∀ P : Nat → List Step,
      concat_range self.device_count P = P 0 ++ (P 1 ++ concat_from m 2 P) := by
    intro P
    unfold concat_range
    rw [hm]
    rfl
  have hlaunch : ∀ j, (binding_steps bidirectional transfer_type (runs 0).function_a
      (runs 0).function_b (env.handle (w.steps + 0)) (env.handle (w.steps + j))
      (self.device_contexts 0).command_list (runs 0).group_count_x).filter Step.is_launch =
      if bidirectional then
        [.xeCommandListAppendLaunchFunction (self.device_contexts 0).command_list
            (runs 0).function_a (runs 0).group_count_x 1 1,
          .xeCommandListAppendLaunchFunction (self.device_contexts 0).command_list
            (runs 0).function_b (runs 0).group_count_x 1 1]
      else [.xeCommandListAppendLaunchFunction (self.device_contexts 0).command_list
            (runs 0).function_a (runs 0).group_count_x 1 1] :=
    fun j => binding_steps_launches bidirectional transfer_type ht _ _ _ _ _ _
  have hbexec : ∀ j, (binding_steps bidirectional transfer_type (runs 0).function_a
      (runs 0).function_b (env.handle (w.steps + 0)) (env.handle (w.steps + j))
      (self.device_contexts 0).command_list (runs 0).group_count_x).filter
        Step.is_execute = [] := by
    intro j
    cases bidirectional <;> cases transfer_type <;> rfl
  have hsetup_launch : (runs 0).setup.filter Step.is_launch = [] :=
    filter_eq_nil_of_forall fun s hs => is_launch_of_not_binding (hq0.1 s hs).2
  have hsetup_exec : (runs 0).setup.filter Step.is_execute = [] :=
    filter_eq_nil_of_forall fun s hs => is_execute_of_not_measurement (hq0.1 s hs).1
  have halloc_launch : ((List.range self.device_count).map
      (alloc_step self (size_mul element_size metric.number_buffer_elements))).filter
        Step.is_launch = [] := by
    apply filter_eq_nil_of_forall
    intro s hs
    obtain ⟨i, _, rfl⟩ := List.mem_map.1 hs
    rfl
  have halloc_exec : ((List.range self.device_count).map
      (alloc_step self (size_mul element_size metric.number_buffer_elements))).filter
        Step.is_execute = [] := by
    apply filter_eq_nil_of_forall
    intro s hs
    obtain ⟨i, _, rfl⟩ := List.mem_map.1 hs
    rfl
  refine ⟨(runs 0).function_a, (runs 0).function_b, (runs 0).group_count_x,
    (List.range self.device_count).map
        (alloc_step self (size_mul element_size metric.number_buffer_elements)) ++
      ((runs 0).setup ++
        (pair_steps metric (size_mul element_size metric.number_buffer_elements) bidirectional
            transfer_type (runs 0).function_a (runs 0).function_b (env.handle (w.steps + 0))
            (env.handle (w.steps + 0)) (self.device_contexts 0).command_list
            (self.device_contexts 0).command_queue (runs 0).group_count_x 0 0
            ((runs 0).elapsed 0) ++
          (binding_steps bidirectional transfer_type (runs 0).function_a (runs 0).function_b
              (env.handle (w.steps + 0)) (env.handle (w.steps + 1))
              (self.device_contexts 0).command_list (runs 0).group_count_x ++
            [.commandListClose (self.device_contexts 0).command_list]))),
    ?after, ?h1, ?h2, ?h3, ?h4⟩
  case h1 =>
    rw [htrace, hD]
    unfold device_steps
    rw [hP, pair_steps_first_execute _ _ _ _ _ _ _ _ _ _ _ 0 1 _]
    simp only [List.append_assoc, List.cons_append, List.nil_append]
    exact rfl
  case h2 =>
    simp only [List.filter_append, halloc_exec, hsetup_exec, hbexec, List.nil_append,
      List.append_nil, List.filter_cons, List.filter_nil, Step.is_execute,
      Bool.false_eq_true, if_false]
    exact length_execute_pair_steps _ _ _ _ _ _ _ _ _ _ _ _ _ _
  case h3 =>
    simp only [List.filter_append, halloc_launch, hsetup_launch, filter_launch_pair_steps,
      hlaunch, List.nil_append, List.append_nil, List.filter_cons, List.filter_nil,
      Step.is_launch, Bool.false_eq_true, if_false]
    cases bidirectional <;> rfl
  case h4 =>
    simp only [List.filter_append, halloc_launch, hsetup_launch, filter_launch_pair_steps,
      hlaunch, List.nil_append, List.append_nil, List.filter_cons, List.filter_nil,
      Step.is_launch, Bool.false_eq_true, if_false]
    cases bidirectional <;> rfl

/-- Witness of C21: the unidirectional write of `bandwidth` on the two sample devices
returns; when the list 40 of device 0 is first executed for the pair `(0, 1)` it has
been executed 10 times for the pair `(0, 0)` and holds two launches. -/
theorem benchmark_list_accumulates_witness :
    (benchmark .bandwidth sample_env sample_peer 8 false .PEER_WRITE World.initial =
        (.ok (), sample_bandwidth_run.2) ∧
      2 ≤ sample_peer.device_count ∧
      ((false : Bool) = true ∨ peer_transfer_t.PEER_WRITE ≠ .PEER_NONE)) ∧
    ∃ (function_a function_b : Handle) (groupCountX : Nat) (before after : List Step),
      sample_bandwidth_run.2.trace = World.initial.trace ++
        (before ++ Step.commandQueueExecuteCommandList 30 40 :: after) ∧
      (before.filter Step.is_execute).length = 5 + 5 ∧
      before.filter Step.is_launch =
        (if (false : Bool) then
          [.xeCommandListAppendLaunchFunction 40 function_a groupCountX 1 1,
            .xeCommandListAppendLaunchFunction 40 function_b groupCountX 1 1,
            .xeCommandListAppendLaunchFunction 40 function_a groupCountX 1 1,
            .xeCommandListAppendLaunchFunction 40 function_b groupCountX 1 1]
        else
          [.xeCommandListAppendLaunchFunction 40 function_a groupCountX 1 1,
            .xeCommandListAppendLaunchFunction 40 function_a groupCountX 1 1]) ∧
      (before.filter Step.is_launch).length = (if (false : Bool) then 4 else 2) :=
  ⟨⟨rfl, by decide, Or.inr (by decide)⟩,
    benchmark_list_accumulates .bandwidth sample_env sample_peer 8 false .PEER_WRITE
      World.initial sample_bandwidth_run.2 rfl (by decide) (Or.inr (by decide))⟩

/-! ## Peer transfer harness: the result lines of a benchmark that returns -/

/-- Only steps of a measurement print a result line. -/
theorem filter_report_filter_measurement (t : List Step) :
    (t.filter Step.is_measurement).filter Step.is_report = t.filter Step.is_report := by
  induction t with
  | nil => rfl
  | cons s t ih =>
    cases s <;> simp [List.filter_cons, Step.is_measurement, Step.is_report, ih]

/-- The measurement proper of a pair prints one result line, that of the pair for the
reading. -/
theorem filter_report_measurement_steps (metric : Metric) (buffer_size : Nat)
    (bidirectional : Bool) (transfer_type : peer_transfer_t)
    (command_list_a command_queue_a : Handle) (i j : Nat) (elapsed : Int) :
    (measurement_steps metric buffer_size bidirectional transfer_type command_list_a
      command_queue_a i j elapsed).filter Step.is_report =
      [result_line metric buffer_size bidirectional transfer_type i j elapsed] := by
  have he : (execute_steps command_queue_a command_list_a).filter Step.is_report = [] := rfl
  cases metric <;>
    simp only [measurement_steps, List.filter_append, filter_iterations, he, iterations_nil,
      List.filter_cons, List.filter_nil, result_line, Step.is_report, List.nil_append,
      List.append_nil, if_true, Bool.false_eq_true, if_false]

/-- A benchmark that returns on `n` devices printed, for each ordered pair `(i, j)` in
row-major order, the result line of a reading of the timer of the session, made right
after the timed region of the pair. -/
theorem benchmark_reports {metric : Metric} {env : Env} {self : Peer} {element_size : Nat}
    {bidirectional : Bool} {transfer_type : peer_transfer_t} {w w' : World}
    (h : benchmark metric env self element_size bidirectional transfer_type w = (.ok (), w')) :
    ∃ (elapsed : Nat → Nat → Int) (steps : List Step),
      w'.trace = w.trace ++ steps ∧
      (∀ i j, i < self.device_count → j < self.device_count →
        ∃ k, elapsed i j = env.period_minus_overhead k) ∧
      steps.filter Step.is_measurement =
        concat_range self.device_count (fun i =>
          concat_range self.device_count fun j =>
            measurement_steps metric (size_mul element_size metric.number_buffer_elements)
              bidirectional transfer_type (self.device_contexts i).command_list
              (self.device_contexts i).command_queue i j (elapsed i j)) ∧
      steps.filter Step.is_report =
        concat_range self.device_count (fun i =>
          concat_range self.device_count fun j =>
            [result_line metric (size_mul element_size metric.number_buffer_elements)
              bidirectional transfer_type i j (elapsed i j)]) := by
  obtain ⟨runs, hruns, htrace⟩ := benchmark_ok_readings h
  have hfilter : ((List.range self.device_count).map
          (alloc_step self (size_mul element_size metric.number_buffer_elements)) ++
        concat_range self.device_count (fun i =>
          device_steps metric self (size_mul element_size metric.number_buffer_elements)
            bidirectional transfer_type (fun k => env.handle (w.steps + k)) i (runs i)) ++
        (List.range self.device_count).map
          (fun i => Step.memoryFree self.device_group (env.handle (w.steps + i)))).filter
        Step.is_measurement =
      concat_range self.device_count (fun i =>
        concat_range self.device_count fun j =>
          measurement_steps metric (size_mul element_size metric.number_buffer_elements)
            bidirectional transfer_type (self.device_contexts i).command_list
            (self.device_contexts i).command_queue i j ((runs i).elapsed j)) := by
    rw [List.filter_append, List.filter_append, filter_alloc_steps,
      filter_free_steps self.device_group (fun i => env.handle (w.steps + i)),
      List.nil_append, List.append_nil]
    unfold concat_range
    rw [filter_concat_from]
    apply concat_from_congr
    intro i _ hi
    exact filter_device_steps metric self _ bidirectional transfer_type _ i (runs i)
      (hruns i (by omega)).1
  refine ⟨fun i j => (runs i).elapsed j, _, htrace,
    fun i j hi hj => (hruns i hi).2 j hj, hfilter, ?_⟩
  rw [← filter_report_filter_measurement, hfilter]
  unfold concat_range
  rw [filter_concat_from]
  apply concat_from_congr
  intro i _ _
  rw [filter_concat_from]
  apply concat_from_congr
  intro j _ _
  exact filter_report_measurement_steps _ _ _ _ _ _ _ _ _

/-- The result lines of a benchmark that returns in a session whose timer always reads
`c`. -/
theorem benchmark_reports_constant {metric : Metric} {env : Env} {self : Peer}
    {element_size : Nat} {bidirectional : Bool} {transfer_type : peer_transfer_t}
    {w w' : World} (c : Int) (hc : ∀ k, env.period_minus_overhead k = c)
    (h : benchmark metric env self element_size bidirectional transfer_type w = (.ok (), w')) :
    ∃ steps : List Step, w'.trace = w.trace ++ steps ∧
      steps.filter Step.is_report =
        concat_range self.device_count (fun i =>
          concat_range self.device_count fun j =>
            [result_line metric (size_mul element_size metric.number_buffer_elements)
              bidirectional transfer_type i j c]) := by
  obtain ⟨elapsed, steps, htrace, hread, _, hlines⟩ := benchmark_reports h
  refine ⟨steps, htrace, ?_⟩
  rw [hlines]
  unfold concat_range
  apply concat_from_congr
  intro i _ hi
  apply concat_from_congr
  intro j _ hj
  obtain ⟨k, hk⟩ := hread i j (by omega) (by omega)
  rw [hk, hc k]

/-! ## Peer transfer harness: a benchmark returns when every operation succeeds -/

theorem returns_pure {α : Type} {P : α → Prop} (a : α) (h : P a) :
    Returns P (pure a : M α) :=
  fun w => ⟨a, w, rfl, h⟩

theorem returns_bind {α β : Type} {P : α → Prop} {Q : β → Prop} {m : M α} {f : α → M β}
    (hm : Returns P m) (hf : ∀ a, P a → Returns Q (f a)) : Returns Q (m >>= f) := by
  intro w
  obtain ⟨a, w1, h1, hp⟩ := hm w
  obtain ⟨b, w2, h2, hq⟩ := hf a hp w1
  exact ⟨b, w2, by rw [run_bind_ok h1, h2], hq⟩

theorem returns_unit : Returns (fun _ => True) (pure () : M Unit) :=
  fun w => ⟨(), w, rfl, trivial⟩

theorem returns_emit (s : Step) : Returns (fun _ => True) (emit s) :=
  fun w => ⟨(), w.push s, rfl, trivial⟩

theorem returns_app_call {env : Env} (h0 : ∀ k, env.result k = 0) (s : Step) :
    Returns (fun _ => True) (app_call env s) :=
  fun w => ⟨(), w.push s, app_call_ok s w (h0 _), trivial⟩

theorem returns_app_create {env : Env} (h0 : ∀ k, env.result k = 0) (s : Step) :
    Returns (fun _ => True) (app_create env s) :=
  fun w => ⟨env.handle w.steps, w.push s, app_create_ok s w (h0 _), trivial⟩

theorem returns_set_argument {env : Env} (h0 : ∀ k, env.result k = 0)
    (function : Handle) (index : Nat) (buffer : Handle) :
    Returns (fun _ => True) (set_argument env function index buffer) :=
  returns_app_call h0 _

theorem returns_append_launch (env : Env) (command_list_a function : Handle)
    (groupCountX : Nat) :
    Returns (fun _ => True) (append_launch env command_list_a function groupCountX) :=
  fun w => ⟨(), w.push _, rfl, trivial⟩

theorem returns_divide (a : Nat) {b : Nat} (hb : b ≠ 0) :
    Returns (fun _ => True) (divide a b) := by
  intro w
  refine ⟨a / b, w, ?_, trivial⟩
  unfold divide
  rw [if_neg hb]

theorem returns_period_minus_overhead (env : Env) :
    Returns (fun _ => True) (period_minus_overhead env) :=
  fun _ => ⟨_, _, rfl, trivial⟩

theorem returns_for_from {σ : Type} {body : Nat → σ → M σ}
    (hbody : ∀ i s, Returns (fun _ => True) (body i s)) (count : Nat) :
    ∀ (start : Nat) (init : σ), Returns (fun _ => True) (for_from count start body init) := by
  induction count with
  | zero => exact fun _ init => returns_pure init trivial
  | succ n ih => exact fun start init => returns_bind (hbody start init) fun s _ => ih _ s

theorem returns_for_range {σ : Type} {body : Nat → σ → M σ}
    (hbody : ∀ i s, Returns (fun _ => True) (body i s)) (n : Nat) (init : σ) :
    Returns (fun _ => True) (for_range n body init) :=
  returns_for_from hbody n 0 init

/-- The setup of a kernel returns when every operation succeeds, with the group size the
driver suggested. -/
theorem returns_copy_function_setup {env : Env} (h0 : ∀ k, env.result k = 0)
    (hg : ∀ k, (env.group_size k).1 ≠ 0) (module : Handle) (function_name : String)
    (x y z : Nat) :
    Returns (fun r => r.2.1 ≠ 0) (_copy_function_setup env module function_name x y z) := by
  unfold _copy_function_setup
  refine returns_bind (returns_app_create h0 _) fun function _ => ?_
  have hs : Returns (fun r : Nat × Nat × Nat × Nat => r.1 = 0 ∧ r.2.1 ≠ 0)
      (suggest_group_size env function x y z) :=
    fun w => ⟨_, _, rfl, h0 _, hg _⟩
  refine returns_bind hs fun r hr => ?_
  obtain ⟨result, gx, gy, gz⟩ := r
  obtain ⟨hr0, hgx⟩ := hr
  dsimp only at hr0 hgx ⊢
  rw [hr0, success_or_terminate_zero]
  refine returns_bind returns_unit fun _ _ => ?_
  have hd : Returns (fun r : Nat => r = 0)
      (driver_call env (.xeFunctionSetGroupSize function gx gy gz)) :=
    fun w => ⟨_, _, rfl, h0 _⟩
  refine returns_bind hd fun r hr => ?_
  rw [hr, success_or_terminate_zero]
  exact returns_bind returns_unit fun _ _ => returns_pure _ hgx

theorem returns_execute_and_synchronize {env : Env} (h0 : ∀ k, env.result k = 0)
    (command_queue_a command_list_a : Handle) :
    Returns (fun _ => True) (execute_and_synchronize env command_queue_a command_list_a) :=
  returns_bind (returns_app_call h0 _) fun _ _ => returns_app_call h0 _

theorem returns_bind_and_append {env : Env} (h0 : ∀ k, env.result k = 0) (metric : Metric)
    {bidirectional : Bool} {transfer_type : peer_transfer_t}
    (ht : bidirectional = true ∨ transfer_type ≠ .PEER_NONE)
    (function_a function_b buffer_i buffer_j command_list_a : Handle) (groupCountX : Nat) :
    Returns (fun _ => True) (bind_and_append metric env bidirectional transfer_type function_a
      function_b buffer_i buffer_j command_list_a groupCountX) := by
  unfold bind_and_append
  cases bidirectional
  · simp only [Bool.false_eq_true, if_false]
    refine @returns_bind _ _ (fun _ => True) _ _ _ ?_
      fun _ _ => returns_append_launch _ _ _ _
    unfold bind_unidirectional
    cases transfer_type
    · rcases ht with ht | ht
      · exact absurd ht Bool.noConfusion
      · exact absurd rfl ht
    · exact returns_bind (returns_set_argument h0 _ _ _) fun _ _ =>
        returns_set_argument h0 _ _ _
    · exact returns_bind (returns_set_argument h0 _ _ _) fun _ _ =>
        returns_set_argument h0 _ _ _
  · simp only [if_true]
    refine returns_bind (returns_set_argument h0 _ _ _) fun _ _ => ?_
    refine returns_bind (returns_set_argument h0 _ _ _) fun _ _ => ?_
    refine returns_bind (returns_set_argument h0 _ _ _) fun _ _ => ?_
    refine returns_bind (returns_set_argument h0 _ _ _) fun _ _ => ?_
    exact returns_bind (returns_append_launch _ _ _ _) fun _ _ =>
      returns_append_launch _ _ _ _

theorem returns_measure_pair {env : Env} (h0 : ∀ k, env.result k = 0) (metric : Metric)
    (buffer_size : Nat) {bidirectional : Bool} {transfer_type : peer_transfer_t}
    (ht : bidirectional = true ∨ transfer_type ≠ .PEER_NONE)
    (function_a function_b buffer_i command_list_a command_queue_a : Handle)
    (groupCountX : Nat) (buffers : Nat → Handle) (i j : Nat) :
    Returns (fun _ => True)
      (measure_pair metric env buffer_size bidirectional transfer_type function_a function_b
        buffer_i command_list_a command_queue_a groupCountX buffers i j) := by
  unfold measure_pair
  refine returns_bind (returns_bind_and_append h0 metric ht _ _ _ _ _ _) fun _ _ => ?_
  refine returns_bind (returns_app_call h0 _) fun _ _ => ?_
  refine returns_bind (returns_for_range
    (fun _ _ => returns_execute_and_synchronize h0 _ _) _ _) fun _ _ => ?_
  refine returns_bind (returns_emit _) fun _ _ => ?_
  refine returns_bind (returns_for_range
    (fun _ _ => returns_execute_and_synchronize h0 _ _) _ _) fun _ _ => ?_
  refine returns_bind (returns_emit _) fun _ _ => ?_
  exact returns_bind (returns_period_minus_overhead env) fun _ _ => returns_emit _

theorem returns_measure_device {env : Env} (h0 : ∀ k, env.result k = 0)
    (hg : ∀ k, (env.group_size k).1 ≠ 0) (metric : Metric) (self : Peer)
    (buffer_size : Nat) {bidirectional : Bool} {transfer_type : peer_transfer_t}
    (ht : bidirectional = true ∨ transfer_type ≠ .PEER_NONE) (buffers : Nat → Handle)
    (i : Nat) :
    Returns (fun _ => True)
      (measure_device metric env self buffer_size bidirectional transfer_type buffers i) := by
  unfold measure_device
  refine returns_bind (returns_copy_function_setup h0 hg _ _ _ _ _) fun r hr => ?_
  obtain ⟨function_a, gx, gy, gz⟩ := r
  dsimp only at hr ⊢
  have h2 : Returns (fun r : Handle × Nat × Nat × Nat => r.2.1 ≠ 0)
      (if bidirectional then
        _copy_function_setup env (self.device_contexts i).module "single_copy_peer_to_peer"
          metric.number_buffer_elements 1 1
      else (pure (0, gx, 0, 0) : M (Handle × Nat × Nat × Nat))) := by
    cases bidirectional
    · exact returns_pure _ hr
    · exact returns_copy_function_setup h0 hg _ _ _ _ _
  refine returns_bind h2 fun r hr2 => ?_
  obtain ⟨function_b, gx2, gy2, gz2⟩ := r
  dsimp only at hr2 ⊢
  refine returns_bind (returns_divide _ hr2) fun _ _ => ?_
  refine returns_bind (returns_for_range
    (fun _ _ => returns_measure_pair h0 metric _ ht _ _ _ _ _ _ _ _ _) _ _) fun _ _ => ?_
  refine returns_bind (returns_app_call h0 _) fun _ _ => ?_
  cases bidirectional
  · exact returns_pure _ trivial
  · exact returns_app_call h0 _

/-- In a session where every operation succeeds and no suggested group size is zero, a
benchmark that is bidirectional or has a valid transfer type returns. -/
theorem benchmark_returns {env : Env} (h0 : ∀ k, env.result k = 0)
    (hg : ∀ k, (env.group_size k).1 ≠ 0) (metric : Metric) (self : Peer)
    (element_size : Nat) {bidirectional : Bool} {transfer_type : peer_transfer_t}
    (ht : bidirectional = true ∨ transfer_type ≠ .PEER_NONE) (w : World) :
    benchmark metric env self element_size bidirectional transfer_type w =
      (.ok (), (benchmark metric env self element_size bidirectional transfer_type w).2) := by
  have hr : Returns (fun _ => True)
      (benchmark metric env self element_size bidirectional transfer_type) := by
    unfold benchmark
    refine returns_bind (returns_for_range (fun i buffers => ?_) _ _) fun buffers _ => ?_
    · unfold allocate_buffer
      exact returns_bind (returns_app_create h0 _) fun _ _ => returns_pure _ trivial
    refine returns_bind (returns_for_range
      (fun _ _ => returns_measure_device h0 hg metric self _ ht _ _) _ _) fun _ _ => ?_
    exact returns_for_range (fun _ _ => returns_app_call h0 _) _ _
  obtain ⟨_, w', hw, _⟩ := hr w
  rw [hw]

/-! ## Peer transfer harness: theorems on the reported values -/

/-- C7 (as the code has it): every call of `XePeer::bandwidth` that returns on `n`
devices, with `buffer_size = sizeof(unsigned long) * 10000000` and
`number_iterations = 5`, has printed exactly one result line for each ordered pair `(i, j)`, in row-major order,
right after the reading `elapsed_usec i j` that the timer of the session gave after the
timed region of the pair.  When that reading is not zero the bandwidth of the line
equals, in exact arithmetic, `(buffer_size * number_iterations * (2 if bidirectional
else 1)) / 1e9` divided by `elapsed_usec / 1e6`; when the reading is zero the division
of line 250 is a division by zero and the line reports `inf`.  In every call, returning
or not, each result line printed comes right after a reading and carries this value.
The call returns in every session where all operations succeed and no suggested group
size is zero, when it is bidirectional or its transfer type is valid.  With 80000000
bytes and 10000 microseconds the value is 40 unidirectional and 80 bidirectional. -/
theorem bandwidth_reports_formula (env : Env) (self : Peer) (element_size : Nat)
    (bidirectional : Bool) (transfer_type : peer_transfer_t) (w w' : World)
    (h1 : 1 ≤ element_size) (he : element_size ≤ 8)
    (h : bandwidth env self element_size bidirectional transfer_type w = (.ok (), w')) :
    (∃ (elapsed_usec : Nat → Nat → Int) (steps : List Step),
      w'.trace = w.trace ++ steps ∧
      (∀ i j, i < self.device_count → j < self.device_count →
        ∃ k, elapsed_usec i j = env.period_minus_overhead k) ∧
      steps.filter Step.is_measurement =
        concat_range self.device_count (fun i =>
          concat_range self.device_count fun j =>
            measurement_steps .bandwidth
              (size_mul element_size Metric.bandwidth.number_buffer_elements)
              bidirectional transfer_type (self.device_contexts i).command_list
              (self.device_contexts i).command_queue i j (elapsed_usec i j)) ∧
      steps.filter Step.is_report =
        concat_range self.device_count (fun i =>
          concat_range self.device_count fun j =>
            [Step.cout_gbps i j (arrow bidirectional transfer_type)
              (if elapsed_usec i j = 0 then double.inf
              else .finite
                (((element_size * 10000000 * 5 * (if bidirectional then 2 else 1) : Nat) :
                    Rat) / 1000000000 / ((elapsed_usec i j : Rat) / 1000000)))])) ∧
    (∀ w0 : World, ∃ t,
      (bandwidth env self element_size bidirectional transfer_type w0).2.trace =
        w0.trace ++ t ∧
      reported_after (fun elapsed_usec : Int =>
        if elapsed_usec = 0 then double.inf
        else .finite
          (((element_size * 10000000 * 5 * (if bidirectional then 2 else 1) : Nat) : Rat) /
            1000000000 / ((elapsed_usec : Rat) / 1000000))) none t) ∧
    ((∀ k, env.result k = 0) → (∀ k, (env.group_size k).1 ≠ 0) →
      (bidirectional = true ∨ transfer_type ≠ .PEER_NONE) →
      ∀ w0 : World, ∃ w1,
        bandwidth env self element_size bidirectional transfer_type w0 = (.ok (), w1)) ∧
    Metric.bandwidth.number_iterations = 5 ∧
    Metric.bandwidth.number_buffer_elements = 10000000 ∧
    size_mul 8 Metric.bandwidth.number_buffer_elements = 80000000 ∧
    total_bandwidth 80000000 5 false 10000 = .finite 40 ∧
    total_bandwidth 80000000 5 true 10000 = .finite 80 := by
  have e8 : size_mul 8 10000000 = 80000000 := by decide
  refine ⟨?_, ?_, fun h0 hg ht w0 => ⟨_, benchmark_returns h0 hg .bandwidth self
    element_size ht w0⟩, rfl, rfl, e8, ?_, ?_⟩
  · obtain ⟨elapsed, steps, htrace, hread, hmeasure, hlines⟩ := benchmark_reports h
    refine ⟨elapsed, steps, htrace, hread, hmeasure, ?_⟩
    rw [hlines]
    unfold concat_range
    apply concat_from_congr
    intro i _ _
    apply concat_from_congr
    intro j _ _
    show [Step.cout_gbps i j (arrow bidirectional transfer_type)
      (total_bandwidth (size_mul element_size 10000000) 5 bidirectional (elapsed i j))] = _
    rw [total_bandwidth_eq element_size h1 he bidirectional (elapsed i j)]
  · intro w0
    have hr := reported_benchmark .bandwidth env self element_size bidirectional
      transfer_type w0
    rw [reported_value_bandwidth element_size h1 he bidirectional] at hr
    exact hr
  · have e := total_bandwidth_eq 8 (by decide) (le_refl 8) false 10000
    rw [e8] at e
    rw [e, if_neg (by decide)]
    norm_num
  · have e := total_bandwidth_eq 8 (by decide) (le_refl 8) true 10000
    rw [e8] at e
    rw [e, if_neg (by decide)]
    norm_num

/-- Witness of C7 (as the code has it): the unidirectional write of `bandwidth` on the two sample devices,
with 8-byte elements and a timer that reads 10000 microseconds, returns and prints four
result lines, each reporting 40. -/
theorem bandwidth_reports_formula_witness :
    (1 ≤ 8 ∧ 8 ≤ 8 ∧
      bandwidth sample_env sample_peer 8 false .PEER_WRITE World.initial =
        (.ok (), sample_bandwidth_run.2)) ∧
    ((∃ (elapsed_usec : Nat → Nat → Int) (steps : List Step),
      sample_bandwidth_run.2.trace = World.initial.trace ++ steps ∧
      (∀ i j, i < sample_peer.device_count → j < sample_peer.device_count →
        ∃ k, elapsed_usec i j = sample_env.period_minus_overhead k) ∧
      steps.filter Step.is_measurement =
        concat_range sample_peer.device_count (fun i =>
          concat_range sample_peer.device_count fun j =>
            measurement_steps .bandwidth
              (size_mul 8 Metric.bandwidth.number_buffer_elements)
              false .PEER_WRITE (sample_peer.device_contexts i).command_list
              (sample_peer.device_contexts i).command_queue i j (elapsed_usec i j)) ∧
      steps.filter Step.is_report =
        concat_range sample_peer.device_count (fun i =>
          concat_range sample_peer.device_count fun j =>
            [Step.cout_gbps i j (arrow false .PEER_WRITE)
              (if elapsed_usec i j = 0 then double.inf
              else .finite
                (((8 * 10000000 * 5 * (if false then 2 else 1) : Nat) :
                    Rat) / 1000000000 / ((elapsed_usec i j : Rat) / 1000000)))])) ∧
    (∀ w0 : World, ∃ t,
      (bandwidth sample_env sample_peer 8 false .PEER_WRITE w0).2.trace = w0.trace ++ t ∧
      reported_after (fun elapsed_usec : Int =>
        if elapsed_usec = 0 then double.inf
        else .finite
          (((8 * 10000000 * 5 * (if false then 2 else 1) : Nat) : Rat) /
            1000000000 / ((elapsed_usec : Rat) / 1000000))) none t) ∧
    ((∀ k, sample_env.result k = 0) → (∀ k, (sample_env.group_size k).1 ≠ 0) →
      (false = true ∨ peer_transfer_t.PEER_WRITE ≠ .PEER_NONE) →
      ∀ w0 : World, ∃ w1,
        bandwidth sample_env sample_peer 8 false .PEER_WRITE w0 = (.ok (), w1)) ∧
    Metric.bandwidth.number_iterations = 5 ∧
    Metric.bandwidth.number_buffer_elements = 10000000 ∧
    size_mul 8 Metric.bandwidth.number_buffer_elements = 80000000 ∧
    total_bandwidth 80000000 5 false 10000 = .finite 40 ∧
    total_bandwidth 80000000 5 true 10000 = .finite 80) ∧
    sample_bandwidth_run.2.trace.filter Step.is_report =
      [.cout_gbps 0 0 .write (.finite 40), .cout_gbps 0 1 .write (.finite 40),
        .cout_gbps 1 0 .write (.finite 40), .cout_gbps 1 1 .write (.finite 40)] := by
  have h : bandwidth sample_env sample_peer 8 false .PEER_WRITE World.initial =
      (.ok (), sample_bandwidth_run.2) :=
    benchmark_returns (fun _ => rfl) (fun _ => (by decide : (8 : Nat) ≠ 0)) .bandwidth
      sample_peer 8 (Or.inr (by decide)) World.initial
  have H := bandwidth_reports_formula sample_env sample_peer 8 false .PEER_WRITE
    World.initial sample_bandwidth_run.2 (by decide) (le_refl 8) h
  refine ⟨⟨by decide, le_refl 8, h⟩, H, ?_⟩
  obtain ⟨⟨elapsed, steps, htrace, hread, _, hlines⟩, _⟩ := H
  have hs : sample_bandwidth_run.2.trace = steps := htrace
  have hv : ∀ i j, i < 2 → j < 2 → elapsed i j = 10000 := by
    intro i j hi hj
    obtain ⟨k, hk⟩ := hread i j hi hj
    exact hk
  rw [hs, hlines]
  show [Step.cout_gbps 0 0 (arrow false .PEER_WRITE) _,
    Step.cout_gbps 0 1 (arrow false .PEER_WRITE) _,
    Step.cout_gbps 1 0 (arrow false .PEER_WRITE) _,
    Step.cout_gbps 1 1 (arrow false .PEER_WRITE) _] = _
  rw [hv 0 0 (by decide) (by decide), hv 0 1 (by decide) (by decide),
    hv 1 0 (by decide) (by decide), hv 1 1 (by decide) (by decide)]
  have hq : (if (10000 : Int) = 0 then double.inf
      else .finite (((8 * 10000000 * 5 * (if false then 2 else 1) : Nat) : Rat) /
        1000000000 / (((10000 : Int) : Rat) / 1000000))) = .finite 40 := by
    rw [if_neg (by decide)]
    norm_num
  rw [hq]
  rfl

/-- C7, counterexample to the claim: in the session whose timer reads 0 microseconds the
unidirectional write of `bandwidth` on the two sample devices returns and every result
line reports `inf`, which is not a number and so not the quotient of the claim. -/
theorem bandwidth_zero_reading_counterexample :
    bandwidth zero_reading_env sample_peer 8 false .PEER_WRITE World.initial =
      (.ok (), zero_reading_run.2) ∧
    zero_reading_run.2.trace.filter Step.is_report =
      [.cout_gbps 0 0 .write .inf, .cout_gbps 0 1 .write .inf,
        .cout_gbps 1 0 .write .inf, .cout_gbps 1 1 .write .inf] ∧
    (∀ k, zero_reading_env.period_minus_overhead k = 0) ∧
    total_bandwidth (size_mul 8 Metric.bandwidth.number_buffer_elements)
      Metric.bandwidth.number_iterations false 0 = .inf ∧
    (∀ q : Rat, double.inf ≠ .finite q) := by
  have h : benchmark .bandwidth zero_reading_env sample_peer 8 false .PEER_WRITE
      World.initial = (.ok (), zero_reading_run.2) :=
    benchmark_returns (fun _ => rfl) (fun _ => (by decide : (8 : Nat) ≠ 0)) .bandwidth
      sample_peer 8 (Or.inr (by decide)) World.initial
  have hv : total_bandwidth (size_mul 8 10000000) 5 false 0 = .inf := by
    rw [total_bandwidth_eq 8 (by decide) (le_refl 8) false 0, if_pos rfl]
  obtain ⟨steps, htrace, hlines⟩ := benchmark_reports_constant 0 (fun _ => rfl) h
  refine ⟨h, ?_, fun _ => rfl, hv, fun q hq => double.noConfusion hq⟩
  have hs : zero_reading_run.2.trace = steps := htrace
  rw [hs, hlines]
  show [Step.cout_gbps 0 0 (arrow false .PEER_WRITE)
      (total_bandwidth (size_mul 8 10000000) 5 false 0),
    Step.cout_gbps 0 1 (arrow false .PEER_WRITE)
      (total_bandwidth (size_mul 8 10000000) 5 false 0),
    Step.cout_gbps 1 0 (arrow false .PEER_WRITE)
      (total_bandwidth (size_mul 8 10000000) 5 false 0),
    Step.cout_gbps 1 1 (arrow false .PEER_WRITE)
      (total_bandwidth (size_mul 8 10000000) 5 false 0)] = _
  rw [hv]
  rfl

/-- C8: every call of `XePeer::latency` that returns on `n` devices, unidirectional or
bidirectional, has printed exactly one result line for each ordered pair `(i, j)`, in
row-major order, right after the reading `elapsed_usec i j` that the timer of the
session gave after the timed loop of the pair, and the latency of the line equals, in
exact arithmetic, that reading divided by `number_iterations = 100`.  In every call,
returning or not, each result line printed comes right after a reading and carries
this value.  The call returns in every session where all operations succeed and no
suggested group size is zero, when it is bidirectional or its transfer type is valid.
A measured loop of 500 microseconds reports 5. -/
theorem latency_reports_mean (env : Env) (self : Peer) (element_size : Nat)
    (bidirectional : Bool) (transfer_type : peer_transfer_t) (w w' : World)
    (h : latency env self element_size bidirectional transfer_type w = (.ok (), w')) :
    (∃ (elapsed_usec : Nat → Nat → Int) (steps : List Step),
      w'.trace = w.trace ++ steps ∧
      (∀ i j, i < self.device_count → j < self.device_count →
        ∃ k, elapsed_usec i j = env.period_minus_overhead k) ∧
      steps.filter Step.is_measurement =
        concat_range self.device_count (fun i =>
          concat_range self.device_count fun j =>
            measurement_steps .latency
              (size_mul element_size Metric.latency.number_buffer_elements)
              bidirectional transfer_type (self.device_contexts i).command_list
              (self.device_contexts i).command_queue i j (elapsed_usec i j)) ∧
      steps.filter Step.is_report =
        concat_range self.device_count (fun i =>
          concat_range self.device_count fun j =>
            [Step.cout_usec i j (arrow bidirectional transfer_type)
              (.finite ((elapsed_usec i j : Rat) / 100))])) ∧
    (∀ w0 : World, ∃ t,
      (latency env self element_size bidirectional transfer_type w0).2.trace =
        w0.trace ++ t ∧
      reported_after (fun elapsed_usec : Int => double.finite ((elapsed_usec : Rat) / 100))
        none t) ∧
    ((∀ k, env.result k = 0) → (∀ k, (env.group_size k).1 ≠ 0) →
      (bidirectional = true ∨ transfer_type ≠ .PEER_NONE) →
      ∀ w0 : World, ∃ w1,
        latency env self element_size bidirectional transfer_type w0 = (.ok (), w1)) ∧
    Metric.latency.number_iterations = 100 ∧
    total_time_usec Metric.latency.number_iterations 500 = .finite 5 := by
  refine ⟨?_, ?_, fun h0 hg ht w0 => ⟨_, benchmark_returns h0 hg .latency self
    element_size ht w0⟩, rfl, ?_⟩
  · obtain ⟨elapsed, steps, htrace, hread, hmeasure, hlines⟩ := benchmark_reports h
    refine ⟨elapsed, steps, htrace, hread, hmeasure, ?_⟩
    rw [hlines]
    unfold concat_range
    apply concat_from_congr
    intro i _ _
    apply concat_from_congr
    intro j _ _
    show [Step.cout_usec i j (arrow bidirectional transfer_type)
      (total_time_usec 100 (elapsed i j))] = _
    rw [total_time_usec_eq]
  · intro w0
    have hr := reported_benchmark .latency env self element_size bidirectional
      transfer_type w0
    rw [reported_value_latency] at hr
    exact hr
  · show total_time_usec 100 500 = _
    rw [total_time_usec_eq]
    norm_num

/-- Witness of C8: the bidirectional call of `latency` on the two sample devices, with
a timer that reads 500 microseconds, returns and prints four result lines, each
reporting 5. -/
theorem latency_reports_mean_witness :
    (latency sample_latency_env sample_peer 8 true .PEER_NONE World.initial =
      (.ok (), sample_latency_run.2)) ∧
    ((∃ (elapsed_usec : Nat → Nat → Int) (steps : List Step),
      sample_latency_run.2.trace = World.initial.trace ++ steps ∧
      (∀ i j, i < sample_peer.device_count → j < sample_peer.device_count →
        ∃ k, elapsed_usec i j = sample_latency_env.period_minus_overhead k) ∧
      steps.filter Step.is_measurement =
        concat_range sample_peer.device_count (fun i =>
          concat_range sample_peer.device_count fun j =>
            measurement_steps .latency
              (size_mul 8 Metric.latency.number_buffer_elements)
              true .PEER_NONE (sample_peer.device_contexts i).command_list
              (sample_peer.device_contexts i).command_queue i j (elapsed_usec i j)) ∧
      steps.filter Step.is_report =
        concat_range sample_peer.device_count (fun i =>
          concat_range sample_peer.device_count fun j =>
            [Step.cout_usec i j (arrow true .PEER_NONE)
              (.finite ((elapsed_usec i j : Rat) / 100))])) ∧
    (∀ w0 : World, ∃ t,
      (latency sample_latency_env sample_peer 8 true .PEER_NONE w0).2.trace =
        w0.trace ++ t ∧
      reported_after (fun elapsed_usec : Int => double.finite ((elapsed_usec : Rat) / 100))
        none t) ∧
    ((∀ k, sample_latency_env.result k = 0) →
      (∀ k, (sample_latency_env.group_size k).1 ≠ 0) →
      (true = true ∨ peer_transfer_t.PEER_NONE ≠ .PEER_NONE) →
      ∀ w0 : World, ∃ w1,
        latency sample_latency_env sample_peer 8 true .PEER_NONE w0 = (.ok (), w1)) ∧
    Metric.latency.number_iterations = 100 ∧
    total_time_usec Metric.latency.number_iterations 500 = .finite 5) ∧
    sample_latency_run.2.trace.filter Step.is_report =
      [.cout_usec 0 0 .both (.finite 5), .cout_usec 0 1 .both (.finite 5),
        .cout_usec 1 0 .both (.finite 5), .cout_usec 1 1 .both (.finite 5)] := by
  have h : latency sample_latency_env sample_peer 8 true .PEER_NONE World.initial =
      (.ok (), sample_latency_run.2) :=
    benchmark_returns (fun _ => rfl) (fun _ => (by decide : (8 : Nat) ≠ 0)) .latency
      sample_peer 8 (Or.inl rfl) World.initial
  have H := latency_reports_mean sample_latency_env sample_peer 8 true .PEER_NONE
    World.initial sample_latency_run.2 h
  refine ⟨h, H, ?_⟩
  obtain ⟨⟨elapsed, steps, htrace, hread, _, hlines⟩, _⟩ := H
  have hs : sample_latency_run.2.trace = steps := htrace
  have hv : ∀ i j, i < 2 → j < 2 → elapsed i j = 500 := by
    intro i j hi hj
    obtain ⟨k, hk⟩ := hread i j hi hj
    exact hk
  rw [hs, hlines]
  show [Step.cout_usec 0 0 (arrow true .PEER_NONE) _,
    Step.cout_usec 0 1 (arrow true .PEER_NONE) _,
    Step.cout_usec 1 0 (arrow true .PEER_NONE) _,
    Step.cout_usec 1 1 (arrow true .PEER_NONE) _] = _
  rw [hv 0 0 (by decide) (by decide), hv 0 1 (by decide) (by decide),
    hv 1 0 (by decide) (by decide), hv 1 1 (by decide) (by decide)]
  have hq : (((500 : Int) : Rat) / 100) = 5 := by norm_num
  rw [hq]
  rfl

end XePeer

namespace ComputeSamples

/-! ## Unified shared memory types: reading is the partial inverse of printing -/

/-- An extraction that fails leaves the string as it was. -/
theorem extract_string_failbit {is : istream} {s : String}
    (h : (extract_string is s).1.failbit = true) : (extract_string is s).2 = s := by
  unfold extract_string at h ⊢
  by_cases h1 : (is.failbit || is.eofbit) = true
  · rw [if_pos h1]
  · rw [if_neg h1] at h ⊢
    dsimp only at h ⊢
    by_cases h2 : is.buffer.dropWhile isspace = []
    · rw [if_pos h2]
    · rw [if_neg h2] at h
      exact absurd h Bool.noConfusion

/-- An extraction that reads a word leaves `failbit` clear. -/
theorem extract_string_word {is : istream} (h : (extract_string is "").2 ≠ "") :
    (extract_string is "").1.failbit = false := by
  cases hb : (extract_string is "").1.failbit
  · rfl
  · exact absurd (extract_string_failbit hb) h

theorem operator_extract_eq (is : istream) (x : usm_type) :
    operator_extract is x =
      assign_or_fail (extract_string is "").1 (extract_string is "").2 x := rfl

/-- The conditional statement of `operator>>`, for a stream whose `failbit` is clear
whenever the word is not empty. -/
theorem assign_or_fail_spec (is : istream) (s : String) (x : usm_type)
    (hfail : s ≠ "" → is.failbit = false) :
    ((assign_or_fail is s x).1.failbit = false ↔
      s = "host" ∨ s = "device" ∨ s = "shared") ∧
    ((assign_or_fail is s x).1.failbit = false → to_string (assign_or_fail is s x).2 = s) ∧
    ((assign_or_fail is s x).1.failbit = true → (assign_or_fail is s x).2 = x) := by
  unfold assign_or_fail
  by_cases h1 : s = "host"
  · subst h1
    have hf := hfail (by decide)
    rw [if_pos rfl]
    exact ⟨⟨fun _ => Or.inl rfl, fun _ => hf⟩, fun _ => rfl,
      fun h => absurd (hf.symm.trans h) Bool.noConfusion⟩
  · rw [if_neg h1]
    by_cases h2 : s = "device"
    · subst h2
      have hf := hfail (by decide)
      rw [if_pos rfl]
      exact ⟨⟨fun _ => Or.inr (Or.inl rfl), fun _ => hf⟩, fun _ => rfl,
        fun h => absurd (hf.symm.trans h) Bool.noConfusion⟩
    · rw [if_neg h2]
      by_cases h3 : s = "shared"
      · subst h3
        have hf := hfail (by decide)
        rw [if_pos rfl]
        exact ⟨⟨fun _ => Or.inr (Or.inr rfl), fun _ => hf⟩, fun _ => rfl,
          fun h => absurd (hf.symm.trans h) Bool.noConfusion⟩
      · rw [if_neg h3]
        refine ⟨⟨fun h => absurd h Bool.noConfusion, ?_⟩,
          fun h => absurd h Bool.noConfusion, fun _ => rfl⟩
        rintro (h | h | h)
        · exact absurd h h1
        · exact absurd h h2
        · exact absurd h h3

/-- C30: `operator>>` for `usm_type` is the partial inverse of `to_string`.  Reading
succeeds, that is leaves `failbit` clear, if and only if the word read is "host",
"device" or "shared"; on success the value read prints as that word; in every other
case, the word "unknown" that `to_string` gives for any other value included, `failbit`
is set and the variable is left unchanged.  Reading what `to_string` prints for `host`,
`device` and `shared` gives the value back. -/
theorem operator_extract_partial_inverse (is : istream) (x : usm_type) :
    ((operator_extract is x).1.failbit = false ↔
      next_word is = "host" ∨ next_word is = "device" ∨ next_word is = "shared") ∧
    ((operator_extract is x).1.failbit = false →
      to_string (operator_extract is x).2 = next_word is) ∧
    ((operator_extract is x).1.failbit = true → (operator_extract is x).2 = x) ∧
    (next_word is = "unknown" →
      (operator_extract is x).1.failbit = true ∧ (operator_extract is x).2 = x) ∧
    (∀ y, y = usm_type.host ∨ y = usm_type.device ∨ y = usm_type.shared →
      operator_extract (istream.of (to_string y)) x = (⟨[], false, true⟩, y)) ∧
    (∀ value, operator_extract (istream.of (to_string (.other value))) x =
      (⟨[], true, true⟩, x)) := by
  have hspec := assign_or_fail_spec (extract_string is "").1 (extract_string is "").2 x
    extract_string_word
  rw [operator_extract_eq]
  unfold next_word
  refine ⟨hspec.1, hspec.2.1, hspec.2.2, ?_, ?_, ?_⟩
  · intro hu
    rw [hu]
    exact ⟨rfl, rfl⟩
  · rintro y (rfl | rfl | rfl) <;> rfl
  · intro value
    rfl

end ComputeSamples
